import Mathlib

/-!
Jajanin payment pipeline: donation ledger, payment reconciliation, PSP client
and alert broadcaster.

A shallow embedding of the payment pipeline of the Jajanin backend
(`backend/internal/...`): the donation ledger `DonationService.UpdatePaymentStatus`,
donation creation `DonationService.CreateDonation`, the Paylabs client (request
signing, `callPaylabsAPI`, the create, query and cancel calls, the PSP status
vocabulary), the three reconciliation handlers of `handlers/payment.go`, and the
subscriber registry of `services/alert_service.go`.

Modelling conventions.
* The database is a value: the `donations` and `users` tables are lists of rows
  in primary-key order, so that GORM's `First` is the first matching row.
* Everything the code obtains from outside the process is an explicit input:
  the clock, a new id, a database fault, the HTTP round trip with the PSP, and
  the standard library's JSON coding, digest, signer and base64 encoder.
* Channels are referred to by identity; their buffers live next to the registry.
  A panic is recorded with the state reached when it happened.
* `log` calls write no state that the program reads back and are left out.
-/

namespace Jajanin

/-! ## models -/

/-- `uuid.UUID`: sixteen bytes, read as one 128-bit number. -/
abbrev UUID := Fin (2 ^ 128)

/-- One lowercase hexadecimal digit. -/
def hexDigit (d : Nat) : Char :=
  "0123456789abcdef".toList.getD d '0'

/-- The 32 hexadecimal digits of an id, most significant first. -/
def UUID.hex (u : UUID) : List Char :=
  (List.range 32).map (fun i => hexDigit ((u.val / 16 ^ (31 - i)) % 16))

/-- `uuid.UUID.String`: the canonical `8-4-4-4-12` form. -/
def UUID.str (u : UUID) : String :=
  let h := u.hex
  String.mk (h.take 8 ++ ['-'] ++ (h.drop 8).take 4 ++ ['-'] ++ (h.drop 12).take 4
    ++ ['-'] ++ (h.drop 16).take 4 ++ ['-'] ++ h.drop 20)

/-- `time.Time` as the wall clock reading it carries: calendar fields and the zone
offset in seconds east of UTC. -/
structure Time where
  year : Nat := 1
  month : Nat := 1
  day : Nat := 1
  hour : Nat := 0
  minute : Nat := 0
  second : Nat := 0
  nanosecond : Nat := 0
  offset : Int := 0
  deriving DecidableEq, Repr

/-- `models.PaymentStatus` is declared `type PaymentStatus string`. -/
abbrev PaymentStatus := String

def PaymentStatusPending : PaymentStatus := "pending"
def PaymentStatusPaid : PaymentStatus := "paid"
def PaymentStatusFailed : PaymentStatus := "failed"
def PaymentStatusExpired : PaymentStatus := "expired"

/-- `models.Donation`: the stored columns (the preloaded relations `Creator`,
`Product`, `Buyer` are not columns). -/
structure Donation where
  ID : UUID
  CreatorID : UUID
  ProductID : Option UUID := none
  BuyerID : Option UUID := none
  BuyerName : String := ""
  BuyerEmail : String := ""
  Amount : Int := 0
  Quantity : Int := 0
  Message : String := ""
  PaymentID : String := ""
  PaymentStatus : PaymentStatus := ""
  PaymentMethod : String := ""
  ProductName : String := ""
  ProductEmoji : String := ""
  CreatedAt : Time := {}
  PaidAt : Option Time := none
  deriving DecidableEq, Repr

/-- `models.User`: the columns the payment pipeline reads, and the soft-delete
mark that every GORM query on the table filters on. -/
structure User where
  ID : UUID
  Email : String := ""
  Name : String := ""
  Username : Option String := none
  Role : String := ""
  BankName : String := ""
  BankAccount : String := ""
  BankHolder : String := ""
  StreamKey : String := ""
  DeletedAt : Option Time := none
  deriving DecidableEq, Repr

/-- `services.AlertData`. -/
structure AlertData where
  SupporterName : String
  Amount : Int
  Message : String
  CreatorName : String
  ProductName : String
  ProductEmoji : String
  Quantity : Int
  deriving DecidableEq, Repr

/-- `models.QuickItem`. -/
structure QuickItem where
  ID : UUID
  Name : String := ""
  Emoji : String := ""
  Amount : Int := 0
  SortOrder : Int := 0
  IsActive : Bool := true
  CreatedAt : Time := {}
  UpdatedAt : Time := {}
  deriving DecidableEq, Repr

/-- `models.WithdrawalStatus` is declared `type WithdrawalStatus string`. -/
abbrev WithdrawalStatus := String

def WithdrawalStatusPending : WithdrawalStatus := "pending"
def WithdrawalStatusProcessing : WithdrawalStatus := "processing"
def WithdrawalStatusCompleted : WithdrawalStatus := "completed"
def WithdrawalStatusRejected : WithdrawalStatus := "rejected"

/-- `models.Withdrawal`: the stored columns. -/
structure Withdrawal where
  ID : UUID
  UserID : UUID
  Amount : Int := 0
  Status : WithdrawalStatus := ""
  BankName : String := ""
  BankAccount : String := ""
  BankHolder : String := ""
  Notes : String := ""
  CreatedAt : Time := {}
  ProcessedAt : Option Time := none
  deriving DecidableEq, Repr

/-! ## state -/

/-- The state the pipeline reads and writes: the donations and users tables, the
calls made to `AlertService.Broadcast` (creator key and alert), oldest first, the
quick items table and the withdrawals table. -/
structure World where
  donations : List Donation := []
  users : List User := []
  broadcasts : List (String × AlertData) := []
  products : List QuickItem := []
  withdrawals : List Withdrawal := []
  deriving DecidableEq, Repr

/-- What one ledger call obtains from outside: the clock, and for each of its
three database statements the error the database answers with, if any. -/
structure Env where
  now : Time := {}
  findErr : Option String := none
  updateErr : Option String := none
  userErr : Option String := none
  deriving DecidableEq, Repr

/-- `gorm.ErrRecordNotFound`. -/
def ErrRecordNotFound : String := "record not found"

/-! ## repository -/

/-- `DonationRepository.FindByPaymentID`: `First(&donation, "payment_id = ?", paymentID)`. -/
def DonationRepository.FindByPaymentID (donations : List Donation) (dbErr : Option String)
    (paymentID : String) : Except String Donation :=
  match dbErr with
  | some e => .error e
  | none =>
    match donations.find? (fun d => d.PaymentID == paymentID) with
    | some d => .ok d
    | none => .error ErrRecordNotFound

/-- The row update of `DonationRepository.UpdatePaymentStatus`: the `updates` map
holds `payment_status`, and `paid_at` only when the status is paid. -/
def applyStatusUpdate (status : PaymentStatus) (now : Time) (d : Donation) : Donation :=
  if status == PaymentStatusPaid then
    { d with PaymentStatus := status, PaidAt := some now }
  else
    { d with PaymentStatus := status }

/-- `DonationRepository.UpdatePaymentStatus`:
`Model(&Donation{}).Where("id = ?", id).Updates(updates)`. -/
def DonationRepository.UpdatePaymentStatus (donations : List Donation) (dbErr : Option String)
    (now : Time) (id : UUID) (status : PaymentStatus) : Except String (List Donation) :=
  match dbErr with
  | some e => .error e
  | none => .ok (donations.map (fun d => if d.ID = id then applyStatusUpdate status now d else d))

/-- `UserRepository.FindByID`: `First(&user, "id = ?", id)` on a soft-delete model. -/
def UserRepository.FindByID (users : List User) (dbErr : Option String) (id : UUID) :
    Except String User :=
  match dbErr with
  | some e => .error e
  | none =>
    match users.find? (fun u => u.ID == id && u.DeletedAt.isNone) with
    | some u => .ok u
    | none => .error ErrRecordNotFound

/-- `UserRepository.FindByUsername`: `First(&user, "username = ?", username)`. -/
def UserRepository.FindByUsername (users : List User) (dbErr : Option String)
    (username : String) : Except String User :=
  match dbErr with
  | some e => .error e
  | none =>
    match users.find? (fun u => u.Username == some username && u.DeletedAt.isNone) with
    | some u => .ok u
    | none => .error ErrRecordNotFound

/-- `DonationRepository.FindProductByID`: `First(&product, "id = ?", id)`. -/
def DonationRepository.FindProductByID (products : List QuickItem) (dbErr : Option String)
    (id : UUID) : Except String QuickItem :=
  match dbErr with
  | some e => .error e
  | none =>
    match products.find? (fun p => p.ID == id) with
    | some p => .ok p
    | none => .error ErrRecordNotFound

/-- `uuid.Nil`. -/
def uuidNil : UUID := 0

/-- The row an insert stores for a donation struct: `BeforeCreate` gives a nil id
a new one, `autoCreateTime` stamps a zero creation time, and the column defaults
(`quantity` 1, `payment_status` pending, `payment_method` qris) replace zero
values. -/
def createdRow (now : Time) (newID : UUID) (d : Donation) : Donation :=
  { d with
    ID := if d.ID = uuidNil then newID else d.ID
    CreatedAt := if d.CreatedAt = {} then now else d.CreatedAt
    Quantity := if d.Quantity = 0 then 1 else d.Quantity
    PaymentStatus := if d.PaymentStatus = "" then PaymentStatusPending else d.PaymentStatus
    PaymentMethod := if d.PaymentMethod = "" then "qris" else d.PaymentMethod }

/-- A row put at its place in primary-key order. -/
def insertByID (d : Donation) : List Donation → List Donation
  | [] => [d]
  | x :: rest => if d.ID < x.ID then d :: x :: rest else x :: insertByID d rest

/-- `DonationRepository.Create`: `db.Create(donation)`; the struct as the insert
leaves it, and the table. The primary key refuses a second row with the id. -/
def DonationRepository.Create (donations : List Donation) (dbErr : Option String)
    (now : Time) (newID : UUID) (donation : Donation) :
    Except String (Donation × List Donation) :=
  match dbErr with
  | some e => .error e
  | none =>
    let row := createdRow now newID donation
    if donations.any (fun x => x.ID == row.ID) then
      .error "duplicate key value violates unique constraint"
    else
      .ok (row, insertByID row donations)

/-- `DonationRepository.Update`: `db.Save(donation)` writes every column of the
row with the struct's id; when no row has the id it inserts the struct, as
`db.Create` does (a nil id gets a new one, `autoCreateTime`, column defaults). -/
def DonationRepository.Update (donations : List Donation) (dbErr : Option String)
    (now : Time) (newID : UUID) (donation : Donation) : Except String (List Donation) :=
  match dbErr with
  | some e => .error e
  | none =>
    if donations.any (fun x => x.ID == donation.ID) then
      .ok (donations.map (fun x => if x.ID = donation.ID then donation else x))
    else
      match DonationRepository.Create donations none now newID donation with
      | .error e => .error e
      | .ok (_, rows) => .ok rows

/-- `repository.DonationStats`. -/
structure DonationStats where
  TotalAmount : Int := 0
  TotalDonations : Int := 0
  TotalSupporters : Int := 0
  deriving DecidableEq, Repr

/-- The `WHERE creator_id = ? AND payment_status = ?` of the statistics queries,
with the status paid. -/
def paidFor (creatorID : UUID) (d : Donation) : Bool :=
  d.CreatorID == creatorID && d.PaymentStatus == PaymentStatusPaid

/-- `DonationRepository.GetStats`: the first query scans `COALESCE(SUM(amount), 0)`
and `COUNT(*)`, the second counts the distinct `buyer_email`; a failed query
leaves its fields at zero, and no error is returned. The sum is the database's,
in exact arithmetic; `TotalAmount` is an `int64`, and a sum outside its range
cannot be scanned into it: that scan is a failed one. The counts are row counts
of a table and fit. -/
def DonationRepository.GetStats (donations : List Donation) (sumErr countErr : Option String)
    (creatorID : UUID) : DonationStats :=
  let rows := donations.filter (paidFor creatorID)
  let totals : Int × Int :=
    match sumErr with
    | some _ => (0, 0)
    | none =>
      let sum := (rows.map (fun d => d.Amount)).sum
      if -(2 : Int) ^ 63 ≤ sum ∧ sum < 2 ^ 63 then (sum, rows.length) else (0, 0)
  let supporters : Int :=
    match countErr with
    | some _ => 0
    | none => ((rows.map (fun d => d.BuyerEmail)).dedup.length : Nat)
  { TotalAmount := totals.1, TotalDonations := totals.2, TotalSupporters := supporters }

/-- The value an `int64` holds after an arithmetic operation with the exact
result `x`. -/
def int64 (x : Int) : Int :=
  (x + 2 ^ 63) % 2 ^ 64 - 2 ^ 63

/-- `WithdrawalRepository.GetPendingTotal`: the sum over the user's pending and
processing withdrawals. -/
def WithdrawalRepository.GetPendingTotal (withdrawals : List Withdrawal)
    (dbErr : Option String) (userID : UUID) : Except String Int :=
  match dbErr with
  | some e => .error e
  | none =>
    .ok ((withdrawals.filter (fun x => x.UserID == userID &&
      (x.Status == WithdrawalStatusPending || x.Status == WithdrawalStatusProcessing))).map
        (fun x => x.Amount)).sum

/-- `WithdrawalRepository.GetCompletedTotal`: the sum over the user's completed
withdrawals. -/
def WithdrawalRepository.GetCompletedTotal (withdrawals : List Withdrawal)
    (dbErr : Option String) (userID : UUID) : Except String Int :=
  match dbErr with
  | some e => .error e
  | none =>
    .ok ((withdrawals.filter (fun x => x.UserID == userID &&
      x.Status == WithdrawalStatusCompleted)).map (fun x => x.Amount)).sum

/-- `WithdrawalRepository.Create`: `db.Create(withdrawal)`; `BeforeCreate` gives a
nil id a new one, `autoCreateTime` stamps a zero creation time, and the primary
key refuses a second row with the id. New rows are appended. -/
def WithdrawalRepository.Create (withdrawals : List Withdrawal) (dbErr : Option String)
    (now : Time) (newID : UUID) (x : Withdrawal) :
    Except String (Withdrawal × List Withdrawal) :=
  match dbErr with
  | some e => .error e
  | none =>
    let row : Withdrawal :=
      { x with
        ID := if x.ID = uuidNil then newID else x.ID
        CreatedAt := if x.CreatedAt = {} then now else x.CreatedAt
        Status := if x.Status = "" then WithdrawalStatusPending else x.Status }
    if withdrawals.any (fun y => y.ID == row.ID) then
      .error "duplicate key value violates unique constraint"
    else
      .ok (row, withdrawals ++ [row])

/-! ## services: withdrawals -/

/-- `services.CreateWithdrawalInput`. -/
structure CreateWithdrawalInput where
  Amount : Int
  deriving DecidableEq, Repr

/-- What a withdrawal call obtains from outside: the database answers of its
statements, and the clock and the new id of the insert. -/
structure WithdrawalEnv where
  userErr : Option String := none
  sumErr : Option String := none
  countErr : Option String := none
  pendingErr : Option String := none
  completedErr : Option String := none
  createErr : Option String := none
  now : Time := {}
  newID : UUID := 1
  deriving DecidableEq, Repr

/-- `WithdrawalService.CreateWithdrawal`: what it returns, and the state after. -/
def WithdrawalService.CreateWithdrawal (w : World) (env : WithdrawalEnv) (userID : UUID)
    (input : CreateWithdrawalInput) : Except String Withdrawal × World :=
  match UserRepository.FindByID w.users env.userErr userID with
  | .error _ => (.error "user not found", w)
  | .ok user =>
    if user.BankName == "" || user.BankAccount == "" || user.BankHolder == "" then
      (.error "please set your bank information first", w)
    else
      let stats := DonationRepository.GetStats w.donations env.sumErr env.countErr userID
      match WithdrawalRepository.GetPendingTotal w.withdrawals env.pendingErr userID with
      | .error _ => (.error "failed to check pending withdrawals", w)
      | .ok pendingTotal =>
        let availableBalance := int64 (stats.TotalAmount - pendingTotal)
        if input.Amount > availableBalance then
          (.error "insufficient balance", w)
        else
          let withdrawal : Withdrawal :=
            { ID := uuidNil
              UserID := userID
              Amount := input.Amount
              Status := WithdrawalStatusPending
              BankName := user.BankName
              BankAccount := user.BankAccount
              BankHolder := user.BankHolder }
          match WithdrawalRepository.Create w.withdrawals env.createErr env.now env.newID
              withdrawal with
          | .error _ => (.error "failed to create withdrawal request", w)
          | .ok (row, rows) => (.ok row, { w with withdrawals := rows })

/-- `WithdrawalService.GetBalance`: the returned map, as its entries. -/
def WithdrawalService.GetBalance (w : World) (env : WithdrawalEnv) (userID : UUID) :
    Except String (List (String × Int)) :=
  let stats := DonationRepository.GetStats w.donations env.sumErr env.countErr userID
  match WithdrawalRepository.GetPendingTotal w.withdrawals env.pendingErr userID with
  | .error e => .error e
  | .ok pendingTotal =>
    match WithdrawalRepository.GetCompletedTotal w.withdrawals env.completedErr userID with
    | .error e => .error e
    | .ok completedTotal =>
      .ok [("total_earned", stats.TotalAmount),
           ("total_withdrawn", completedTotal),
           ("pending_withdrawals", pendingTotal),
           ("available_balance", int64 (int64 (stats.TotalAmount - pendingTotal) - completedTotal))]

/-! ## services: the donation ledger -/

/-- `config.Config`: the fields the payment services read. -/
structure Config where
  PaylabsMerchantID : String := ""
  PaylabsAPIURL : String := ""
  AppURL : String := ""
  deriving DecidableEq, Repr

/-- `rsa.PrivateKey`: modulus and the two exponents. -/
structure PrivateKey where
  N : Nat := 0
  E : Nat := 0
  D : Nat := 0
  deriving DecidableEq, Repr

/-- `services.PaylabsService`: configuration and the loaded private key (the HTTP
client is part of the transport, which is an input). -/
structure PaylabsService where
  cfg : Config := {}
  privateKey : PrivateKey := {}
  deriving DecidableEq, Repr

/-- `services.DonationService`: `alertService` is `true` when the pointer is
non-nil; `main` builds the service with `NewAlertService()`. -/
structure DonationService where
  paylabs : PaylabsService := {}
  alertService : Bool := true
  deriving DecidableEq, Repr

/-- The alert built by `UpdatePaymentStatus` from the donation read before the
write and the creator row. -/
def alertFor (donation : Donation) (creator : User) : AlertData :=
  { SupporterName := donation.BuyerName
    Amount := donation.Amount
    Message := donation.Message
    CreatorName := creator.Name
    Quantity := donation.Quantity
    ProductName := donation.ProductName
    ProductEmoji := donation.ProductEmoji }

/-- `DonationService.GetDonationByPaymentID`. -/
def DonationService.GetDonationByPaymentID (_s : DonationService) (w : World)
    (dbErr : Option String) (paymentID : String) : Except String Donation :=
  DonationRepository.FindByPaymentID w.donations dbErr paymentID

/-- `DonationService.UpdatePaymentStatus`: the returned error (or `ok`), and the
state after the call. -/
def DonationService.UpdatePaymentStatus (s : DonationService) (w : World) (env : Env)
    (paymentID : String) (status : PaymentStatus) : Except String Unit × World :=
  match DonationRepository.FindByPaymentID w.donations env.findErr paymentID with
  | .error _ => (.error "donation not found", w)
  | .ok donation =>
    if donation.PaymentStatus == status then
      (.ok (), w)
    else if donation.PaymentStatus == PaymentStatusPaid then
      (.ok (), w)
    else
      match DonationRepository.UpdatePaymentStatus w.donations env.updateErr env.now
          donation.ID status with
      | .error e => (.error e, w)
      | .ok donations =>
        let w1 : World := { w with donations := donations }
        if status == PaymentStatusPaid && s.alertService then
          match UserRepository.FindByID w1.users env.userErr donation.CreatorID with
          | .ok creator =>
            (.ok (), { w1 with broadcasts := w1.broadcasts ++ [(creator.ID.str, alertFor donation creator)] })
          | .error _ => (.ok (), w1)
        else
          (.ok (), w1)

/-- `ewalletPaymentTypes`: payment method to Paylabs paymentType. -/
def ewalletPaymentTypes : List (String × String) :=
  [("gopay", "GOPAYBALANCE"), ("dana", "DANABALANCE"), ("shopee", "SHOPEEBALANCE"),
   ("ovo", "OVOBALANCE"), ("linkaja", "LINKAJABALANCE")]

/-- `UpdatePaymentStatus` from its second statement on, run on the donation its
`FindByPaymentID` returned: the two status checks, the write, and the broadcast.
The state it runs in is the state at that time, which other requests may have
written since the donation was read. -/
def DonationService.decideAndWrite (s : DonationService) (w : World) (env : Env)
    (donation : Donation) (status : PaymentStatus) : Except String Unit × World :=
  if donation.PaymentStatus == status then
    (.ok (), w)
  else if donation.PaymentStatus == PaymentStatusPaid then
    (.ok (), w)
  else
    match DonationRepository.UpdatePaymentStatus w.donations env.updateErr env.now
        donation.ID status with
    | .error e => (.error e, w)
    | .ok donations =>
      let w1 : World := { w with donations := donations }
      if status == PaymentStatusPaid && s.alertService then
        match UserRepository.FindByID w1.users env.userErr donation.CreatorID with
        | .ok creator =>
          (.ok (), { w1 with broadcasts := w1.broadcasts ++ [(creator.ID.str, alertFor donation creator)] })
        | .error _ => (.ok (), w1)
      else
        (.ok (), w1)

/-- Two `UpdatePaymentStatus` calls for one order id, on two requests served at
the same time, in the schedule where both requests run `FindByPaymentID` before
either runs its write: the state after both, and the two donations as read. No
transaction and no lock spans the read and the write of a call. -/
def bothReadThenWrite (s : DonationService) (w : World) (envA envB : Env) (paymentID : String)
    (status : PaymentStatus) : Option (World × Donation × Donation) :=
  match DonationRepository.FindByPaymentID w.donations envA.findErr paymentID,
      DonationRepository.FindByPaymentID w.donations envB.findErr paymentID with
  | .ok donationA, .ok donationB =>
    let wA := (s.decideAndWrite w envA donationA status).2
    let wB := (s.decideAndWrite wA envB donationB status).2
    some (wB, donationA, donationB)
  | _, _ => none

/-- Two `UpdatePaymentStatus` calls for one order id, each with its own status,
on two requests served at the same time, in the schedule where both requests run
`FindByPaymentID` before either runs its write and the first request writes
first: the state after both. -/
def bothReadThenWriteEach (s : DonationService) (w : World) (envA envB : Env)
    (paymentID : String) (statusA statusB : PaymentStatus) : Option World :=
  match DonationRepository.FindByPaymentID w.donations envA.findErr paymentID,
      DonationRepository.FindByPaymentID w.donations envB.findErr paymentID with
  | .ok donationA, .ok donationB =>
    let wA := (s.decideAndWrite w envA donationA statusA).2
    some (s.decideAndWrite wA envB donationB statusB).2
  | _, _ => none

/-! ## services: the Paylabs client -/

/-- The `status` field of a PSP answer, a `json.RawMessage`, by what the raw bytes
are: no bytes, the literal `null`, a JSON string (given decoded), a JSON integer
that fits `int`, or any other bytes (given raw). -/
inductive RawStatus where
  | absent
  | null
  | str (s : String)
  | int (n : Int)
  | other (raw : String)
  deriving DecidableEq, Repr

/-- `services.EWalletPaymentActions`. -/
structure EWalletPaymentActions where
  PCPayUrl : String := ""
  MobilePayUrl : String := ""
  AppDeeplink : String := ""
  deriving DecidableEq, Repr

/-- `services.QRISResponse`: the decoded body of a PSP answer. -/
structure QRISResponse where
  RequestID : String := ""
  ErrCode : String := ""
  ErrCodeDes : String := ""
  MerchantID : String := ""
  StoreID : String := ""
  PaymentType : String := ""
  RequestAmount : String := ""
  Amount : String := ""
  MerchantTradeNo : String := ""
  CreateTime : String := ""
  QRCode : String := ""
  QRISUrl : String := ""
  NMID : String := ""
  PlatformTradeNo : String := ""
  SuccessTime : String := ""
  ExpiredTime : String := ""
  Status : RawStatus := .absent
  ProductName : String := ""
  TransFeeRate : String := ""
  TransFeeAmount : String := ""
  TotalTransFee : String := ""
  VatFee : String := ""
  PaymentActions : Option EWalletPaymentActions := none
  deriving DecidableEq, Repr

/-- Decimal digits of `n`, left-padded with zeros to width `w`. -/
def zeroPad (w n : Nat) : String :=
  let s := toString n
  String.mk (List.replicate (w - s.length) '0') ++ s

/-- `fmt.Sprintf("%02d", n)`: the sign counts towards the width. -/
def sprintf02d (n : Int) : String :=
  match n with
  | .ofNat k => zeroPad 2 k
  | .negSucc k => "-" ++ zeroPad 1 (k + 1)

/-- `QRISResponse.GetStatus`. -/
def QRISResponse.GetStatus (r : QRISResponse) : String :=
  match r.Status with
  | .absent => ""
  | .null => ""
  | .str s => s
  | .int n => sprintf02d n
  | .other raw => raw

/-- `services.QRISQueryRequest`. -/
structure QRISQueryRequest where
  RequestID : String
  MerchantID : String
  MerchantTradeNo : String
  PaymentType : String
  deriving DecidableEq, Repr

/-- `services.QRISCancelRequest`. -/
structure QRISCancelRequest where
  RequestID : String
  MerchantID : String
  MerchantTradeNo : String
  PlatformTradeNo : String
  deriving DecidableEq, Repr

/-- `services.ProductInfo`. -/
structure ProductInfo where
  ID : String := ""
  Name : String := ""
  Price : String := ""
  Type_ : String := ""
  URL : String := ""
  Quantity : Int := 0
  deriving DecidableEq, Repr

/-- `services.QRISRequest`. -/
structure QRISRequest where
  RequestID : String := ""
  MerchantID : String := ""
  StoreID : String := ""
  PaymentType : String := ""
  Amount : String := ""
  MerchantTradeNo : String := ""
  NotifyURL : String := ""
  Expire : Int := 0
  FeeType : String := ""
  ProductName : String := ""
  ProductInfo : List ProductInfo := []
  deriving DecidableEq, Repr

/-- `services.EWalletPaymentParams`. -/
structure EWalletPaymentParams where
  RedirectUrl : String := ""
  PhoneNumber : String := ""
  deriving DecidableEq, Repr

/-- `services.EWalletRequest`. -/
structure EWalletRequest where
  RequestID : String := ""
  MerchantID : String := ""
  PaymentType : String := ""
  Amount : String := ""
  MerchantTradeNo : String := ""
  NotifyURL : String := ""
  FeeType : String := ""
  ProductName : String := ""
  PaymentParams : Option EWalletPaymentParams := none
  deriving DecidableEq, Repr

/-- The request bodies handed to `callPaylabsAPI`: by the query and cancel calls,
and by the two create calls. -/
inductive PaylabsRequest where
  | query (r : QRISQueryRequest)
  | cancel (r : QRISCancelRequest)
  | qris (r : QRISRequest)
  | ewallet (r : EWalletRequest)
  deriving DecidableEq, Repr

/-- The `merchantTradeNo` member of the JSON body of a request. -/
def PaylabsRequest.merchantTradeNo : PaylabsRequest → String
  | .query r => r.MerchantTradeNo
  | .cancel r => r.MerchantTradeNo
  | .qris r => r.MerchantTradeNo
  | .ewallet r => r.MerchantTradeNo

/-- The `requestId` member of the JSON body of a request: every request struct
marshals its `RequestID` field under that name, as a string. -/
def PaylabsRequest.requestId : PaylabsRequest → String
  | .query r => r.RequestID
  | .cancel r => r.RequestID
  | .qris r => r.RequestID
  | .ewallet r => r.RequestID

/-- The exchange with the PSP behind `PaylabsService.callPaylabsAPI`: from path
and request body to the decoded answer, or to the error of a failed call (signing,
transport, a status outside 2xx, an undecodable body). -/
abbrev PaylabsAPI := String → PaylabsRequest → Except String QRISResponse

/-- `generateRequestID`: `now.Format("20060102150405")` and the milliseconds on
three digits. -/
def generateRequestID (now : Time) : String :=
  zeroPad 4 now.year ++ zeroPad 2 now.month ++ zeroPad 2 now.day ++ zeroPad 2 now.hour
    ++ zeroPad 2 now.minute ++ zeroPad 2 now.second ++ zeroPad 3 (now.nanosecond / 1000000)

/-- `services.QueryStatusResponse`. -/
structure QueryStatusResponse where
  Status : String := ""
  ErrCode : String := ""
  ErrCodeDes : String := ""
  Payer : String := ""
  SuccessTime : String := ""
  deriving DecidableEq, Repr

/-- Endpoint and payment type that `QueryTransaction` derives from the method. -/
def queryRoute (paymentMethod : String) : String × String :=
  if paymentMethod == "qris" || paymentMethod == "" then
    ("/payment/v2.3/qris/query", "QRIS")
  else if paymentMethod == "gopay" then ("/payment/v2.3/ewallet/query", "GOPAYBALANCE")
  else if paymentMethod == "dana" then ("/payment/v2.3/ewallet/query", "DANABALANCE")
  else if paymentMethod == "shopee" then ("/payment/v2.3/ewallet/query", "SHOPEEBALANCE")
  else if paymentMethod == "ovo" then ("/payment/v2.3/ewallet/query", "OVOBALANCE")
  else if paymentMethod == "linkaja" then ("/payment/v2.3/ewallet/query", "LINKAJABALANCE")
  else ("/payment/v2.3/qris/query", "QRIS")

/-- `PaylabsService.QueryTransaction`. -/
def PaylabsService.QueryTransaction (s : PaylabsService) (now : Time) (api : PaylabsAPI)
    (merchantTradeNo paymentMethod : String) : Except String QueryStatusResponse :=
  let route := queryRoute paymentMethod
  let req : QRISQueryRequest :=
    { RequestID := generateRequestID now
      MerchantID := s.cfg.PaylabsMerchantID
      MerchantTradeNo := merchantTradeNo
      PaymentType := route.2 }
  match api route.1 (.query req) with
  | .error e => .error e
  | .ok resp =>
    let result : QueryStatusResponse := { ErrCode := resp.ErrCode, ErrCodeDes := resp.ErrCodeDes }
    if resp.ErrCode == "0" then
      .ok { result with Status := resp.GetStatus, SuccessTime := resp.SuccessTime }
    else
      .ok result

/-- `services.CancelStatusResponse`. -/
structure CancelStatusResponse where
  ErrCode : String := ""
  ErrCodeDes : String := ""
  Status : String := ""
  deriving DecidableEq, Repr

/-- `PaylabsService.CancelTransaction`. -/
def PaylabsService.CancelTransaction (s : PaylabsService) (now : Time) (api : PaylabsAPI)
    (merchantTradeNo platformTradeNo : String) : Except String CancelStatusResponse :=
  let req : QRISCancelRequest :=
    { RequestID := generateRequestID now
      MerchantID := s.cfg.PaylabsMerchantID
      MerchantTradeNo := merchantTradeNo
      PlatformTradeNo := platformTradeNo }
  match api "/payment/v2.3/qris/cancel" (.cancel req) with
  | .error e => .error e
  | .ok resp =>
    let result : CancelStatusResponse := { ErrCode := resp.ErrCode, ErrCodeDes := resp.ErrCodeDes }
    if resp.ErrCode == "0" then
      .ok { result with Status := resp.GetStatus }
    else
      .ok result

/-! ### the signature engine and the transport -/

/-- The UTF-8 bytes of one character. -/
def utf8Bytes (c : Char) : List Nat :=
  let n := c.toNat
  if n < 0x80 then [n]
  else if n < 0x800 then [0xC0 + n / 64, 0x80 + n % 64]
  else if n < 0x10000 then [0xE0 + n / 4096, 0x80 + n / 64 % 64, 0x80 + n % 64]
  else [0xF0 + n / 262144, 0x80 + n / 4096 % 64, 0x80 + n / 64 % 64, 0x80 + n % 64]

/-- The bytes of a Go string. -/
def bytesOf (s : String) : List Nat :=
  s.toList.flatMap utf8Bytes

/-- `fmt.Sprintf("%x", bytes)`: two lowercase hexadecimal digits per byte. -/
def hexBytes (bs : List Nat) : String :=
  String.mk (bs.flatMap (fun b => [hexDigit (b / 16 % 16), hexDigit (b % 16)]))

/-- The primitives of the standard library that signing calls: `sha256.Sum256`,
`rsa.SignPKCS1v15` for `crypto.SHA256` (with the random source it is handed, the
key and the digest to sign) and `base64.StdEncoding.EncodeToString`. -/
structure Crypto where
  sha256 : List Nat → List Nat
  signPKCS1v15 : List Nat → PrivateKey → List Nat → Except String (List Nat)
  base64 : List Nat → String

/-- `PaylabsService.generateSignature`; `random` is `rand.Reader`. -/
def PaylabsService.generateSignature (s : PaylabsService) (c : Crypto) (random : List Nat)
    (method path body timestamp : String) : Except String String :=
  let bodyHash := c.sha256 (bytesOf body)
  let bodyHashHex := hexBytes bodyHash
  let stringToSign := String.intercalate ":" [method, path, bodyHashHex, timestamp]
  let hashed := c.sha256 (bytesOf stringToSign)
  match c.signPKCS1v15 random s.privateKey hashed with
  | .error e => .error ("failed to sign: " ++ e)
  | .ok signature => .ok (c.base64 signature)

/-- The signature as the specification words it: base64 of the RSA PKCS#1 v1.5
SHA-256 signature, under the key, of `SHA256(S)`, where `S` is method, path,
lowercase hex of `SHA256(body)` and timestamp joined by colons. -/
def signatureSpec (c : Crypto) (random : List Nat) (key : PrivateKey)
    (method path body timestamp : String) : Except String String :=
  let S := method ++ ":" ++ path ++ ":" ++ hexBytes (c.sha256 (bytesOf body)) ++ ":" ++ timestamp
  (c.signPKCS1v15 random key (c.sha256 (bytesOf S))).map c.base64

/-- `generateTimestamp`: `time.Now().Format("2006-01-02T15:04:05.000+07:00")`. In
that layout `+07:00` is no zone verb (the zone verbs start with `-` or `Z`) and
is copied as it stands. -/
def generateTimestamp (now : Time) : String :=
  zeroPad 4 now.year ++ "-" ++ zeroPad 2 now.month ++ "-" ++ zeroPad 2 now.day ++ "T"
    ++ zeroPad 2 now.hour ++ ":" ++ zeroPad 2 now.minute ++ ":" ++ zeroPad 2 now.second
    ++ "." ++ zeroPad 3 (now.nanosecond / 1000000) ++ "+07:00"

/-- The numeric UTC offset of ISO 8601, sign, hours and minutes, of a zone offset
given in seconds east of UTC. -/
def formatOffset (offset : Int) : String :=
  (if offset < 0 then "-" else "+") ++ zeroPad 2 (offset.natAbs / 3600) ++ ":"
    ++ zeroPad 2 (offset.natAbs % 3600 / 60)

/-- The timestamp as the specification words it: the wall clock reading to the
millisecond, followed by the numeric UTC offset of the zone the reading is
expressed in. -/
def timestampSpec (now : Time) : String :=
  zeroPad 4 now.year ++ "-" ++ zeroPad 2 now.month ++ "-" ++ zeroPad 2 now.day ++ "T"
    ++ zeroPad 2 now.hour ++ ":" ++ zeroPad 2 now.minute ++ ":" ++ zeroPad 2 now.second
    ++ "." ++ zeroPad 3 (now.nanosecond / 1000000) ++ formatOffset now.offset

/-- The calendar fields of a reading are in their ranges. -/
def Time.Valid (t : Time) : Prop :=
  t.year ≤ 9999 ∧ t.month ≤ 12 ∧ t.day ≤ 31 ∧ t.hour ≤ 23 ∧ t.minute ≤ 59 ∧ t.second ≤ 59 ∧
  t.nanosecond ≤ 999999999

instance (t : Time) : Decidable t.Valid := by
  unfold Time.Valid
  infer_instance

/-- The number a string of decimal digits denotes. -/
def decimalValue (l : List Char) : Nat :=
  l.foldl (fun a c => 10 * a + (c.toNat - 48)) 0

/-- A `http.Response`: the status code and the outcome of reading the body. -/
structure HTTPResponse where
  StatusCode : Int
  Body : Except String String

/-- What one `callPaylabsAPI` obtains from outside: `json.Marshal` of the request,
the clock, the signing primitives and the random source, `http.NewRequest` (the
error it returns for a URL, if any), `requestIdOf` for `json.Unmarshal` of the
body into a map followed by `bodyMap["requestId"].(string)` (the string member
`requestId` of the body, if it has one), the clock read when it has none, the
round trip of `httpClient.Do` (from URL, headers and body), and `json.Unmarshal`
into a `QRISResponse`. -/
structure Wire where
  marshal : PaylabsRequest → Except String String
  now : Time := {}
  crypto : Crypto
  random : List Nat := []
  newRequest : String → Option String := fun _ => none
  requestIdOf : String → Option String
  idNow : Time := {}
  roundTrip : String → List (String × String) → String → Except String HTTPResponse
  unmarshal : String → Except String QRISResponse

/-- `PaylabsService.callPaylabsAPI`. -/
def PaylabsService.callPaylabsAPI (s : PaylabsService) (wire : Wire) : PaylabsAPI :=
  fun path reqBody =>
    match wire.marshal reqBody with
    | .error e => .error ("failed to marshal request: " ++ e)
    | .ok bodyBytes =>
      let timestamp := generateTimestamp wire.now
      match s.generateSignature wire.crypto wire.random "POST" path bodyBytes timestamp with
      | .error e => .error ("failed to generate signature: " ++ e)
      | .ok signature =>
        let url := s.cfg.PaylabsAPIURL ++ path
        match wire.newRequest url with
        | some e => .error ("failed to create request: " ++ e)
        | none =>
          let requestID :=
            match wire.requestIdOf bodyBytes with
            | some rid => rid
            | none => generateRequestID wire.idNow
          let headers :=
            [("Content-Type", "application/json;charset=utf-8"), ("X-TIMESTAMP", timestamp),
             ("X-SIGNATURE", signature), ("X-PARTNER-ID", s.cfg.PaylabsMerchantID),
             ("X-REQUEST-ID", requestID)]
          match wire.roundTrip url headers bodyBytes with
          | .error e => .error ("failed to call API: " ++ e)
          | .ok resp =>
            match resp.Body with
            | .error e => .error ("failed to read response: " ++ e)
            | .ok respBody =>
              if resp.StatusCode < 200 || resp.StatusCode >= 300 then
                .error ("paylabs API returned HTTP " ++ toString resp.StatusCode ++ ": " ++ respBody)
              else
                match wire.unmarshal respBody with
                | .error e => .error ("failed to parse response: " ++ e ++ ", body: " ++ respBody)
                | .ok qrisResp => .ok qrisResp

/-- The round trip `callPaylabsAPI` has with the PSP for a request: `none` when no
request is sent (marshalling, signing or building the request failed), otherwise
what `httpClient.Do` returned. -/
def PaylabsService.exchange (s : PaylabsService) (wire : Wire) (path : String)
    (reqBody : PaylabsRequest) : Option (Except String HTTPResponse) :=
  match wire.marshal reqBody with
  | .error _ => none
  | .ok bodyBytes =>
    match s.generateSignature wire.crypto wire.random "POST" path bodyBytes
        (generateTimestamp wire.now) with
    | .error _ => none
    | .ok signature =>
      match wire.newRequest (s.cfg.PaylabsAPIURL ++ path) with
      | some _ => none
      | none =>
        some (wire.roundTrip (s.cfg.PaylabsAPIURL ++ path)
          [("Content-Type", "application/json;charset=utf-8"),
           ("X-TIMESTAMP", generateTimestamp wire.now), ("X-SIGNATURE", signature),
           ("X-PARTNER-ID", s.cfg.PaylabsMerchantID),
           ("X-REQUEST-ID",
             match wire.requestIdOf bodyBytes with
             | some rid => rid
             | none => generateRequestID wire.idNow)]
          bodyBytes)

/-! ### creating a transaction -/

/-- `fmt.Sprintf("JJN-%s", donation.ID.String()[:8])`, the order id of both create
calls. -/
def orderIDOf (id : UUID) : String :=
  "JJN-" ++ String.mk (id.str.toList.take 8)

/-- `float64(n)` for an `int64` amount, as the integer it denotes: exact below
`2^53`, otherwise rounded to 53 significant bits, ties to even. -/
def float64OfInt (n : Int) : Int :=
  let a := n.natAbs
  if a < 2 ^ 53 then n
  else
    let k := Nat.log2 a - 52
    let q := a / 2 ^ k
    let r := a % 2 ^ k
    let q1 := if 2 ^ (k - 1) < r || (r == 2 ^ (k - 1) && q % 2 == 1) then q + 1 else q
    if n < 0 then -((q1 * 2 ^ k : Nat) : Int) else ((q1 * 2 ^ k : Nat) : Int)

/-- `fmt.Sprintf("%.2f", float64(amount))`. -/
def formatAmount (amount : Int) : String :=
  let v := float64OfInt amount
  (if v < 0 then "-" else "") ++ toString v.natAbs ++ ".00"

/-- `strings.Contains`. -/
def stringsContains (s substr : String) : Bool :=
  s.toList.tails.any (fun t => substr.toList.isPrefixOf t)

/-- The `notifyUrl` of a create request: set only if `AppURL` is not a loopback
address. -/
def notifyURL (cfg : Config) : String :=
  if !stringsContains cfg.AppURL "localhost" && !stringsContains cfg.AppURL "127.0.0.1" then
    cfg.AppURL ++ "/api/v1/payment/webhook"
  else ""

/-- `services.PaymentResponse`. -/
structure PaymentResponse where
  OrderID : String := ""
  Token : String := ""
  RedirectURL : String := ""
  QRCode : String := ""
  QRISUrl : String := ""
  ExpiredTime : String := ""
  PlatformTradeNo : String := ""
  deriving DecidableEq, Repr

/-- The request `CreateTransaction` builds. -/
def PaylabsService.qrisCreateRequest (s : PaylabsService) (now : Time) (donation : Donation)
    (creator : User) : QRISRequest :=
  { RequestID := generateRequestID now
    MerchantID := s.cfg.PaylabsMerchantID
    PaymentType := "QRIS"
    Amount := formatAmount donation.Amount
    MerchantTradeNo := orderIDOf donation.ID
    NotifyURL := notifyURL s.cfg
    Expire := 900
    FeeType := "OUR"
    ProductName := "Donasi untuk " ++ creator.Name }

/-- `PaylabsService.CreateTransaction`. -/
def PaylabsService.CreateTransaction (s : PaylabsService) (now : Time) (api : PaylabsAPI)
    (donation : Donation) (creator : User) : Except String PaymentResponse :=
  let orderID := orderIDOf donation.ID
  match api "/payment/v2.3/qris/create" (.qris (s.qrisCreateRequest now donation creator)) with
  | .error e => .error e
  | .ok resp =>
    if resp.ErrCode != "0" then
      .error ("paylabs error: " ++ resp.ErrCode ++ " - " ++ resp.ErrCodeDes)
    else
      .ok { OrderID := orderID, QRCode := resp.QRCode, QRISUrl := resp.QRISUrl,
            ExpiredTime := resp.ExpiredTime, PlatformTradeNo := resp.PlatformTradeNo }

/-- `services.EWalletPaymentResponse`. -/
structure EWalletPaymentResponse where
  OrderID : String := ""
  ExpiredTime : String := ""
  PlatformTradeNo : String := ""
  PaymentUrl : String := ""
  PaymentActions : Option EWalletPaymentActions := none
  deriving DecidableEq, Repr

/-- The request `CreateEWalletTransaction` builds. -/
def PaylabsService.ewalletCreateRequest (s : PaylabsService) (now : Time) (donation : Donation)
    (creator : User) (paymentType redirectUrl : String) : EWalletRequest :=
  { RequestID := generateRequestID now
    MerchantID := s.cfg.PaylabsMerchantID
    PaymentType := paymentType
    Amount := formatAmount donation.Amount
    MerchantTradeNo := orderIDOf donation.ID
    NotifyURL := notifyURL s.cfg
    FeeType := "OUR"
    ProductName := "Donasi untuk " ++ creator.Name
    PaymentParams := some { RedirectUrl := redirectUrl } }

/-- `PaylabsService.CreateEWalletTransaction`. -/
def PaylabsService.CreateEWalletTransaction (s : PaylabsService) (now : Time) (api : PaylabsAPI)
    (donation : Donation) (creator : User) (paymentType redirectUrl : String) :
    Except String EWalletPaymentResponse :=
  let orderID := orderIDOf donation.ID
  match api "/payment/v2.3/ewallet/create"
      (.ewallet (s.ewalletCreateRequest now donation creator paymentType redirectUrl)) with
  | .error e => .error e
  | .ok resp =>
    if resp.ErrCode != "0" then
      .error ("paylabs error: " ++ resp.ErrCode ++ " - " ++ resp.ErrCodeDes)
    else
      let paymentUrl :=
        match resp.PaymentActions with
        | some actions =>
          if actions.MobilePayUrl != "" then actions.MobilePayUrl
          else if actions.PCPayUrl != "" then actions.PCPayUrl
          else ""
        | none => ""
      .ok { OrderID := orderID, ExpiredTime := resp.ExpiredTime,
            PlatformTradeNo := resp.PlatformTradeNo, PaymentUrl := paymentUrl,
            PaymentActions := resp.PaymentActions }

/-- `services.PaylabsWebhookPayload`. -/
structure PaylabsWebhookPayload where
  RequestID : String := ""
  ErrCode : String := ""
  MerchantID : String := ""
  PaymentType : String := ""
  Amount : String := ""
  MerchantTradeNo : String := ""
  PlatformTradeNo : String := ""
  Status : String := ""
  SuccessTime : String := ""
  Payer : String := ""
  deriving DecidableEq, Repr

/-- `PaylabsService.VerifyWebhookSignature`: the body is `return true`. -/
def PaylabsService.VerifyWebhookSignature (_s : PaylabsService)
    (_signature _timestamp _body : String) : Bool :=
  true

/-- `PaylabsService.ParseStatus`. -/
def PaylabsService.ParseStatus (_s : PaylabsService) (status : String) : PaymentStatus :=
  if status == "02" then PaymentStatusPaid
  else if status == "01" then PaymentStatusPending
  else if status == "09" then PaymentStatusFailed
  else PaymentStatusPending

/-! ## services: creating a donation -/

/-- `services.CreateDonationInput`. -/
structure CreateDonationInput where
  CreatorUsername : String := ""
  ProductID : Option UUID := none
  BuyerName : String := ""
  BuyerEmail : String := ""
  Amount : Int := 0
  Quantity : Int := 0
  Message : String := ""
  PaymentMethod : String := ""
  RedirectUrl : String := ""
  deriving DecidableEq, Repr

/-- `services.CreateDonationResponse`; `Donation` is the struct as it stands when
the call returns. -/
structure CreateDonationResponse where
  Donation : Donation
  PaymentURL : String := ""
  Token : String := ""
  QRCode : String := ""
  QRISUrl : String := ""
  ExpiredTime : String := ""
  PlatformTradeNo : String := ""
  PaymentType : String := ""
  deriving DecidableEq, Repr

/-- What one `CreateDonation` obtains from outside: the database answers of its
four statements, the clock and the new id of the insert, the clock read for the
request id, and the exchange with the PSP. -/
structure CreateEnv where
  userErr : Option String := none
  productErr : Option String := none
  createErr : Option String := none
  saveErr : Option String := none
  now : Time := {}
  newID : UUID := 1
  apiNow : Time := {}
  api : PaylabsAPI

/-- What `CreateDonation` leaves behind: what it returned, the state, and the
calls it made to the PSP (path and request body), in order. -/
structure CreateDonationResult where
  result : Except String CreateDonationResponse
  world : World
  pspCalls : List (String × PaylabsRequest) := []

/-- The payment method `CreateDonation` works with: QRIS when none is given. -/
def paymentMethodOf (input : CreateDonationInput) : String :=
  if input.PaymentMethod == "" then "qris" else input.PaymentMethod

/-- The donation struct `CreateDonation` builds before the insert: quantity and
payment method defaulted, product name and emoji copied from the product when
it is found. -/
def DonationService.draftDonation (_s : DonationService) (w : World) (env : CreateEnv)
    (input : CreateDonationInput) (buyerID : Option UUID) (creator : User) : Donation :=
  let quantity := if input.Quantity < 1 then 1 else input.Quantity
  let product : String × String :=
    match input.ProductID with
    | some productID =>
      match DonationRepository.FindProductByID w.products env.productErr productID with
      | .ok product => (product.Name, product.Emoji)
      | .error _ => ("", "")
    | none => ("", "")
  { ID := uuidNil
    CreatorID := creator.ID
    ProductID := input.ProductID
    BuyerID := buyerID
    BuyerName := input.BuyerName
    BuyerEmail := input.BuyerEmail
    Amount := input.Amount
    Quantity := quantity
    Message := input.Message
    PaymentStatus := PaymentStatusPending
    PaymentMethod := paymentMethodOf input
    ProductName := product.1
    ProductEmoji := product.2 }

/-- The second half of `CreateDonation`, after the insert (`Route to QRIS or
E-Wallet based on payment method`): `donation` is the struct as inserted and
`donations` the table holding it. -/
def DonationService.routePayment (s : DonationService) (w : World) (env : CreateEnv)
    (input : CreateDonationInput) (creator : User) (donation : Donation)
    (donations : List Donation) : CreateDonationResult :=
  let paymentMethod := paymentMethodOf input
  let w1 : World := { w with donations := donations }
  if paymentMethod == "qris" then
    let call : String × PaylabsRequest :=
      ("/payment/v2.3/qris/create",
        .qris (s.paylabs.qrisCreateRequest env.apiNow donation creator))
    match s.paylabs.CreateTransaction env.apiNow env.api donation creator with
    | .error e =>
      { result := .error ("failed to create payment: " ++ e), world := w1, pspCalls := [call] }
    | .ok paymentResp =>
      let donation := { donation with PaymentID := paymentResp.OrderID }
      match DonationRepository.Update w1.donations env.saveErr env.now env.newID donation with
      | .error _ =>
        { result := .error "failed to update donation", world := w1, pspCalls := [call] }
      | .ok donations2 =>
        { result := .ok
            { Donation := donation
              PaymentURL := paymentResp.QRISUrl
              Token := paymentResp.OrderID
              QRCode := paymentResp.QRCode
              QRISUrl := paymentResp.QRISUrl
              ExpiredTime := paymentResp.ExpiredTime
              PlatformTradeNo := paymentResp.PlatformTradeNo
              PaymentType := "qris" },
          world := { w1 with donations := donations2 }, pspCalls := [call] }
  else
    match ewalletPaymentTypes.lookup paymentMethod with
    | none => { result := .error ("invalid payment method: " ++ paymentMethod), world := w1 }
    | some paylabsPaymentType =>
      if input.Amount < 10000 then
        { result := .error "minimum amount untuk E-Wallet adalah Rp 10.000", world := w1 }
      else
        let call : String × PaylabsRequest :=
          ("/payment/v2.3/ewallet/create",
            .ewallet (s.paylabs.ewalletCreateRequest env.apiNow donation creator
              paylabsPaymentType input.RedirectUrl))
        match s.paylabs.CreateEWalletTransaction env.apiNow env.api donation creator
            paylabsPaymentType input.RedirectUrl with
        | .error e =>
          { result := .error ("failed to create payment: " ++ e), world := w1,
            pspCalls := [call] }
        | .ok ewalletResp =>
          let donation := { donation with PaymentID := ewalletResp.OrderID }
          match DonationRepository.Update w1.donations env.saveErr env.now env.newID donation with
          | .error _ =>
            { result := .error "failed to update donation", world := w1, pspCalls := [call] }
          | .ok donations2 =>
            { result := .ok
                { Donation := donation
                  PaymentURL := ewalletResp.PaymentUrl
                  Token := ewalletResp.OrderID
                  ExpiredTime := ewalletResp.ExpiredTime
                  PlatformTradeNo := ewalletResp.PlatformTradeNo
                  PaymentType := paymentMethod },
              world := { w1 with donations := donations2 }, pspCalls := [call] }

/-- `DonationService.CreateDonation`. -/
def DonationService.CreateDonation (s : DonationService) (w : World) (env : CreateEnv)
    (input : CreateDonationInput) (buyerID : Option UUID) : CreateDonationResult :=
  match UserRepository.FindByUsername w.users env.userErr input.CreatorUsername with
  | .error _ => { result := .error "creator not found", world := w }
  | .ok creator =>
    match DonationRepository.Create w.donations env.createErr env.now env.newID
        (s.draftDonation w env input buyerID creator) with
    | .error _ => { result := .error "failed to create donation", world := w }
    | .ok (donation, donations) => s.routePayment w env input creator donation donations

/-! ## handlers -/

/-- A JSON value of a response's `data` object. -/
inductive JSONValue where
  | str (s : String)
  | bool (b : Bool)
  deriving DecidableEq, Repr

/-- `utils.Response` together with the HTTP status it is sent with; `Data` is
the `gin.H` object in source order. -/
structure Response where
  code : Nat
  Success : Bool
  Message : String := ""
  Data : List (String × JSONValue) := []
  Error : String := ""
  deriving DecidableEq, Repr

/-- `utils.Success`. -/
def Success (statusCode : Nat) (message : String) (data : List (String × JSONValue)) : Response :=
  { code := statusCode, Success := true, Message := message, Data := data }

/-- `utils.Error`. -/
def Error (statusCode : Nat) (message : String) : Response :=
  { code := statusCode, Success := false, Error := message }

def BadRequest (message : String) : Response := Error 400 message
def Unauthorized (message : String) : Response := Error 401 message
def InternalError (message : String) : Response := Error 500 message

/-- `handlers.PaymentHandler`. -/
structure PaymentHandler where
  paylabsService : PaylabsService := {}
  donationService : DonationService := {}
  deriving DecidableEq, Repr

/-- What a handler leaves behind: the response sent, the state, and the calls it
made to `DonationService.UpdatePaymentStatus` (order id and status), in order. -/
structure HandlerResult where
  response : Response
  world : World
  ledgerCalls : List (String × PaymentStatus) := []
  deriving DecidableEq, Repr

/-- What a handler obtains from outside while it runs: the fault of its own
donation lookup, the clock read for the request id, the exchange with the PSP,
and the inputs of the ledger call it may make. -/
structure HandlerEnv where
  lookupErr : Option String := none
  now : Time := {}
  api : PaylabsAPI
  ledger : Env := {}

/-- An inbound webhook delivery: the outcome of reading the body, and the two
signature headers. -/
structure WebhookRequest where
  body : Except String String
  signature : String := ""
  timestamp : String := ""

/-- `PaymentHandler.PaylabsWebhook`; `decode` is `utils.ParseJSON` into a
`PaylabsWebhookPayload`, the standard library's JSON decoder. -/
def PaymentHandler.PaylabsWebhook (h : PaymentHandler) (w : World)
    (decode : String → Except String PaylabsWebhookPayload) (env : Env)
    (req : WebhookRequest) : HandlerResult :=
  match req.body with
  | .error _ => { response := BadRequest "Failed to read request body", world := w }
  | .ok body =>
    match decode body with
    | .error _ => { response := BadRequest "Invalid request body", world := w }
    | .ok payload =>
      if !h.paylabsService.VerifyWebhookSignature req.signature req.timestamp body then
        { response := Unauthorized "Invalid signature", world := w }
      else
        let orderID := payload.MerchantTradeNo
        let status := h.paylabsService.ParseStatus payload.Status
        match h.donationService.UpdatePaymentStatus w env orderID status with
        | (.error _, w1) =>
          { response := InternalError "Failed to update payment status", world := w1,
            ledgerCalls := [(orderID, status)] }
        | (.ok _, w1) =>
          { response := Success 200 "OK" [], world := w1, ledgerCalls := [(orderID, status)] }

/-- The payment method `CheckPaymentStatus` polls with: the donation's own, and
`"qris"` when the donation is not found or has none. -/
def PaymentHandler.pollPaymentMethod (h : PaymentHandler) (w : World)
    (lookupErr : Option String) (orderID : String) : String :=
  match h.donationService.GetDonationByPaymentID w lookupErr orderID with
  | .ok donation => if donation.PaymentMethod != "" then donation.PaymentMethod else "qris"
  | .error _ => "qris"

/-- `PaymentHandler.CheckPaymentStatus`. -/
def PaymentHandler.CheckPaymentStatus (h : PaymentHandler) (w : World) (env : HandlerEnv)
    (orderID : String) : HandlerResult :=
  if orderID == "" then
    { response := BadRequest "Order ID is required", world := w }
  else
    let paymentMethod := h.pollPaymentMethod w env.lookupErr orderID
    match h.paylabsService.QueryTransaction env.now env.api orderID paymentMethod with
    | .error _ => { response := InternalError "Failed to check payment status", world := w }
    | .ok statusResp =>
      if statusResp.ErrCode != "0" then
        { response := Success 200 "Status check completed"
            [("status", .str "error"), ("err_code", .str statusResp.ErrCode),
             ("err_code_des", .str statusResp.ErrCodeDes)],
          world := w }
      else
        let done := Success 200 "Status check completed"
            [("status", .str statusResp.Status), ("success_time", .str statusResp.SuccessTime),
             ("payer", .str statusResp.Payer)]
        if statusResp.Status == "02" then
          let status := h.paylabsService.ParseStatus statusResp.Status
          { response := done,
            world := (h.donationService.UpdatePaymentStatus w env.ledger orderID status).2,
            ledgerCalls := [(orderID, status)] }
        else
          { response := done, world := w }

/-- The body of a cancel request as bound by `c.ShouldBindJSON`. -/
structure CancelInput where
  MerchantTradeNo : String
  PlatformTradeNo : String
  deriving DecidableEq, Repr

/-- `PaymentHandler.CancelPayment`; `bind` is the outcome of
`c.ShouldBindJSON(&input)`, which fails on a malformed body and on a missing
required field. -/
def PaymentHandler.CancelPayment (h : PaymentHandler) (w : World) (env : HandlerEnv)
    (bind : Except String CancelInput) : HandlerResult :=
  match bind with
  | .error _ =>
    { response := BadRequest "merchant_trade_no and platform_trade_no are required", world := w }
  | .ok input =>
    -- the PSP answer is only logged
    let _cancelResp :=
      h.paylabsService.CancelTransaction env.now env.api input.MerchantTradeNo input.PlatformTradeNo
    let status := h.paylabsService.ParseStatus "09"
    { response := Success 200 "Payment cancelled" [("success", .bool true)],
      world := (h.donationService.UpdatePaymentStatus w env.ledger input.MerchantTradeNo status).2,
      ledgerCalls := [(input.MerchantTradeNo, status)] }

/-! ## services: the alert broadcaster -/

/-- A Go channel `chan *AlertData`: its capacity, the alerts buffered and not yet
received (oldest first), and whether it has been closed. A send in a `select`
with a `default` goes through when the buffer has room. -/
structure Channel where
  cap : Nat
  buf : List AlertData := []
  closed : Bool := false
  deriving DecidableEq, Repr

/-- The identity of a channel; `c == ch` in the source compares identities. -/
abbrev ChanId := Nat

/-- `services.AlertService`: the `clients` map (a key with no entry reads as the
empty slice, as in Go), and the channels the registry refers to. -/
structure AlertService where
  clients : String → List ChanId
  chans : ChanId → Channel

/-- `NewAlertService`: an empty map; `chans` are the channels of the program. -/
def NewAlertService (chans : ChanId → Channel) : AlertService :=
  { clients := fun _ => [], chans := chans }

/-- A registry operation that may panic: the state it reached, and whether it
panicked there (the mutex is released by the deferred unlock either way). -/
structure Ran where
  state : AlertService
  panicked : Bool := false

/-- `AlertService.Register`. -/
def AlertService.Register (s : AlertService) (username : String) (ch : ChanId) : AlertService :=
  { s with clients := fun k => if k = username then s.clients username ++ [ch] else s.clients k }

/-- The loop of `Unregister`: the slice without the first element equal to `ch`,
`append(channels[:i], channels[i+1:]...)`, or `none` when the loop ends without
a match. -/
def removeFirst (ch : ChanId) : List ChanId → Option (List ChanId)
  | [] => none
  | c :: rest =>
    if c == ch then some rest
    else
      match removeFirst ch rest with
      | some r => some (c :: r)
      | none => none

/-- `close(ch)`: closing a closed channel panics. -/
def closeChan (chans : ChanId → Channel) (ch : ChanId) : (ChanId → Channel) × Bool :=
  if (chans ch).closed then (chans, true)
  else (fun c => if c = ch then { chans ch with closed := true } else chans c, false)

/-- `AlertService.Unregister`. -/
def AlertService.Unregister (s : AlertService) (username : String) (ch : ChanId) : Ran :=
  match removeFirst ch (s.clients username) with
  | none => { state := s }
  | some rest =>
    let clients := fun k => if k = username then rest else s.clients k
    let closed := closeChan s.chans ch
    { state := { clients := clients, chans := closed.1 }, panicked := closed.2 }

/-- One `select { case ch <- alert: default: }`: `none` is the panic of a send on
a closed channel; a full buffer takes the `default` branch. -/
def Channel.trySend (c : Channel) (alert : AlertData) : Option Channel :=
  if c.closed then none
  else if c.buf.length < c.cap then some { c with buf := c.buf ++ [alert] }
  else some c

/-- The `for _, ch := range channels` loop of `Broadcast`: the channels after it,
and whether a send panicked (the loop stops there). -/
def broadcastLoop (alert : AlertData) :
    (ChanId → Channel) → List ChanId → (ChanId → Channel) × Bool
  | chans, [] => (chans, false)
  | chans, ch :: rest =>
    match (chans ch).trySend alert with
    | none => (chans, true)
    | some c => broadcastLoop alert (fun x => if x = ch then c else chans x) rest

/-- `AlertService.Broadcast`. -/
def AlertService.Broadcast (s : AlertService) (username : String) (alert : AlertData) : Ran :=
  let channels := s.clients username
  if channels.length == 0 then
    { state := s }
  else
    let r := broadcastLoop alert s.chans channels
    { state := { s with chans := r.1 }, panicked := r.2 }

/-- `AlertService.GetClientCount`. -/
def AlertService.GetClientCount (s : AlertService) (username : String) : Nat :=
  (s.clients username).length

/-- The registry as the overlay handler keeps it: every registered channel is
open, and a channel is registered at most once, under one key. -/
def AlertService.WellFormed (s : AlertService) : Prop :=
  (∀ k ch, ch ∈ s.clients k → (s.chans ch).closed = false) ∧
  (∀ k, (s.clients k).Nodup) ∧
  (∀ k1 k2 ch, ch ∈ s.clients k1 → ch ∈ s.clients k2 → k1 = k2)

/-- The invariant of the donations table: ids are unique (the primary key), and
`paid_at` is set exactly on the paid donations. -/
def PaidAtInvariant (w : World) : Prop :=
  (w.donations.map (fun d => d.ID)).Nodup ∧
  ∀ d ∈ w.donations, (d.PaidAt.isSome = true ↔ d.PaymentStatus = PaymentStatusPaid)

instance (w : World) : Decidable (PaidAtInvariant w) := by
  unfold PaidAtInvariant
  infer_instance

/-! ## sample states -/

/-- An alert. -/
def sampleAlert : AlertData :=
  { SupporterName := "Budi", Amount := 5000, Message := "semangat", CreatorName := "Sari",
    ProductName := "Kopi", ProductEmoji := "K", Quantity := 2 }

/-- A registry: channels 1 and 2 under key `u7`, channel 3 under key `u8`; channel
2 has a full buffer of one alert, the others are empty with room for ten. -/
def sampleRegistry : AlertService :=
  { clients := fun k => if k = "u7" then [1, 2] else if k = "u8" then [3] else []
    chans := fun c => if c = 2 then { cap := 1, buf := [sampleAlert] } else { cap := 10 } }


/-- A creator. -/
def sampleCreator : User := { ID := 7, Email := "sari@example.com", Name := "Sari" }

/-- A donation of 5000 by QRIS to `sampleCreator`, with order id `JJN-00000001`. -/
def sampleDonation (status : PaymentStatus) (paidAt : Option Time) : Donation :=
  { ID := 1, CreatorID := 7, BuyerName := "Budi", BuyerEmail := "budi@example.com",
    Amount := 5000, Quantity := 2, Message := "semangat", PaymentID := "JJN-00000001",
    PaymentStatus := status, PaymentMethod := "qris", ProductName := "Kopi",
    ProductEmoji := "K", PaidAt := paidAt }

/-- A second donation, pending, with order id `JJN-00000002`. -/
def otherDonation : Donation :=
  { ID := 2, CreatorID := 7, BuyerName := "Wati", Amount := 20000, Quantity := 1,
    PaymentID := "JJN-00000002", PaymentStatus := PaymentStatusPending,
    PaymentMethod := "dana" }

/-- The state holding `sampleDonation` in the given status, `otherDonation` and
the creator; no alert has been broadcast. -/
def sampleWorld (status : PaymentStatus) (paidAt : Option Time) : World :=
  { donations := [sampleDonation status paidAt, otherDonation], users := [sampleCreator] }

/-- An instant. -/
def sampleNow : Time :=
  { year := 2025, month := 3, day := 9, hour := 14, minute := 5, second := 30,
    nanosecond := 120000000, offset := 25200 }

/-- The creator of the samples, with a username. -/
def sampleStreamer : User :=
  { ID := 7, Email := "sari@example.com", Name := "Sari", Username := some "sari" }

/-- A state with the streamer and one earlier donation. -/
def sampleShop : World :=
  { donations := [otherDonation], users := [sampleStreamer] }

/-- A request to donate to `sari` by the given method. -/
def sampleInput (method : String) (amount : Int) : CreateDonationInput :=
  { CreatorUsername := "sari", BuyerName := "Budi", BuyerEmail := "budi@example.com",
    Amount := amount, Quantity := 1, Message := "semangat", PaymentMethod := method }

/-- Signing primitives for the samples: a digest that is the length of its
input, a signer that returns key modulus and digest, an encoder that prints the
byte count. -/
def toyCrypto : Crypto :=
  { sha256 := fun bs => [bs.length]
    signPKCS1v15 := fun _ key hashed => .ok (key.N :: hashed)
    base64 := fun bs => toString bs.length }

/-- A transport for the samples: the body is the request id, and the PSP answers
with the given status code and a body that decodes to the given response. -/
def sampleWire (code : Int) (answer : QRISResponse) : Wire :=
  { marshal := fun r => .ok r.requestId
    now := sampleNow
    crypto := toyCrypto
    requestIdOf := fun body => some body
    roundTrip := fun _ _ _ => .ok { StatusCode := code, Body := .ok "body" }
    unmarshal := fun _ => .ok answer }

/-- The instant of `sampleNow` read on a server whose zone is UTC. -/
def sampleNowUTC : Time :=
  { year := 2025, month := 3, day := 9, hour := 7, minute := 5, second := 30,
    nanosecond := 120000000, offset := 0 }

/-- A reading 400 microseconds after `sampleNow`, in the same millisecond. -/
def sampleNowLater : Time :=
  { sampleNow with nanosecond := 120400000 }

/-- Two pending donations whose ids, 1 and 2, differ and whose order ids are the
same, as `orderIDOf` derives them. -/
def twinWorld : World :=
  { donations :=
      [{ ID := 1, CreatorID := 7, BuyerName := "Budi", Amount := 5000, Quantity := 1,
         PaymentID := orderIDOf 1, PaymentStatus := PaymentStatusPending,
         PaymentMethod := "qris" },
       { ID := 2, CreatorID := 7, BuyerName := "Wati", Amount := 9000, Quantity := 1,
         PaymentID := orderIDOf 2, PaymentStatus := PaymentStatusPending,
         PaymentMethod := "qris" }],
    users := [sampleStreamer] }

/-- A creator with bank details who has earned 100000 in one paid donation and
has withdrawn 100000 in one completed withdrawal. -/
def paidOutWorld : World :=
  { donations :=
      [{ ID := 1, CreatorID := 7, BuyerName := "Budi", BuyerEmail := "budi@example.com",
         Amount := 100000, Quantity := 1, PaymentID := "JJN-00000000",
         PaymentStatus := PaymentStatusPaid, PaymentMethod := "qris",
         PaidAt := some sampleNow }],
    users :=
      [{ ID := 7, Email := "sari@example.com", Name := "Sari", BankName := "BCA",
         BankAccount := "1234567890", BankHolder := "Sari" }],
    withdrawals :=
      [{ ID := 5, UserID := 7, Amount := 100000, Status := WithdrawalStatusCompleted,
         BankName := "BCA", BankAccount := "1234567890", BankHolder := "Sari" }] }

/-- A PSP that answers every call with the given result. -/
def constAPI (r : Except String QRISResponse) : PaylabsAPI := fun _ _ => r

/-- The state after `CreateDonation` has created a QRIS donation of 5000 in
`sampleShop`: the new donation is pending under order id `JJN-12345678`. -/
def createdShop : World :=
  (DonationService.CreateDonation {} sampleShop
    { now := sampleNow, apiNow := sampleNow, newID := 0x1234567890abcdef1234567890abcdef,
      api := constAPI (.ok { ErrCode := "0", QRCode := "qr" }) }
    (sampleInput "qris" 5000) none).world

/-- The state `twinWorld` after donation 1 has been paid: the donations 1, paid,
and 2, pending, carry the same order id. -/
def twinPaidWorld : World :=
  (DonationService.UpdatePaymentStatus {} twinWorld { now := sampleNow } (orderIDOf 1)
    PaymentStatusPaid).2

/-- A decoder that reads every body as a delivery for `JJN-00000001` with PSP
status `"02"`. -/
def sampleDecode : String → Except String PaylabsWebhookPayload :=
  fun _ => .ok { MerchantTradeNo := "JJN-00000001", Status := "02" }

/-! ## lemmas on the repository -/

theorem find?_map_of_pred_eq {α : Type} (p : α → Bool) (f : α → α)
    (hf : ∀ x, p (f x) = p x) (l : List α) :
    (l.map f).find? p = (l.find? p).map f := by
  induction l with
  | nil => rfl
  | cons a t ih =>
    simp only [List.map_cons, List.find?_cons, hf]
    cases p a with
    | true => rfl
    | false => exact ih

theorem FindByPaymentID_ok {l : List Donation} {err : Option String} {pid : String}
    {d : Donation} (h : DonationRepository.FindByPaymentID l err pid = .ok d) :
    err = none ∧ l.find? (fun x => x.PaymentID == pid) = some d := by
  unfold DonationRepository.FindByPaymentID at h
  cases err with
  | some e => simp at h
  | none =>
    refine ⟨rfl, ?_⟩
    cases hf : l.find? (fun x => x.PaymentID == pid) with
    | none => simp [hf] at h
    | some x =>
      simp only [hf] at h
      injection h with h
      rw [h]

theorem FindByPaymentID_of_find {l : List Donation} {pid : String} {d : Donation}
    (h : l.find? (fun x => x.PaymentID == pid) = some d) :
    DonationRepository.FindByPaymentID l none pid = .ok d := by
  simp [DonationRepository.FindByPaymentID, h]

theorem applyStatusUpdate_eq (status : PaymentStatus) (now : Time) (d : Donation) :
    applyStatusUpdate status now d =
      { d with PaymentStatus := status,
               PaidAt := if status = PaymentStatusPaid then some now else d.PaidAt } := by
  unfold applyStatusUpdate
  by_cases h : status = PaymentStatusPaid <;> simp [h]

/-- After the row update, the lookup by order id finds the updated row. -/
theorem find_after_update {l : List Donation} {pid : String} {d : Donation}
    (status : PaymentStatus) (now : Time)
    (h : l.find? (fun x => x.PaymentID == pid) = some d) :
    (l.map (fun x => if x.ID = d.ID then applyStatusUpdate status now x else x)).find?
        (fun x => x.PaymentID == pid) = some (applyStatusUpdate status now d) := by
  rw [find?_map_of_pred_eq, h]
  · simp
  · intro x
    by_cases hx : x.ID = d.ID
    · simp [hx, applyStatusUpdate_eq]
    · simp [hx]

/-- The ledger call on a donation that is neither paid nor already in the target
status, when the write succeeds. -/
theorem UpdatePaymentStatus_write (s : DonationService) (w : World) (env : Env)
    (pid : String) (status : PaymentStatus) (d : Donation)
    (hfind : DonationRepository.FindByPaymentID w.donations env.findErr pid = .ok d)
    (hne : d.PaymentStatus ≠ status) (hpaid : d.PaymentStatus ≠ PaymentStatusPaid)
    (hwrite : env.updateErr = none) :
    (s.UpdatePaymentStatus w env pid status).1 = .ok () ∧
    (s.UpdatePaymentStatus w env pid status).2.users = w.users ∧
    (s.UpdatePaymentStatus w env pid status).2.donations =
      w.donations.map (fun x => if x.ID = d.ID then applyStatusUpdate status env.now x else x) := by
  unfold DonationService.UpdatePaymentStatus
  simp only [hfind, hwrite, DonationRepository.UpdatePaymentStatus, beq_iff_eq, hne, hpaid,
    if_false]
  split
  · split <;> simp
  · simp

/-- Without an error from the ledger call only three outcomes exist: a no-op on a
donation already in the target status, a no-op on a paid donation, or a write. -/
theorem UpdatePaymentStatus_noop (s : DonationService) (w : World) (env : Env)
    (pid : String) (status : PaymentStatus) (d : Donation)
    (hfind : DonationRepository.FindByPaymentID w.donations env.findErr pid = .ok d)
    (h : d.PaymentStatus = status ∨ d.PaymentStatus = PaymentStatusPaid) :
    s.UpdatePaymentStatus w env pid status = (.ok (), w) := by
  unfold DonationService.UpdatePaymentStatus
  simp only [hfind, beq_iff_eq]
  rcases h with h | h
  · simp [h]
  · simp [h]

/-! ## the donation ledger -/

/-- C1. A donation found by the order id and currently paid: for every new
status, `UpdatePaymentStatus` returns success and leaves the whole state as it
was (no write, no alert), so the lookup afterwards still finds the donation
paid. This holds whatever the write would have answered. -/
theorem C1_paid_is_sticky (s : DonationService) (w : World) (env : Env) (pid : String)
    (newStatus : PaymentStatus) (d : Donation)
    (hfind : DonationRepository.FindByPaymentID w.donations env.findErr pid = .ok d)
    (hpaid : d.PaymentStatus = PaymentStatusPaid) :
    (s.UpdatePaymentStatus w env pid newStatus).1 = .ok () ∧
    (s.UpdatePaymentStatus w env pid newStatus).2 = w ∧
    (s.UpdatePaymentStatus w env pid newStatus).2.broadcasts = w.broadcasts ∧
    DonationRepository.FindByPaymentID
        (s.UpdatePaymentStatus w env pid newStatus).2.donations env.findErr pid = .ok d ∧
    d.PaymentStatus = PaymentStatusPaid := by
  have h := UpdatePaymentStatus_noop s w env pid newStatus d hfind (Or.inr hpaid)
  rw [h]
  exact ⟨rfl, rfl, rfl, hfind, hpaid⟩

theorem C1_paid_is_sticky_witness :
    ((DonationService.UpdatePaymentStatus {} (sampleWorld "paid" (some sampleNow))
        { updateErr := some "db down" } "JJN-00000001" "failed").1 = .ok () ∧
     (DonationService.UpdatePaymentStatus {} (sampleWorld "paid" (some sampleNow))
        { updateErr := some "db down" } "JJN-00000001" "failed").2
        = sampleWorld "paid" (some sampleNow)) :=
  have h := C1_paid_is_sticky {} (sampleWorld "paid" (some sampleNow))
    { updateErr := some "db down" } "JJN-00000001" "failed"
    (sampleDonation "paid" (some sampleNow)) (by rfl) (by rfl)
  ⟨h.1, h.2.1⟩

/-- C2. A donation found by the order id, neither paid nor already in the new
status, on a service with an alert service, when the creator row exists and the
write succeeds: the call returns success and stores the new status on the
donation (rows with another id and the users are untouched). When the new status
is paid, `paid_at` is the time of the call and exactly one alert is appended to
the calls of `AlertService.Broadcast`, keyed by the creator's id and carrying the
donation's buyer name, amount, message, quantity and product name and emoji.
When the new status is not paid, `paid_at` is what it was and no alert is
handed over. -/
theorem C2_write_and_alert (s : DonationService) (w : World) (env : Env) (pid : String)
    (newStatus : PaymentStatus) (d : Donation) (creator : User)
    (hfind : DonationRepository.FindByPaymentID w.donations env.findErr pid = .ok d)
    (hnotpaid : d.PaymentStatus ≠ PaymentStatusPaid)
    (hne : d.PaymentStatus ≠ newStatus)
    (hcreator : UserRepository.FindByID w.users env.userErr d.CreatorID = .ok creator)
    (hwrite : env.updateErr = none)
    (halert : s.alertService = true) :
    (s.UpdatePaymentStatus w env pid newStatus).1 = .ok () ∧
    (s.UpdatePaymentStatus w env pid newStatus).2.users = w.users ∧
    (s.UpdatePaymentStatus w env pid newStatus).2.donations =
      w.donations.map (fun x =>
        if x.ID = d.ID then
          { x with PaymentStatus := newStatus,
                   PaidAt := if newStatus = PaymentStatusPaid then some env.now else x.PaidAt }
        else x) ∧
    DonationRepository.FindByPaymentID
        (s.UpdatePaymentStatus w env pid newStatus).2.donations none pid =
      .ok { d with PaymentStatus := newStatus,
                   PaidAt := if newStatus = PaymentStatusPaid then some env.now else d.PaidAt } ∧
    (s.UpdatePaymentStatus w env pid newStatus).2.broadcasts =
      (if newStatus = PaymentStatusPaid then
        w.broadcasts ++ [(d.CreatorID.str,
          { SupporterName := d.BuyerName, Amount := d.Amount, Message := d.Message,
            CreatorName := creator.Name, ProductName := d.ProductName,
            ProductEmoji := d.ProductEmoji, Quantity := d.Quantity })]
      else w.broadcasts) := by
  obtain ⟨h1, h2, h3⟩ := UpdatePaymentStatus_write s w env pid newStatus d hfind hne hnotpaid hwrite
  have hf := (FindByPaymentID_ok hfind).2
  refine ⟨h1, h2, ?_, ?_, ?_⟩
  · rw [h3]
    congr 1
    funext x
    rw [applyStatusUpdate_eq]
  · rw [h3]
    have := FindByPaymentID_of_find (find_after_update newStatus env.now hf)
    rw [this, applyStatusUpdate_eq]
  · have hid : creator.ID = d.CreatorID := by
      unfold UserRepository.FindByID at hcreator
      cases hu : env.userErr with
      | some e => simp [hu] at hcreator
      | none =>
        simp only [hu] at hcreator
        cases hq : w.users.find? (fun u => u.ID == d.CreatorID && u.DeletedAt.isNone) with
        | none => simp [hq] at hcreator
        | some u =>
          simp only [hq] at hcreator
          injection hcreator with hcreator
          have := List.find?_some hq
          simp only [Bool.and_eq_true, beq_iff_eq] at this
          rw [← hcreator]
          exact this.1
    unfold DonationService.UpdatePaymentStatus
    simp only [hfind, hwrite, DonationRepository.UpdatePaymentStatus, beq_iff_eq, hne, hnotpaid,
      if_false, halert, Bool.and_true, decide_eq_true_eq, hcreator]
    by_cases hp : newStatus = PaymentStatusPaid
    · simp [hp, alertFor, hid]
    · simp [hp]

theorem C2_write_and_alert_witness :
    ((DonationService.UpdatePaymentStatus {} (sampleWorld "pending" none) { now := sampleNow }
        "JJN-00000001" "paid").2.donations
        = [sampleDonation "paid" (some sampleNow), otherDonation] ∧
     (DonationService.UpdatePaymentStatus {} (sampleWorld "pending" none) { now := sampleNow }
        "JJN-00000001" "paid").2.broadcasts
        = [("00000000-0000-0000-0000-000000000007",
            { SupporterName := "Budi", Amount := 5000, Message := "semangat",
              CreatorName := "Sari", ProductName := "Kopi", ProductEmoji := "K",
              Quantity := 2 })]) :=
  have h := C2_write_and_alert {} (sampleWorld "pending" none) { now := sampleNow }
    "JJN-00000001" "paid" (sampleDonation "pending" none) sampleCreator
    (by rfl) (by decide) (by decide) (by rfl) (by rfl) (by rfl)
  ⟨h.2.2.1.trans (by decide), h.2.2.2.2.trans (by decide)⟩

/-- C3. A donation found by the order id whose status already equals the new
status: `UpdatePaymentStatus` returns success and the state after the call is
the state before it, so status and `paid_at` are unchanged and no alert is
broadcast. -/
theorem C3_same_status_is_noop (s : DonationService) (w : World) (env : Env) (pid : String)
    (newStatus : PaymentStatus) (d : Donation)
    (hfind : DonationRepository.FindByPaymentID w.donations env.findErr pid = .ok d)
    (hsame : d.PaymentStatus = newStatus) :
    (s.UpdatePaymentStatus w env pid newStatus).1 = .ok () ∧
    (s.UpdatePaymentStatus w env pid newStatus).2 = w ∧
    (s.UpdatePaymentStatus w env pid newStatus).2.donations = w.donations ∧
    (s.UpdatePaymentStatus w env pid newStatus).2.broadcasts = w.broadcasts := by
  have h := UpdatePaymentStatus_noop s w env pid newStatus d hfind (Or.inl hsame)
  rw [h]
  exact ⟨rfl, rfl, rfl, rfl⟩

theorem C3_same_status_is_noop_witness :
    (DonationService.UpdatePaymentStatus {} (sampleWorld "failed" none) { now := sampleNow }
        "JJN-00000001" "failed").2 = sampleWorld "failed" none :=
  (C3_same_status_is_noop {} (sampleWorld "failed" none) { now := sampleNow }
    "JJN-00000001" "failed" (sampleDonation "failed" none) (by rfl) (by rfl)).2.1

/-- A ledger call that returns an error leaves the state as it was. -/
theorem UpdatePaymentStatus_error_keeps (s : DonationService) (w : World) (env : Env)
    (pid : String) (status : PaymentStatus) (e : String)
    (h : (s.UpdatePaymentStatus w env pid status).1 = .error e) :
    (s.UpdatePaymentStatus w env pid status).2 = w := by
  unfold DonationService.UpdatePaymentStatus at h ⊢
  cases hf : DonationRepository.FindByPaymentID w.donations env.findErr pid with
  | error x => simp
  | ok d =>
    simp only [hf] at h ⊢
    by_cases h1 : d.PaymentStatus = status
    · simp [h1]
    · by_cases h2 : d.PaymentStatus = PaymentStatusPaid
      · simp [h1, h2]
      · cases hu : env.updateErr with
        | some x => simp [DonationRepository.UpdatePaymentStatus, hu, h1, h2]
        | none =>
          simp only [beq_iff_eq, h1, h2, if_false, DonationRepository.UpdatePaymentStatus,
            hu] at h
          split at h
          · split at h <;> simp at h
          · simp at h

/-- After a ledger call that returned success, the lookup by the same order id,
when it finds a donation, finds one that is paid or in the requested status. -/
theorem UpdatePaymentStatus_ok_settled (s : DonationService) (w : World) (env : Env)
    (pid : String) (status : PaymentStatus)
    (hok : (s.UpdatePaymentStatus w env pid status).1 = .ok ())
    (err : Option String) (d1 : Donation)
    (hfind : DonationRepository.FindByPaymentID
        (s.UpdatePaymentStatus w env pid status).2.donations err pid = .ok d1) :
    d1.PaymentStatus = status ∨ d1.PaymentStatus = PaymentStatusPaid := by
  cases hf : DonationRepository.FindByPaymentID w.donations env.findErr pid with
  | error x =>
    unfold DonationService.UpdatePaymentStatus at hok
    simp [hf] at hok
  | ok d =>
    by_cases h1 : d.PaymentStatus = status
    · rw [UpdatePaymentStatus_noop s w env pid status d hf (Or.inl h1)] at hfind
      have a := (FindByPaymentID_ok hf).2
      have b := (FindByPaymentID_ok hfind).2
      simp only at b
      rw [a] at b
      injection b with b
      exact Or.inl (b ▸ h1)
    · by_cases h2 : d.PaymentStatus = PaymentStatusPaid
      · rw [UpdatePaymentStatus_noop s w env pid status d hf (Or.inr h2)] at hfind
        have a := (FindByPaymentID_ok hf).2
        have b := (FindByPaymentID_ok hfind).2
        simp only at b
        rw [a] at b
        injection b with b
        exact Or.inr (b ▸ h2)
      · cases hu : env.updateErr with
        | some x =>
          unfold DonationService.UpdatePaymentStatus at hok
          simp [hf, h1, h2, hu, DonationRepository.UpdatePaymentStatus] at hok
        | none =>
          have h3 := (UpdatePaymentStatus_write s w env pid status d hf h1 h2 hu).2.2
          rw [h3] at hfind
          have b := (FindByPaymentID_ok hfind).2
          rw [find_after_update status env.now (FindByPaymentID_ok hf).2] at b
          injection b with b
          left
          rw [← b, applyStatusUpdate_eq]

/-- C4. Idempotence: if a first `UpdatePaymentStatus(orderId, s)` returns success,
an immediately following second call with the same order id and status, whatever
the clock and the database answer the second time, leaves the state exactly as
the first call left it: the donation store is the same and no alert is added to
the broadcasts. -/
theorem C4_second_call_changes_nothing (s : DonationService) (w : World) (env1 env2 : Env)
    (pid : String) (status : PaymentStatus)
    (hok : (s.UpdatePaymentStatus w env1 pid status).1 = .ok ()) :
    (s.UpdatePaymentStatus (s.UpdatePaymentStatus w env1 pid status).2 env2 pid status).2
        = (s.UpdatePaymentStatus w env1 pid status).2 ∧
    (s.UpdatePaymentStatus (s.UpdatePaymentStatus w env1 pid status).2 env2 pid status).2.donations
        = (s.UpdatePaymentStatus w env1 pid status).2.donations ∧
    (s.UpdatePaymentStatus (s.UpdatePaymentStatus w env1 pid status).2 env2 pid status).2.broadcasts
        = (s.UpdatePaymentStatus w env1 pid status).2.broadcasts := by
  have key : (s.UpdatePaymentStatus (s.UpdatePaymentStatus w env1 pid status).2 env2 pid
      status).2 = (s.UpdatePaymentStatus w env1 pid status).2 := by
    cases hf : DonationRepository.FindByPaymentID
        (s.UpdatePaymentStatus w env1 pid status).2.donations env2.findErr pid with
    | error x =>
      generalize (s.UpdatePaymentStatus w env1 pid status).2 = w1 at hf ⊢
      unfold DonationService.UpdatePaymentStatus
      simp [hf]
    | ok d1 =>
      have hs := UpdatePaymentStatus_ok_settled s w env1 pid status hok env2.findErr d1 hf
      rw [UpdatePaymentStatus_noop s _ env2 pid status d1 hf hs]
  exact ⟨key, by rw [key], by rw [key]⟩

theorem C4_second_call_changes_nothing_witness :
    (DonationService.UpdatePaymentStatus {}
        (DonationService.UpdatePaymentStatus {} (sampleWorld "pending" none) { now := sampleNow }
          "JJN-00000001" "paid").2 {} "JJN-00000001" "paid").2.broadcasts
      = (DonationService.UpdatePaymentStatus {} (sampleWorld "pending" none) { now := sampleNow }
          "JJN-00000001" "paid").2.broadcasts :=
  (C4_second_call_changes_nothing {} (sampleWorld "pending" none) { now := sampleNow } {}
    "JJN-00000001" "paid" (by rfl)).2.2

/-- C5, as stated, fails: a failed donation is moved back to pending, and on to
paid, by `UpdatePaymentStatus`. -/
theorem C5_failed_is_not_terminal :
    ((sampleWorld "failed" none).donations.map (fun d => d.PaymentStatus)
        = ["failed", "pending"]) ∧
    ((DonationService.UpdatePaymentStatus {} (sampleWorld "failed" none) { now := sampleNow }
        "JJN-00000001" "pending").2.donations.map (fun d => d.PaymentStatus)
        = ["pending", "pending"]) ∧
    ((DonationService.UpdatePaymentStatus {} (sampleWorld "failed" none) { now := sampleNow }
        "JJN-00000001" "paid").2.donations.map (fun d => d.PaymentStatus)
        = ["paid", "pending"]) ∧
    ((DonationService.UpdatePaymentStatus {} (sampleWorld "expired" none) { now := sampleNow }
        "JJN-00000001" "failed").2.donations.map (fun d => d.PaymentStatus)
        = ["failed", "pending"]) := by
  decide

/-- C5, amended. Only paid is sticky. For a donation found by the order id whose
status is paid, failed or expired: when the status is paid, or equals the new
status, the call leaves the state unchanged; when the status is failed or
expired and differs from the new status, the call stores the new status (pending
and paid included) when the write succeeds, and leaves the state unchanged when
the write fails. -/
theorem C5_terminal_amended (s : DonationService) (w : World) (env : Env) (pid : String)
    (newStatus : PaymentStatus) (d : Donation)
    (hfind : DonationRepository.FindByPaymentID w.donations env.findErr pid = .ok d)
    (_hterm : d.PaymentStatus = PaymentStatusPaid ∨ d.PaymentStatus = PaymentStatusFailed ∨
      d.PaymentStatus = PaymentStatusExpired) :
    (Except.map (fun x => x.PaymentStatus) (DonationRepository.FindByPaymentID
        (s.UpdatePaymentStatus w env pid newStatus).2.donations none pid)
      = .ok (if d.PaymentStatus = PaymentStatusPaid ∨ env.updateErr ≠ none
              then d.PaymentStatus else newStatus)) ∧
    ((d.PaymentStatus = PaymentStatusPaid ∨ d.PaymentStatus = newStatus ∨ env.updateErr ≠ none) →
      (s.UpdatePaymentStatus w env pid newStatus).2 = w) := by
  have hf := (FindByPaymentID_ok hfind).2
  by_cases h2 : d.PaymentStatus = PaymentStatusPaid
  · rw [UpdatePaymentStatus_noop s w env pid newStatus d hfind (Or.inr h2)]
    simp [FindByPaymentID_of_find hf, h2, Except.map]
  · by_cases h1 : d.PaymentStatus = newStatus
    · rw [UpdatePaymentStatus_noop s w env pid newStatus d hfind (Or.inl h1)]
      simp only [FindByPaymentID_of_find hf, h2, Except.map, false_or, implies_true, and_true]
      split <;> simp [h1]
    · cases hu : env.updateErr with
      | some x =>
        have hw : (s.UpdatePaymentStatus w env pid newStatus).2 = w := by
          unfold DonationService.UpdatePaymentStatus
          simp [hfind, h1, h2, hu, DonationRepository.UpdatePaymentStatus]
        rw [hw]
        simp [FindByPaymentID_of_find hf, Except.map]
      | none =>
        have h3 := (UpdatePaymentStatus_write s w env pid newStatus d hfind h1 h2 hu).2.2
        rw [h3, FindByPaymentID_of_find (find_after_update newStatus env.now hf)]
        simp [h1, h2, Except.map, applyStatusUpdate_eq]

theorem C5_terminal_amended_witness :
    Except.map (fun x => x.PaymentStatus) (DonationRepository.FindByPaymentID
        (DonationService.UpdatePaymentStatus {} (sampleWorld "failed" none) { now := sampleNow }
          "JJN-00000001" "paid").2.donations none "JJN-00000001")
      = .ok (if (sampleDonation "failed" none).PaymentStatus = PaymentStatusPaid ∨
                ({ now := sampleNow } : Env).updateErr ≠ none
              then (sampleDonation "failed" none).PaymentStatus else "paid") :=
  (C5_terminal_amended {} (sampleWorld "failed" none) { now := sampleNow } "JJN-00000001" "paid"
    (sampleDonation "failed" none) (by rfl) (Or.inr (Or.inl (by rfl)))).1

/-- C6. When no donation has the order id as its payment id, `UpdatePaymentStatus`
returns the error `donation not found` and the state after the call is the state
before it: no donation is changed and no alert is broadcast. -/
theorem C6_unknown_order_id (s : DonationService) (w : World) (env : Env) (pid : String)
    (status : PaymentStatus)
    (hnone : ∀ d ∈ w.donations, d.PaymentID ≠ pid) :
    (s.UpdatePaymentStatus w env pid status).1 = .error "donation not found" ∧
    (s.UpdatePaymentStatus w env pid status).2 = w ∧
    (s.UpdatePaymentStatus w env pid status).2.donations = w.donations ∧
    (s.UpdatePaymentStatus w env pid status).2.broadcasts = w.broadcasts := by
  have hf : w.donations.find? (fun x => x.PaymentID == pid) = none := by
    rw [List.find?_eq_none]
    intro x hx
    simpa using hnone x hx
  have : s.UpdatePaymentStatus w env pid status = (.error "donation not found", w) := by
    unfold DonationService.UpdatePaymentStatus DonationRepository.FindByPaymentID
    cases env.findErr <;> simp [hf]
  rw [this]
  exact ⟨rfl, rfl, rfl, rfl⟩

theorem C6_unknown_order_id_witness :
    (DonationService.UpdatePaymentStatus {} (sampleWorld "pending" none) {} "JJN-ffffffff"
        "paid").1 = .error "donation not found" :=
  (C6_unknown_order_id {} (sampleWorld "pending" none) {} "JJN-ffffffff" "paid"
    (by decide)).1

/-! ## the PSP vocabulary -/

/-- C7. `ParseStatus` maps `"01"` to pending, `"02"` to paid, `"09"` to failed and
every other string to pending (the empty string, `"2"` and `"02 "` among them);
it returns paid exactly when its input is `"02"`. -/
theorem C7_ParseStatus (s : PaylabsService) :
    s.ParseStatus "01" = PaymentStatusPending ∧
    s.ParseStatus "02" = PaymentStatusPaid ∧
    s.ParseStatus "09" = PaymentStatusFailed ∧
    (∀ x : String, s.ParseStatus x =
      if x = "02" then PaymentStatusPaid else if x = "09" then PaymentStatusFailed
      else PaymentStatusPending) ∧
    s.ParseStatus "" = PaymentStatusPending ∧
    s.ParseStatus "2" = PaymentStatusPending ∧
    s.ParseStatus "02 " = PaymentStatusPending ∧
    (∀ x : String, s.ParseStatus x = PaymentStatusPaid ↔ x = "02") := by
  have hall : ∀ x : String, s.ParseStatus x =
      if x = "02" then PaymentStatusPaid else if x = "09" then PaymentStatusFailed
      else PaymentStatusPending := by
    intro x
    unfold PaylabsService.ParseStatus
    by_cases h2 : x = "02"
    · simp [h2]
    · by_cases h9 : x = "09"
      · simp [h9]
      · simp [h2, h9]
  refine ⟨by rfl, by rfl, by rfl, hall, by rfl, by rfl, by rfl, ?_⟩
  intro x
  rw [hall x]
  by_cases h2 : x = "02"
  · simp [h2]
  · by_cases h9 : x = "09"
    · simp [h9, PaymentStatusFailed, PaymentStatusPaid]
    · simp [h2, h9, PaymentStatusPending, PaymentStatusPaid]

/-! ## the reconciliation handlers -/

/-- C8 fails on the code. `VerifyWebhookSignature` accepts every signature,
timestamp and body, so no input makes it return false; a webhook delivery with a
made-up signature for a pending donation is answered `200 OK`, marks the
donation paid and broadcasts its alert. -/
theorem C8_verify_accepts_everything :
    (∀ (s : PaylabsService) (signature timestamp body : String),
      s.VerifyWebhookSignature signature timestamp body = true) ∧
    (¬ ∃ (s : PaylabsService) (signature timestamp body : String),
      s.VerifyWebhookSignature signature timestamp body = false) ∧
    (PaymentHandler.PaylabsWebhook {} (sampleWorld "pending" none) sampleDecode
        { now := sampleNow }
        { body := .ok "forged", signature := "not-a-signature", timestamp := "" }).response
      = Success 200 "OK" [] ∧
    (PaymentHandler.PaylabsWebhook {} (sampleWorld "pending" none) sampleDecode
        { now := sampleNow }
        { body := .ok "forged", signature := "not-a-signature", timestamp := "" }).world.donations
      = [sampleDonation "paid" (some sampleNow), otherDonation] ∧
    (PaymentHandler.PaylabsWebhook {} (sampleWorld "pending" none) sampleDecode
        { now := sampleNow }
        { body := .ok "forged", signature := "not-a-signature", timestamp := "" }).world.broadcasts.length
      = 1 := by
  refine ⟨fun _ _ _ _ => rfl, ?_, by decide, by decide, by decide⟩
  rintro ⟨s, a, b, c, h⟩
  simp [PaylabsService.VerifyWebhookSignature] at h

/-- C9. The poll path makes its ledger call, `UpdatePaymentStatus` for the polled
order id with status paid, exactly when the order id is not empty and the PSP
answered the query call with errCode `"0"` and a status that reads `"02"`; the
state is then the one that ledger call leaves. For every other PSP answer (the
call failed, an errCode other than `"0"`, a status other than `"02"` such as
`"01"` or `"09"`) no ledger call is made and the state, donations and
broadcasts, is unchanged. Here `answer` is what the PSP answers the query call
that the poll makes. -/
theorem C9_poll_updates_only_on_success (h : PaymentHandler) (w : World) (env : HandlerEnv)
    (orderID : String) (answer : Except String QRISResponse)
    (hanswer : env.api (queryRoute (h.pollPaymentMethod w env.lookupErr orderID)).1
        (.query { RequestID := generateRequestID env.now
                  MerchantID := h.paylabsService.cfg.PaylabsMerchantID
                  MerchantTradeNo := orderID
                  PaymentType := (queryRoute (h.pollPaymentMethod w env.lookupErr orderID)).2 })
      = answer) :
    ((h.CheckPaymentStatus w env orderID).ledgerCalls = [(orderID, PaymentStatusPaid)] ↔
      (orderID ≠ "" ∧ ∃ resp, answer = .ok resp ∧ resp.ErrCode = "0" ∧
        resp.GetStatus = "02")) ∧
    ((h.CheckPaymentStatus w env orderID).ledgerCalls = [(orderID, PaymentStatusPaid)] →
      (h.CheckPaymentStatus w env orderID).world =
        (h.donationService.UpdatePaymentStatus w env.ledger orderID PaymentStatusPaid).2) ∧
    ((h.CheckPaymentStatus w env orderID).ledgerCalls ≠ [(orderID, PaymentStatusPaid)] →
      (h.CheckPaymentStatus w env orderID).ledgerCalls = [] ∧
      (h.CheckPaymentStatus w env orderID).world = w) ∧
    (∀ e, answer = .error e →
      (h.CheckPaymentStatus w env orderID).ledgerCalls = [] ∧
      (h.CheckPaymentStatus w env orderID).world = w) ∧
    (∀ resp, answer = .ok resp → resp.ErrCode ≠ "0" →
      (h.CheckPaymentStatus w env orderID).ledgerCalls = [] ∧
      (h.CheckPaymentStatus w env orderID).world = w) ∧
    (∀ resp, answer = .ok resp → resp.GetStatus ≠ "02" →
      (h.CheckPaymentStatus w env orderID).ledgerCalls = [] ∧
      (h.CheckPaymentStatus w env orderID).world = w) := by
  have hps : h.paylabsService.ParseStatus "02" = PaymentStatusPaid := rfl
  have hq : h.paylabsService.QueryTransaction env.now env.api orderID
      (h.pollPaymentMethod w env.lookupErr orderID) =
        match answer with
        | .error e => .error e
        | .ok resp =>
          if resp.ErrCode == "0" then
            .ok { ErrCode := resp.ErrCode, ErrCodeDes := resp.ErrCodeDes,
                  Status := resp.GetStatus, SuccessTime := resp.SuccessTime }
          else
            .ok { ErrCode := resp.ErrCode, ErrCodeDes := resp.ErrCodeDes } := by
    unfold PaylabsService.QueryTransaction
    simp only [hanswer]
    cases answer <;> rfl
  unfold PaymentHandler.CheckPaymentStatus
  by_cases h0 : orderID = ""
  · simp [h0]
  · simp only [beq_iff_eq, h0, if_false, ne_eq, not_false_eq_true, true_and]
    rw [hq]
    cases answer with
    | error e => simp
    | ok resp =>
      by_cases he : resp.ErrCode = "0"
      · by_cases hs : resp.GetStatus = "02"
        · simp [he, hs, hps]
        · simp [he, hs]
      · simp [he]

/-- C9 at a poll of JJN-00000001, which the PSP answers with errCode 0 and status 01. -/
theorem C9_poll_updates_only_on_success_witness :
    (PaymentHandler.CheckPaymentStatus {} (sampleWorld "pending" none)
        { now := sampleNow, api := constAPI (.ok { ErrCode := "0", Status := .str "01" }) }
        "JJN-00000001").ledgerCalls = [] ∧
    (PaymentHandler.CheckPaymentStatus {} (sampleWorld "pending" none)
        { now := sampleNow, api := constAPI (.ok { ErrCode := "0", Status := .str "01" }) }
        "JJN-00000001").world = sampleWorld "pending" none :=
  (C9_poll_updates_only_on_success {} (sampleWorld "pending" none)
    { now := sampleNow, api := constAPI (.ok { ErrCode := "0", Status := .str "01" }) }
    "JJN-00000001" (.ok { ErrCode := "0", Status := .str "01" }) rfl).2.2.2.2.2
      { ErrCode := "0", Status := .str "01" } rfl (by decide)

/-- C10, as stated, fails: donations 1, paid, and 2, pending, carry the same
order id `JJN-00000000`; a cancel for that order id is answered `Payment
cancelled`, and donation 2, pending with that payment id, is left pending. -/
theorem C10_twin_stays_pending :
    twinPaidWorld.donations.map (fun d => (d.ID, d.PaymentID, d.PaymentStatus))
      = [(1, "JJN-00000000", "paid"), (2, "JJN-00000000", "pending")] ∧
    (PaymentHandler.CancelPayment {} twinPaidWorld
        { now := sampleNow, api := constAPI (.ok { ErrCode := "0" }) }
        (.ok { MerchantTradeNo := "JJN-00000000", PlatformTradeNo := "P1" })).response
      = Success 200 "Payment cancelled" [("success", .bool true)] ∧
    (PaymentHandler.CancelPayment {} twinPaidWorld
        { now := sampleNow, api := constAPI (.ok { ErrCode := "0" }) }
        (.ok { MerchantTradeNo := "JJN-00000000", PlatformTradeNo := "P1" })).world.donations.map
          (fun d => (d.ID, d.PaymentID, d.PaymentStatus))
      = [(1, "JJN-00000000", "paid"), (2, "JJN-00000000", "pending")] := by
  refine ⟨by decide, by rfl, by decide⟩

/-- C10, amended. A cancel request that binds, for an order id whose lookup
returns a pending donation (the first row in primary-key order with that payment
id), when the ledger write succeeds: whatever the PSP cancel call did (an error,
a non-zero errCode, a success; the result does not depend on the PSP at all), the
handler answers `200` success `Payment cancelled`, the donation found by the
order id afterwards is the same donation in status failed, every row with
another id is unchanged, also one that carries the same payment id, and no alert
is broadcast. -/
theorem C10_cancel_forces_failed (h : PaymentHandler) (w : World) (env : HandlerEnv)
    (input : CancelInput) (d : Donation)
    (hfind : DonationRepository.FindByPaymentID w.donations env.ledger.findErr
      input.MerchantTradeNo = .ok d)
    (hpending : d.PaymentStatus = PaymentStatusPending)
    (hwrite : env.ledger.updateErr = none) :
    (h.CancelPayment w env (.ok input)).response
      = Success 200 "Payment cancelled" [("success", .bool true)] ∧
    (h.CancelPayment w env (.ok input)).ledgerCalls
      = [(input.MerchantTradeNo, PaymentStatusFailed)] ∧
    DonationRepository.FindByPaymentID (h.CancelPayment w env (.ok input)).world.donations none
        input.MerchantTradeNo = .ok { d with PaymentStatus := PaymentStatusFailed } ∧
    (h.CancelPayment w env (.ok input)).world.broadcasts = w.broadcasts ∧
    List.Forall₂
      (fun before after =>
        after = if before.ID = d.ID then { before with PaymentStatus := PaymentStatusFailed }
          else before)
      w.donations (h.CancelPayment w env (.ok input)).world.donations ∧
    (∀ api : PaylabsAPI,
      h.CancelPayment w { env with api := api } (.ok input) = h.CancelPayment w env (.ok input)) := by
  have h1 : d.PaymentStatus ≠ PaymentStatusFailed := by rw [hpending]; decide
  have h2 : d.PaymentStatus ≠ PaymentStatusPaid := by rw [hpending]; decide
  have hf := (FindByPaymentID_ok hfind).2
  have hw := (UpdatePaymentStatus_write h.donationService w env.ledger input.MerchantTradeNo
    PaymentStatusFailed d hfind h1 h2 hwrite).2.2
  have hb : (h.donationService.UpdatePaymentStatus w env.ledger input.MerchantTradeNo
      PaymentStatusFailed).2.broadcasts = w.broadcasts := by
    have hfp : PaymentStatusFailed ≠ PaymentStatusPaid := by decide
    unfold DonationService.UpdatePaymentStatus
    simp [hfind, h1, h2, hfp, hwrite, DonationRepository.UpdatePaymentStatus]
  refine ⟨rfl, rfl, ?_, hb, ?_, fun _ => rfl⟩
  · show DonationRepository.FindByPaymentID (h.donationService.UpdatePaymentStatus w env.ledger
      input.MerchantTradeNo PaymentStatusFailed).2.donations none input.MerchantTradeNo = _
    rw [hw, FindByPaymentID_of_find (find_after_update PaymentStatusFailed env.ledger.now hf),
      applyStatusUpdate_eq]
    simp [PaymentStatusFailed, PaymentStatusPaid]
  · show List.Forall₂ _ w.donations (h.donationService.UpdatePaymentStatus w env.ledger
      input.MerchantTradeNo PaymentStatusFailed).2.donations
    rw [hw, List.forall₂_map_right_iff, List.forall₂_same]
    intro x _
    by_cases hx : x.ID = d.ID
    · simp [hx, applyStatusUpdate_eq, PaymentStatusFailed, PaymentStatusPaid]
    · simp [hx]

/-- C10, amended, at a cancel of JJN-00000001 whose PSP call fails with HTTP 500. -/
theorem C10_cancel_forces_failed_witness :
    DonationRepository.FindByPaymentID
        (PaymentHandler.CancelPayment {} (sampleWorld "pending" none)
          { now := sampleNow, api := constAPI (.error "paylabs API returned HTTP 500: ") }
          (.ok { MerchantTradeNo := "JJN-00000001", PlatformTradeNo := "P1" })).world.donations
        none "JJN-00000001"
      = .ok { sampleDonation "pending" none with PaymentStatus := PaymentStatusFailed } :=
  (C10_cancel_forces_failed {} (sampleWorld "pending" none)
    { now := sampleNow, api := constAPI (.error "paylabs API returned HTTP 500: ") }
    { MerchantTradeNo := "JJN-00000001", PlatformTradeNo := "P1" }
    (sampleDonation "pending" none) (by rfl) (by rfl) (by rfl)).2.2.1

/-! ## the query route -/

/-- C14. `QueryTransaction` takes endpoint and payment type from the method
and makes its one PSP call there: for `"qris"` and `""` its result is the PSP
answer to a query at the QRIS query endpoint with type `QRIS`; for every e-wallet
tag of `ewalletPaymentTypes` it is the PSP answer to a query at the e-wallet
query endpoint with the code the map gives that tag; for every other method it
is the PSP answer at the QRIS endpoint with type `QRIS`. A failed call is passed
on as it is, an answer is passed on as errCode and description, with status and
success time when the errCode is `"0"`; the result is the same against a PSP that
refuses every other call. -/
theorem C14_query_route (s : PaylabsService) (now : Time) (api : PaylabsAPI)
    (merchantTradeNo : String) :
    queryRoute "qris" = ("/payment/v2.3/qris/query", "QRIS") ∧
    queryRoute "" = ("/payment/v2.3/qris/query", "QRIS") ∧
    (∀ tag code : String, (tag, code) ∈ ewalletPaymentTypes →
      ewalletPaymentTypes.lookup tag = some code ∧
      queryRoute tag = ("/payment/v2.3/ewallet/query", code)) ∧
    (∀ m : String, m ≠ "qris" → m ≠ "" → ewalletPaymentTypes.lookup m = none →
      queryRoute m = ("/payment/v2.3/qris/query", "QRIS")) ∧
    (∀ m : String,
      s.QueryTransaction now api merchantTradeNo m =
        s.QueryTransaction now
          (fun path req =>
            if path = (queryRoute m).1 ∧
                req = .query { RequestID := generateRequestID now
                               MerchantID := s.cfg.PaylabsMerchantID
                               MerchantTradeNo := merchantTradeNo
                               PaymentType := (queryRoute m).2 }
            then api path req else .error "no such call")
          merchantTradeNo m) ∧
    (∀ m : String, m = "qris" ∨ m = "" →
      s.QueryTransaction now api merchantTradeNo m =
        (api "/payment/v2.3/qris/query"
          (.query { RequestID := generateRequestID now
                    MerchantID := s.cfg.PaylabsMerchantID
                    MerchantTradeNo := merchantTradeNo
                    PaymentType := "QRIS" })).map
          (fun resp =>
            { ErrCode := resp.ErrCode, ErrCodeDes := resp.ErrCodeDes,
              Status := if resp.ErrCode = "0" then resp.GetStatus else "",
              SuccessTime := if resp.ErrCode = "0" then resp.SuccessTime else "" })) ∧
    (∀ tag code : String, (tag, code) ∈ ewalletPaymentTypes →
      s.QueryTransaction now api merchantTradeNo tag =
        (api "/payment/v2.3/ewallet/query"
          (.query { RequestID := generateRequestID now
                    MerchantID := s.cfg.PaylabsMerchantID
                    MerchantTradeNo := merchantTradeNo
                    PaymentType := code })).map
          (fun resp =>
            { ErrCode := resp.ErrCode, ErrCodeDes := resp.ErrCodeDes,
              Status := if resp.ErrCode = "0" then resp.GetStatus else "",
              SuccessTime := if resp.ErrCode = "0" then resp.SuccessTime else "" })) ∧
    (∀ m : String, m ≠ "qris" → m ≠ "" → ewalletPaymentTypes.lookup m = none →
      s.QueryTransaction now api merchantTradeNo m =
        (api "/payment/v2.3/qris/query"
          (.query { RequestID := generateRequestID now
                    MerchantID := s.cfg.PaylabsMerchantID
                    MerchantTradeNo := merchantTradeNo
                    PaymentType := "QRIS" })).map
          (fun resp =>
            { ErrCode := resp.ErrCode, ErrCodeDes := resp.ErrCodeDes,
              Status := if resp.ErrCode = "0" then resp.GetStatus else "",
              SuccessTime := if resp.ErrCode = "0" then resp.SuccessTime else "" })) := by
  have hmap : ∀ m : String,
      s.QueryTransaction now api merchantTradeNo m =
        (api (queryRoute m).1
          (.query { RequestID := generateRequestID now
                    MerchantID := s.cfg.PaylabsMerchantID
                    MerchantTradeNo := merchantTradeNo
                    PaymentType := (queryRoute m).2 })).map
          (fun resp =>
            { ErrCode := resp.ErrCode, ErrCodeDes := resp.ErrCodeDes,
              Status := if resp.ErrCode = "0" then resp.GetStatus else "",
              SuccessTime := if resp.ErrCode = "0" then resp.SuccessTime else "" }) := by
    intro m
    unfold PaylabsService.QueryTransaction
    dsimp only
    cases api (queryRoute m).1
        (.query { RequestID := generateRequestID now
                  MerchantID := s.cfg.PaylabsMerchantID
                  MerchantTradeNo := merchantTradeNo
                  PaymentType := (queryRoute m).2 }) with
    | error e => rfl
    | ok resp =>
      by_cases he : resp.ErrCode = "0"
      · simp [Except.map, he]
      · simp [Except.map, he]
  have htag : ∀ tag code : String, (tag, code) ∈ ewalletPaymentTypes →
      ewalletPaymentTypes.lookup tag = some code ∧
      queryRoute tag = ("/payment/v2.3/ewallet/query", code) := by
    intro tag code hmem
    simp only [ewalletPaymentTypes, List.mem_cons, Prod.mk.injEq, List.mem_singleton,
      List.not_mem_nil, or_false] at hmem
    rcases hmem with ⟨rfl, rfl⟩ | ⟨rfl, rfl⟩ | ⟨rfl, rfl⟩ | ⟨rfl, rfl⟩ | ⟨rfl, rfl⟩ <;>
      exact ⟨by rfl, by rfl⟩
  have hother : ∀ m : String, m ≠ "qris" → m ≠ "" → ewalletPaymentTypes.lookup m = none →
      queryRoute m = ("/payment/v2.3/qris/query", "QRIS") := by
    intro m h1 h2 hl
    have hg : m ≠ "gopay" := by rintro rfl; revert hl; decide
    have hd : m ≠ "dana" := by rintro rfl; revert hl; decide
    have hs : m ≠ "shopee" := by rintro rfl; revert hl; decide
    have ho : m ≠ "ovo" := by rintro rfl; revert hl; decide
    have hk : m ≠ "linkaja" := by rintro rfl; revert hl; decide
    simp [queryRoute, h1, h2, hg, hd, hs, ho, hk]
  refine ⟨by rfl, by rfl, htag, hother, ?_, ?_, ?_, ?_⟩
  · intro m
    simp [PaylabsService.QueryTransaction]
  · intro m hm
    have hr : queryRoute m = ("/payment/v2.3/qris/query", "QRIS") := by
      rcases hm with rfl | rfl <;> rfl
    rw [hmap m, hr]
  · intro tag code hmem
    rw [hmap tag, (htag tag code hmem).2]
  · intro m h1 h2 hl
    rw [hmap m, hother m h1 h2 hl]

/-- C14 at a poll for a DANA donation, which the PSP answers with errCode 0 and
the integer status 2. -/
theorem C14_query_route_witness :
    ("dana", "DANABALANCE") ∈ ewalletPaymentTypes ∧
    PaylabsService.QueryTransaction {} sampleNow
        (fun path req =>
          if path = "/payment/v2.3/ewallet/query" ∧
              req = .query { RequestID := "20250309140530120", MerchantID := ""
                             MerchantTradeNo := "JJN-00000002", PaymentType := "DANABALANCE" }
          then .ok { ErrCode := "0", Status := .int 2 } else .error "no such call")
        "JJN-00000002" "dana"
      = .ok { ErrCode := "0", Status := "02" } :=
  ⟨by decide,
   (C14_query_route {} sampleNow
      (fun path req =>
        if path = "/payment/v2.3/ewallet/query" ∧
            req = .query { RequestID := "20250309140530120", MerchantID := ""
                           MerchantTradeNo := "JJN-00000002", PaymentType := "DANABALANCE" }
        then .ok { ErrCode := "0", Status := .int 2 } else .error "no such call")
      "JJN-00000002").2.2.2.2.2.2.1 "dana" "DANABALANCE" (by decide)⟩

/-! ## the frame of the ledger update -/

/-- The donations after a ledger call: the ones before, or the ones before with
the row update applied to the rows that carry the found donation's id. -/
theorem UpdatePaymentStatus_donations (s : DonationService) (w : World) (env : Env)
    (pid : String) (status : PaymentStatus) :
    (s.UpdatePaymentStatus w env pid status).2.donations = w.donations ∨
    ∃ d, DonationRepository.FindByPaymentID w.donations env.findErr pid = .ok d ∧
      (s.UpdatePaymentStatus w env pid status).2.donations =
        w.donations.map (fun x => if x.ID = d.ID then applyStatusUpdate status env.now x else x) := by
  cases hf : DonationRepository.FindByPaymentID w.donations env.findErr pid with
  | error x =>
    left
    unfold DonationService.UpdatePaymentStatus
    simp [hf]
  | ok d =>
    by_cases h1 : d.PaymentStatus = status
    · left; rw [UpdatePaymentStatus_noop s w env pid status d hf (Or.inl h1)]
    · by_cases h2 : d.PaymentStatus = PaymentStatusPaid
      · left; rw [UpdatePaymentStatus_noop s w env pid status d hf (Or.inr h2)]
      · cases hu : env.updateErr with
        | some x =>
          left
          unfold DonationService.UpdatePaymentStatus
          simp [hf, h1, h2, hu, DonationRepository.UpdatePaymentStatus]
        | none =>
          right
          exact ⟨d, rfl, (UpdatePaymentStatus_write s w env pid status d hf h1 h2 hu).2.2⟩

/-- The users table is never written by a ledger call. -/
theorem UpdatePaymentStatus_users (s : DonationService) (w : World) (env : Env)
    (pid : String) (status : PaymentStatus) :
    (s.UpdatePaymentStatus w env pid status).2.users = w.users := by
  cases hf : DonationRepository.FindByPaymentID w.donations env.findErr pid with
  | error x =>
    unfold DonationService.UpdatePaymentStatus
    simp [hf]
  | ok d =>
    by_cases h1 : d.PaymentStatus = status
    · rw [UpdatePaymentStatus_noop s w env pid status d hf (Or.inl h1)]
    · by_cases h2 : d.PaymentStatus = PaymentStatusPaid
      · rw [UpdatePaymentStatus_noop s w env pid status d hf (Or.inr h2)]
      · cases hu : env.updateErr with
        | some x =>
          unfold DonationService.UpdatePaymentStatus
          simp [hf, h1, h2, hu, DonationRepository.UpdatePaymentStatus]
        | none => exact (UpdatePaymentStatus_write s w env pid status d hf h1 h2 hu).2.1

/-- C20. After any `UpdatePaymentStatus` call the donations are the same rows in
the same order, each equal to the row before in every column other than payment
status and `paid_at`: id, payment id (the order identifier), amount, creator,
buyer name and email, message and payment method among them. A row that differs
at all carries the id of the donation the order id matched. -/
theorem C20_frame (s : DonationService) (w : World) (env : Env) (pid : String)
    (status : PaymentStatus) :
    List.Forall₂
      (fun before after =>
        after = { before with PaymentStatus := after.PaymentStatus, PaidAt := after.PaidAt } ∧
        after.PaymentID = before.PaymentID ∧ after.Amount = before.Amount ∧
        after.CreatorID = before.CreatorID ∧ after.BuyerName = before.BuyerName ∧
        after.BuyerEmail = before.BuyerEmail ∧ after.BuyerID = before.BuyerID ∧
        after.Message = before.Message ∧ after.PaymentMethod = before.PaymentMethod ∧
        (after ≠ before →
          ∃ d, DonationRepository.FindByPaymentID w.donations env.findErr pid = .ok d ∧
            before.ID = d.ID))
      w.donations (s.UpdatePaymentStatus w env pid status).2.donations := by
  rcases UpdatePaymentStatus_donations s w env pid status with h | ⟨d, hd, h⟩
  · rw [h, List.forall₂_same]
    intro x _
    simp
  · rw [h, List.forall₂_map_right_iff, List.forall₂_same]
    intro x _
    by_cases hx : x.ID = d.ID
    · simp [hx, applyStatusUpdate_eq, hd]
    · simp [hx]

/-! ## the alert broadcaster -/

theorem removeFirst_eq (ch : ChanId) (l : List ChanId) :
    removeFirst ch l = if ch ∈ l then some (l.erase ch) else none := by
  induction l with
  | nil => rfl
  | cons c rest ih =>
    unfold removeFirst
    by_cases hc : c = ch
    · simp [hc]
    · have hc2 : ¬ ch = c := fun h => hc h.symm
      rw [ih]
      by_cases hm : ch ∈ rest
      · simp [hc, hc2, hm, List.erase_cons]
      · simp [hc, hc2, hm]

theorem removeFirst_split (ch : ChanId) (l r : List ChanId) (h : removeFirst ch l = some r) :
    ∃ l1 l2, l = l1 ++ ch :: l2 ∧ ch ∉ l1 ∧ r = l1 ++ l2 := by
  induction l generalizing r with
  | nil => simp [removeFirst] at h
  | cons c rest ih =>
    unfold removeFirst at h
    by_cases hc : c = ch
    · simp only [hc, beq_self_eq_true, if_true, Option.some.injEq] at h
      exact ⟨[], rest, by simp [hc], by simp, by simp [h]⟩
    · simp only [beq_iff_eq, hc, if_false] at h
      cases hr : removeFirst ch rest with
      | none => simp [hr] at h
      | some r1 =>
        simp only [hr, Option.some.injEq] at h
        obtain ⟨l1, l2, h1, h2, h3⟩ := ih r1 hr
        refine ⟨c :: l1, l2, by simp [h1], ?_, by simp [← h, h3]⟩
        simp only [List.mem_cons, not_or]
        exact ⟨fun e => hc e.symm, h2⟩

/-- A send on an open channel does not panic: the channel keeps its capacity and
stays open, and its buffer gains the alert when there is room. -/
theorem trySend_open (c : Channel) (alert : AlertData) (hc : c.closed = false) :
    ∃ c1, c.trySend alert = some c1 ∧ c1.cap = c.cap ∧ c1.closed = false ∧
      c1.buf = c.buf ++ List.replicate (min 1 (c.cap - c.buf.length)) alert := by
  unfold Channel.trySend
  by_cases hroom : c.buf.length < c.cap
  · refine ⟨{ c with buf := c.buf ++ [alert] }, by simp [hc, hroom], rfl, hc, ?_⟩
    have : min 1 (c.cap - c.buf.length) = 1 := by omega
    simp [this]
  · refine ⟨c, by simp [hc, hroom], rfl, hc, ?_⟩
    have : min 1 (c.cap - c.buf.length) = 0 := by omega
    simp [this]

/-- The broadcast loop over open channels never panics, and leaves every channel
as it was but for the alerts appended: as many copies as the channel occurs in
the list, up to the room its buffer has. -/
theorem broadcastLoop_spec (alert : AlertData) (l : List ChanId) :
    ∀ chans : ChanId → Channel, (∀ ch ∈ l, (chans ch).closed = false) →
      (broadcastLoop alert chans l).2 = false ∧
      ∀ ch, ((broadcastLoop alert chans l).1 ch).cap = (chans ch).cap ∧
        ((broadcastLoop alert chans l).1 ch).closed = (chans ch).closed ∧
        ((broadcastLoop alert chans l).1 ch).buf = (chans ch).buf ++
          List.replicate (min (l.count ch) ((chans ch).cap - (chans ch).buf.length)) alert := by
  induction l with
  | nil =>
    intro chans _
    simp [broadcastLoop]
  | cons c rest ih =>
    intro chans hopen
    have hc : (chans c).closed = false := hopen c (by simp)
    obtain ⟨c1, hsend, hcap, hcl, hbuf⟩ := trySend_open (chans c) alert hc
    unfold broadcastLoop
    simp only [hsend]
    have hopen2 : ∀ ch ∈ rest, ((fun x => if x = c then c1 else chans x) ch).closed = false := by
      intro ch hch
      by_cases e : ch = c
      · simp [e, hcl]
      · simpa [e] using hopen ch (by simp [hch])
    obtain ⟨h1, h2⟩ := ih _ hopen2
    refine ⟨h1, ?_⟩
    intro ch
    obtain ⟨g1, g2, g3⟩ := h2 ch
    by_cases e : ch = c
    · subst e
      simp only [if_true] at g1 g2 g3
      refine ⟨g1.trans hcap, g2.trans (hcl.trans hc.symm), ?_⟩
      rw [g3, hbuf, hcap, List.append_assoc, ← List.replicate_add, List.count_cons_self,
        List.length_append, List.length_replicate]
      congr 2
      omega
    · have e2 : ¬ c = ch := fun h => e h.symm
      simp only [e, if_false] at g1 g2 g3
      refine ⟨g1, g2, ?_⟩
      rw [g3]
      simp [List.count_cons, e2]

/-- C17. Broadcast to a key whose registered channels are all open: the call does
not panic and the `clients` map is unchanged; every channel not registered under
the key is untouched; a channel registered under the key keeps capacity and
open state, is unaltered when its buffer is full, and otherwise has the event
appended to its buffer (once for a channel registered once; in general once per
registration, up to the free room); with zero subscribers the state is
unchanged. -/
theorem C17_broadcast (s : AlertService) (key : String) (alert : AlertData)
    (hopen : ∀ ch ∈ s.clients key, (s.chans ch).closed = false) :
    (s.Broadcast key alert).panicked = false ∧
    (s.Broadcast key alert).state.clients = s.clients ∧
    (∀ ch, ch ∉ s.clients key → (s.Broadcast key alert).state.chans ch = s.chans ch) ∧
    (∀ ch ∈ s.clients key,
      ((s.Broadcast key alert).state.chans ch).cap = (s.chans ch).cap ∧
      ((s.Broadcast key alert).state.chans ch).closed = false ∧
      ((s.Broadcast key alert).state.chans ch).buf = (s.chans ch).buf ++
        List.replicate (min ((s.clients key).count ch) ((s.chans ch).cap - (s.chans ch).buf.length))
          alert ∧
      ((s.chans ch).cap ≤ (s.chans ch).buf.length →
        (s.Broadcast key alert).state.chans ch = s.chans ch) ∧
      ((s.chans ch).buf.length < (s.chans ch).cap → (s.clients key).count ch = 1 →
        ((s.Broadcast key alert).state.chans ch).buf = (s.chans ch).buf ++ [alert])) ∧
    (s.clients key = [] → (s.Broadcast key alert).state.chans = s.chans ∧
      (s.Broadcast key alert).state.clients = s.clients) := by
  obtain ⟨h1, h2⟩ := broadcastLoop_spec alert (s.clients key) s.chans hopen
  have hext : ∀ a b : Channel, a.cap = b.cap → a.closed = b.closed → a.buf = b.buf → a = b := by
    intro a b x y z
    cases a; cases b
    simp only at x y z
    simp [x, y, z]
  by_cases hz : s.clients key = []
  · simp [AlertService.Broadcast, hz]
  · have hlen : ¬ (s.clients key).length = 0 := by simpa using hz
    simp only [AlertService.Broadcast, beq_iff_eq, hlen, if_false, hz, false_implies, and_true]
    refine ⟨h1, trivial, ?_, ?_⟩
    · intro ch hch
      obtain ⟨g1, g2, g3⟩ := h2 ch
      apply hext _ _ g1 g2
      rw [g3, List.count_eq_zero_of_not_mem hch]
      simp
    · intro ch hch
      obtain ⟨g1, g2, g3⟩ := h2 ch
      refine ⟨g1, g2.trans (hopen ch hch), g3, ?_, ?_⟩
      · intro hfull
        apply hext _ _ g1 g2
        rw [g3]
        have : (s.chans ch).cap - (s.chans ch).buf.length = 0 := by omega
        simp [this]
      · intro hroom hone
        rw [g3, hone]
        have : min 1 ((s.chans ch).cap - (s.chans ch).buf.length) = 1 := by omega
        simp [this]

theorem C17_broadcast_witness :
    ((sampleRegistry.Broadcast "u7" sampleAlert).state.chans 1).buf = [sampleAlert] ∧
    (sampleRegistry.Broadcast "u7" sampleAlert).state.chans 2 = sampleRegistry.chans 2 ∧
    (sampleRegistry.Broadcast "u7" sampleAlert).state.chans 3 = sampleRegistry.chans 3 :=
  have h := C17_broadcast sampleRegistry "u7" sampleAlert (by decide)
  ⟨((h.2.2.2.1 1 (by decide)).2.2.2.2 (by decide) (by decide)).trans (by decide),
   (h.2.2.2.1 2 (by decide)).2.2.2.1 (by decide),
   h.2.2.1 3 (by decide)⟩

/-- C18. For every registry state, key and channel: the count of the key after
`Register` is one more than before; after a following `Unregister` of the same
channel under the same key it is the count before the `Register` (this is the
state `Unregister` reaches also when its `close` panics, on a channel that was
closed already); the counts of every other key are unchanged by both; and
registering two channels under a key with no subscribers gives the count 2. -/
theorem C18_count (s : AlertService) (key : String) (ch : ChanId) :
    (s.Register key ch).GetClientCount key = s.GetClientCount key + 1 ∧
    ((s.Register key ch).Unregister key ch).state.GetClientCount key = s.GetClientCount key ∧
    (∀ k, k ≠ key →
      (s.Register key ch).GetClientCount k = s.GetClientCount k ∧
      ((s.Register key ch).Unregister key ch).state.GetClientCount k = s.GetClientCount k) ∧
    (∀ ch2, s.GetClientCount key = 0 →
      ((s.Register key ch).Register key ch2).GetClientCount key = 2) ∧
    (((s.Register key ch).Unregister key ch).panicked = (s.chans ch).closed) := by
  have hmem : ch ∈ s.clients key ++ [ch] := by simp
  have hrem : removeFirst ch (s.clients key ++ [ch]) = some ((s.clients key ++ [ch]).erase ch) := by
    rw [removeFirst_eq, if_pos hmem]
  have hlen : ((s.clients key ++ [ch]).erase ch).length = (s.clients key).length := by
    rw [List.length_erase_of_mem hmem]
    simp
  refine ⟨?_, ?_, ?_, ?_, ?_⟩
  · simp [AlertService.Register, AlertService.GetClientCount]
  · simp [AlertService.Register, AlertService.Unregister, AlertService.GetClientCount, hrem, hlen]
  · intro k hk
    constructor
    · simp [AlertService.Register, AlertService.GetClientCount, hk]
    · simp [AlertService.Register, AlertService.Unregister, AlertService.GetClientCount, hrem, hk]
  · intro ch2 h0
    simp only [AlertService.GetClientCount] at h0
    simp [AlertService.Register, AlertService.GetClientCount, h0]
  · simp only [AlertService.Register, AlertService.Unregister, if_true, hrem, closeChan]
    cases (s.chans ch).closed <;> simp

/-- C19. `Unregister(key, ch)` when `ch` is registered under `key`: the key's list
loses the first occurrence of `ch` and keeps every other entry in its order, the
lists of the other keys and every other channel are unchanged, and `ch` is
closed afterwards with its buffer and capacity as they were (the `close` panics
exactly when `ch` was closed already). When `ch` is not registered under `key`,
nothing changes: the registry is the same, `ch` is not closed by the call, and
there is no panic. -/
theorem C19_unregister (s : AlertService) (key : String) (ch : ChanId) :
    (ch ∈ s.clients key →
      (∃ l1 l2, s.clients key = l1 ++ ch :: l2 ∧ ch ∉ l1 ∧
        (s.Unregister key ch).state.clients key = l1 ++ l2) ∧
      (s.Unregister key ch).state.clients key = (s.clients key).erase ch ∧
      (∀ k, k ≠ key → (s.Unregister key ch).state.clients k = s.clients k) ∧
      ((s.Unregister key ch).state.chans ch).closed = true ∧
      ((s.Unregister key ch).state.chans ch).buf = (s.chans ch).buf ∧
      ((s.Unregister key ch).state.chans ch).cap = (s.chans ch).cap ∧
      (∀ c, c ≠ ch → (s.Unregister key ch).state.chans c = s.chans c) ∧
      (s.Unregister key ch).panicked = (s.chans ch).closed) ∧
    (ch ∉ s.clients key →
      (s.Unregister key ch).state.clients = s.clients ∧
      (s.Unregister key ch).state.chans = s.chans ∧
      (s.Unregister key ch).panicked = false) := by
  constructor
  · intro hmem
    have hrem : removeFirst ch (s.clients key) = some ((s.clients key).erase ch) := by
      rw [removeFirst_eq, if_pos hmem]
    obtain ⟨l1, l2, e1, e2, e3⟩ := removeFirst_split ch _ _ hrem
    have hcl : ((closeChan s.chans ch).1 ch).closed = true ∧
        ((closeChan s.chans ch).1 ch).buf = (s.chans ch).buf ∧
        ((closeChan s.chans ch).1 ch).cap = (s.chans ch).cap ∧
        (∀ c, c ≠ ch → (closeChan s.chans ch).1 c = s.chans c) ∧
        (closeChan s.chans ch).2 = (s.chans ch).closed := by
      unfold closeChan
      cases hc : (s.chans ch).closed with
      | true => simp [hc]
      | false =>
        simp only [Bool.false_eq_true, if_false, if_true, and_true, true_and]
        intro c hne
        simp [hne]
    simp only [AlertService.Unregister, hrem, if_true]
    refine ⟨⟨l1, l2, e1, e2, e3⟩, trivial, ?_, hcl.1, hcl.2.1, hcl.2.2.1, hcl.2.2.2.1, hcl.2.2.2.2⟩
    intro k hk
    simp [hk]
  · intro hmem
    have hrem : removeFirst ch (s.clients key) = none := by
      rw [removeFirst_eq, if_neg hmem]
    simp [AlertService.Unregister, hrem]

theorem C19_unregister_witness :
    (sampleRegistry.Unregister "u7" 1).state.clients "u7" = [2] ∧
    ((sampleRegistry.Unregister "u7" 1).state.chans 1).closed = true ∧
    (sampleRegistry.Unregister "u7" 3).state.clients = sampleRegistry.clients :=
  have h := C19_unregister sampleRegistry "u7"
  ⟨((h 1).1 (by decide)).2.1.trans (by decide), ((h 1).1 (by decide)).2.2.2.1,
   ((h 3).2 (by decide)).1⟩

theorem C18_count_witness :
    ((sampleRegistry.Register "u7" 9).Unregister "u7" 9).state.GetClientCount "u7" = 2 :=
  (C18_count sampleRegistry "u7" 9).2.1.trans (by decide)

/-! ### the registry the program reaches

`OverlayHandler` registers a channel it has just made and unregisters it once.
From the empty registry these steps keep every registered channel open, which
is what `Broadcast` needs not to panic. -/

theorem WellFormed_new (chans : ChanId → Channel) : (NewAlertService chans).WellFormed := by
  refine ⟨?_, ?_, ?_⟩ <;> simp [NewAlertService]

theorem WellFormed_Register (s : AlertService) (key : String) (ch : ChanId)
    (hwf : s.WellFormed) (hopen : (s.chans ch).closed = false)
    (hfresh : ∀ k, ch ∉ s.clients k) : (s.Register key ch).WellFormed := by
  obtain ⟨h1, h2, h3⟩ := hwf
  have hcl : ∀ k c, c ∈ (s.Register key ch).clients k →
      (c ∈ s.clients k) ∨ (c = ch ∧ k = key) := by
    intro k c hc
    by_cases hk : k = key
    · subst hk
      simp only [AlertService.Register, if_true, List.mem_append, List.mem_singleton] at hc
      rcases hc with hc | hc
      · exact Or.inl hc
      · exact Or.inr ⟨hc, rfl⟩
    · simp only [AlertService.Register, hk, if_false] at hc
      exact Or.inl hc
  refine ⟨?_, ?_, ?_⟩
  · intro k c hc
    rcases hcl k c hc with h | ⟨h, _⟩
    · exact h1 k c h
    · rw [h]; exact hopen
  · intro k
    by_cases hk : k = key
    · subst hk
      simp only [AlertService.Register, if_true]
      rw [List.nodup_append]
      refine ⟨h2 k, by simp, ?_⟩
      intro a ha hb
      simp only [List.mem_singleton] at hb
      exact hfresh k (hb ▸ ha)
    · simp only [AlertService.Register, hk, if_false]
      exact h2 k
  · intro k1 k2 c hc1 hc2
    rcases hcl k1 c hc1 with a | ⟨a, a2⟩ <;> rcases hcl k2 c hc2 with b | ⟨b, b2⟩
    · exact h3 k1 k2 c a b
    · exact absurd (b ▸ a) (hfresh k1)
    · exact absurd (a ▸ b) (hfresh k2)
    · rw [a2, b2]

theorem WellFormed_Unregister (s : AlertService) (key : String) (ch : ChanId)
    (hwf : s.WellFormed) :
    (s.Unregister key ch).state.WellFormed ∧ (s.Unregister key ch).panicked = false := by
  obtain ⟨h1, h2, h3⟩ := hwf
  by_cases hmem : ch ∈ s.clients key
  · have hrem : removeFirst ch (s.clients key) = some ((s.clients key).erase ch) := by
      rw [removeFirst_eq, if_pos hmem]
    have hc : (s.chans ch).closed = false := h1 key ch hmem
    have hsub : ∀ k c, c ∈ (s.Unregister key ch).state.clients k → c ∈ s.clients k ∧ c ≠ ch := by
      intro k c hcm
      by_cases hk : k = key
      · subst hk
        simp only [AlertService.Unregister, hrem, if_true] at hcm
        refine ⟨List.mem_of_mem_erase hcm, ?_⟩
        rintro rfl
        exact (List.Nodup.not_mem_erase (h2 k)) hcm
      · simp only [AlertService.Unregister, hrem, hk, if_false] at hcm
        refine ⟨hcm, ?_⟩
        rintro rfl
        exact hk (h3 k key c hcm hmem)
    refine ⟨⟨?_, ?_, ?_⟩, ?_⟩
    · intro k c hcm
      obtain ⟨a, b⟩ := hsub k c hcm
      simp only [AlertService.Unregister, hrem, closeChan, hc, Bool.false_eq_true, if_false, b]
      exact h1 k c a
    · intro k
      by_cases hk : k = key
      · subst hk
        simp only [AlertService.Unregister, hrem, if_true]
        exact (h2 k).erase ch
      · simp only [AlertService.Unregister, hrem, hk, if_false]
        exact h2 k
    · intro k1 k2 c a b
      exact h3 k1 k2 c (hsub k1 c a).1 (hsub k2 c b).1
    · simp [AlertService.Unregister, hrem, closeChan, hc]
  · have hrem : removeFirst ch (s.clients key) = none := by
      rw [removeFirst_eq, if_neg hmem]
    simp only [AlertService.Unregister, hrem]
    exact ⟨⟨h1, h2, h3⟩, trivial⟩

theorem WellFormed_Broadcast (s : AlertService) (key : String) (alert : AlertData)
    (hwf : s.WellFormed) :
    (s.Broadcast key alert).state.WellFormed ∧ (s.Broadcast key alert).panicked = false := by
  obtain ⟨h1, h2, h3⟩ := hwf
  obtain ⟨g1, g2⟩ := broadcastLoop_spec alert (s.clients key) s.chans (h1 key)
  by_cases hz : (s.clients key).length = 0
  · simp only [AlertService.Broadcast, hz, beq_self_eq_true, if_true]
    exact ⟨⟨h1, h2, h3⟩, trivial⟩
  · simp only [AlertService.Broadcast, beq_iff_eq, hz, if_false]
    refine ⟨⟨?_, h2, h3⟩, g1⟩
    intro k c hc
    exact (g2 c).2.1.trans (h1 k c hc)

/-! ## the signature engine -/

theorem hexDigit_mem (d : Nat) : hexDigit d ∈ "0123456789abcdef".toList := by
  unfold hexDigit
  by_cases h : d < 16
  · interval_cases d <;> decide
  · rw [List.getD_eq_default _ _ (by simpa using h)]
    decide

/-- C15. `generateSignature` returns the base64 encoding of the RSA PKCS#1 v1.5
SHA-256 signature, under the service's private key, of `SHA256(S)`, where `S` is
method, path, the hexadecimal SHA-256 of the body and the timestamp, joined by
colons; the hexadecimal is two lowercase digits per byte. It agrees with the
specification's wording on every signature returned, and returns an error only
when the signer does. -/
theorem C15_signature (s : PaylabsService) (c : Crypto) (random : List Nat)
    (method path body timestamp : String) :
    s.generateSignature c random method path body timestamp =
      (match c.signPKCS1v15 random s.privateKey
          (c.sha256 (bytesOf
            (method ++ ":" ++ path ++ ":" ++ hexBytes (c.sha256 (bytesOf body)) ++ ":"
              ++ timestamp))) with
        | .ok signature => .ok (c.base64 signature)
        | .error e => .error ("failed to sign: " ++ e)) ∧
    (∀ sig, s.generateSignature c random method path body timestamp = .ok sig ↔
      signatureSpec c random s.privateKey method path body timestamp = .ok sig) ∧
    (∀ bs : List Nat, (hexBytes bs).length = 2 * bs.length ∧
      ∀ ch ∈ (hexBytes bs).toList, ch ∈ "0123456789abcdef".toList) := by
  have hjoin : String.intercalate ":" [method, path, hexBytes (c.sha256 (bytesOf body)), timestamp]
      = method ++ ":" ++ path ++ ":" ++ hexBytes (c.sha256 (bytesOf body)) ++ ":" ++ timestamp := by
    simp [String.intercalate, String.intercalate.go]
  refine ⟨?_, ?_, ?_⟩
  · unfold PaylabsService.generateSignature
    simp only [hjoin]
    split <;> simp_all
  · intro sig
    unfold PaylabsService.generateSignature signatureSpec
    simp only [hjoin]
    cases c.signPKCS1v15 random s.privateKey (c.sha256 (bytesOf
      (method ++ ":" ++ path ++ ":" ++ hexBytes (c.sha256 (bytesOf body)) ++ ":" ++ timestamp)))
      <;> simp [Except.map]
  · intro bs
    constructor
    · unfold hexBytes
      rw [String.length_mk]
      induction bs with
      | nil => rfl
      | cons b t ih => simp [List.flatMap_cons, ih]; omega
    · intro ch hch
      have hl : (hexBytes bs).toList
          = bs.flatMap (fun b => [hexDigit (b / 16 % 16), hexDigit (b % 16)]) := rfl
      rw [hl, List.mem_flatMap] at hch
      obtain ⟨b, _, hb⟩ := hch
      simp only [List.mem_cons, List.mem_singleton, List.not_mem_nil, or_false] at hb
      rcases hb with hb | hb
      · rw [hb]; exact hexDigit_mem _
      · rw [hb]; exact hexDigit_mem _

/-- The random source reaches the result of `generateSignature` through the RSA
signer only: with two random sources on which the signer agrees, the results
agree. -/
theorem generateSignature_random_through_signer (s : PaylabsService) (c : Crypto)
    (random1 random2 : List Nat) (method path body timestamp : String)
    (hsigner : ∀ key hashed,
      c.signPKCS1v15 random1 key hashed = c.signPKCS1v15 random2 key hashed) :
    s.generateSignature c random1 method path body timestamp =
      s.generateSignature c random2 method path body timestamp := by
  unfold PaylabsService.generateSignature
  simp only [hsigner]

/-! ## creating a donation -/

theorem mem_insertByID (d : Donation) (l : List Donation) : d ∈ insertByID d l := by
  induction l with
  | nil => simp [insertByID]
  | cons x rest ih =>
    unfold insertByID
    split
    · simp
    · simp [ih]

theorem lookup_ewallet_ne (m code : String) (h : ewalletPaymentTypes.lookup m = some code) :
    m ≠ "" ∧ m ≠ "qris" := by
  constructor
  · rintro rfl
    have : ewalletPaymentTypes.lookup "" = none := by decide
    rw [this] at h
    cases h
  · rintro rfl
    have : ewalletPaymentTypes.lookup "qris" = none := by decide
    rw [this] at h
    cases h

theorem paymentMethodOf_ne_empty (input : CreateDonationInput) (h : input.PaymentMethod ≠ "") :
    paymentMethodOf input = input.PaymentMethod := by
  simp [paymentMethodOf, h]

/-- `CreateDonation` once the creator is found and the donation inserted. -/
theorem CreateDonation_inserted (s : DonationService) (w : World) (env : CreateEnv)
    (input : CreateDonationInput) (buyerID : Option UUID) (creator : User) (row : Donation)
    (rows : List Donation)
    (hcreator : UserRepository.FindByUsername w.users env.userErr input.CreatorUsername
      = .ok creator)
    (hcreate : DonationRepository.Create w.donations env.createErr env.now env.newID
      (s.draftDonation w env input buyerID creator) = .ok (row, rows)) :
    s.CreateDonation w env input buyerID = s.routePayment w env input creator row rows := by
  unfold DonationService.CreateDonation
  simp only [hcreator, hcreate]

/-- The validation of `routePayment`: a method that is neither QRIS nor an
e-wallet tag, and an e-wallet amount below the minimum, are refused without a
PSP call. -/
theorem routePayment_refused (s : DonationService) (w : World) (env : CreateEnv)
    (input : CreateDonationInput) (creator : User) (row : Donation) (rows : List Donation)
    (hne : input.PaymentMethod ≠ "") (hq : input.PaymentMethod ≠ "qris")
    (h : ewalletPaymentTypes.lookup input.PaymentMethod = none ∨ input.Amount < 10000) :
    (∃ e, (s.routePayment w env input creator row rows).result = .error e) ∧
    (s.routePayment w env input creator row rows).pspCalls = [] := by
  unfold DonationService.routePayment
  simp only [paymentMethodOf_ne_empty input hne, beq_iff_eq, hq, if_false]
  cases hl : ewalletPaymentTypes.lookup input.PaymentMethod with
  | none => exact ⟨⟨_, rfl⟩, rfl⟩
  | some code =>
    rcases h with h | h
    · rw [hl] at h; cases h
    · simp only [h, if_true]
      exact ⟨⟨_, rfl⟩, trivial⟩

/-- `CreateDonation` makes no PSP call before the insert has succeeded. -/
theorem CreateDonation_refused (s : DonationService) (w : World) (env : CreateEnv)
    (input : CreateDonationInput) (buyerID : Option UUID)
    (hne : input.PaymentMethod ≠ "") (hq : input.PaymentMethod ≠ "qris")
    (h : ewalletPaymentTypes.lookup input.PaymentMethod = none ∨ input.Amount < 10000) :
    (∃ e, (s.CreateDonation w env input buyerID).result = .error e) ∧
    (s.CreateDonation w env input buyerID).pspCalls = [] := by
  cases hcreator : UserRepository.FindByUsername w.users env.userErr input.CreatorUsername with
  | error e =>
    unfold DonationService.CreateDonation
    simp only [hcreator]
    exact ⟨⟨_, rfl⟩, trivial⟩
  | ok creator =>
    cases hcreate : DonationRepository.Create w.donations env.createErr env.now env.newID
        (s.draftDonation w env input buyerID creator) with
    | error e =>
      unfold DonationService.CreateDonation
      simp only [hcreator, hcreate]
      exact ⟨⟨_, rfl⟩, trivial⟩
    | ok p =>
      obtain ⟨row, rows⟩ := p
      rw [CreateDonation_inserted s w env input buyerID creator row rows hcreator hcreate]
      exact routePayment_refused s w env input creator row rows hne hq h

/-- C11. `CreateDonation` returns an error and makes no PSP call when the payment
method is an e-wallet tag and the amount is below 10000, and when the payment
method is neither `""`, `"qris"` nor an e-wallet tag. With an e-wallet tag and an
amount of at least 10000, once the creator is found and the donation inserted,
its one PSP call is the e-wallet create call with the payment type of the tag. -/
theorem C11_validation (s : DonationService) (w : World) (env : CreateEnv)
    (input : CreateDonationInput) (buyerID : Option UUID) :
    (∀ code, ewalletPaymentTypes.lookup input.PaymentMethod = some code →
      input.Amount < 10000 →
      (∃ e, (s.CreateDonation w env input buyerID).result = .error e) ∧
      (s.CreateDonation w env input buyerID).pspCalls = []) ∧
    (input.PaymentMethod ≠ "" → input.PaymentMethod ≠ "qris" →
      ewalletPaymentTypes.lookup input.PaymentMethod = none →
      (∃ e, (s.CreateDonation w env input buyerID).result = .error e) ∧
      (s.CreateDonation w env input buyerID).pspCalls = []) ∧
    (∀ code creator row rows, ewalletPaymentTypes.lookup input.PaymentMethod = some code →
      10000 ≤ input.Amount →
      UserRepository.FindByUsername w.users env.userErr input.CreatorUsername = .ok creator →
      DonationRepository.Create w.donations env.createErr env.now env.newID
        (s.draftDonation w env input buyerID creator) = .ok (row, rows) →
      (s.CreateDonation w env input buyerID).pspCalls =
        [("/payment/v2.3/ewallet/create",
          .ewallet (s.paylabs.ewalletCreateRequest env.apiNow row creator code
            input.RedirectUrl))] ∧
      (s.paylabs.ewalletCreateRequest env.apiNow row creator code
        input.RedirectUrl).PaymentType = code) := by
  refine ⟨?_, ?_, ?_⟩
  · intro code hcode hamt
    obtain ⟨h1, h2⟩ := lookup_ewallet_ne _ _ hcode
    exact CreateDonation_refused s w env input buyerID h1 h2 (Or.inr hamt)
  · intro h1 h2 hnone
    exact CreateDonation_refused s w env input buyerID h1 h2 (Or.inl hnone)
  · intro code creator row rows hcode hamt hcreator hcreate
    obtain ⟨h1, h2⟩ := lookup_ewallet_ne _ _ hcode
    have hamt2 : ¬ input.Amount < 10000 := by omega
    refine ⟨?_, rfl⟩
    rw [CreateDonation_inserted s w env input buyerID creator row rows hcreator hcreate]
    unfold DonationService.routePayment
    simp only [paymentMethodOf_ne_empty input h1, beq_iff_eq, h2, if_false, hcode, hamt2]
    split
    · rfl
    · split <;> rfl

theorem C11_validation_witness :
    ((DonationService.CreateDonation {} sampleShop
        { now := sampleNow, apiNow := sampleNow, api := constAPI (.error "unreachable") }
        (sampleInput "dana" 5000) none).result
        = .error "minimum amount untuk E-Wallet adalah Rp 10.000") ∧
    ((DonationService.CreateDonation {} sampleShop
        { now := sampleNow, apiNow := sampleNow, api := constAPI (.error "unreachable") }
        (sampleInput "dana" 5000) none).pspCalls = []) :=
  have h := (C11_validation {} sampleShop
    { now := sampleNow, apiNow := sampleNow, api := constAPI (.error "unreachable") }
    (sampleInput "dana" 5000) none).1 "DANABALANCE" (by decide) (by decide)
  ⟨by rfl, h.2⟩

/-! ## the PSP answer to a create call -/

/-- `callPaylabsAPI` returns a decoded answer exactly when the request was sent,
the round trip returned a readable body with a status in 200..299, and the body
decodes. -/
theorem callPaylabsAPI_ok_iff (s : PaylabsService) (wire : Wire) (path : String)
    (req : PaylabsRequest) (q : QRISResponse) :
    s.callPaylabsAPI wire path req = .ok q ↔
      ∃ resp body, s.exchange wire path req = some (.ok resp) ∧ resp.Body = .ok body ∧
        200 ≤ resp.StatusCode ∧ resp.StatusCode < 300 ∧ wire.unmarshal body = .ok q := by
  unfold PaylabsService.callPaylabsAPI PaylabsService.exchange
  cases wire.marshal req with
  | error e => simp
  | ok bodyBytes =>
    simp only
    cases s.generateSignature wire.crypto wire.random "POST" path bodyBytes
        (generateTimestamp wire.now) with
    | error e => simp
    | ok signature =>
      simp only
      cases wire.newRequest (s.cfg.PaylabsAPIURL ++ path) with
      | some e => simp
      | none =>
        simp only
        cases wire.roundTrip (s.cfg.PaylabsAPIURL ++ path) _ bodyBytes with
        | error e => simp
        | ok resp =>
          obtain ⟨code, rb⟩ := resp
          cases rb with
          | error e => simp
          | ok body =>
            simp only [Option.some.injEq, Except.ok.injEq, exists_and_left, exists_eq_left',
              Bool.or_eq_true, decide_eq_true_eq]
            by_cases h1 : code < 200
            · have : ¬ 200 ≤ code := by omega
              simp [h1, this]
            · by_cases h2 : code ≥ 300
              · have : ¬ code < 300 := by omega
                simp [h2, this]
              · have a : 200 ≤ code := by omega
                have b : code < 300 := by omega
                simp only [h1, h2, or_self, if_false, a, b, true_and]
                cases wire.unmarshal body <;> simp

theorem CreateTransaction_ok_iff (s : PaylabsService) (now : Time) (api : PaylabsAPI)
    (donation : Donation) (creator : User) :
    (∃ r, s.CreateTransaction now api donation creator = .ok r) ↔
      ∃ q, api "/payment/v2.3/qris/create" (.qris (s.qrisCreateRequest now donation creator))
        = .ok q ∧ q.ErrCode = "0" := by
  unfold PaylabsService.CreateTransaction
  cases api "/payment/v2.3/qris/create" (.qris (s.qrisCreateRequest now donation creator)) with
  | error e => simp
  | ok q =>
    by_cases h : q.ErrCode = "0"
    · simp [h]
    · simp [h]

theorem CreateEWalletTransaction_ok_iff (s : PaylabsService) (now : Time) (api : PaylabsAPI)
    (donation : Donation) (creator : User) (paymentType redirectUrl : String) :
    (∃ r, s.CreateEWalletTransaction now api donation creator paymentType redirectUrl = .ok r) ↔
      ∃ q, api "/payment/v2.3/ewallet/create"
          (.ewallet (s.ewalletCreateRequest now donation creator paymentType redirectUrl))
        = .ok q ∧ q.ErrCode = "0" := by
  unfold PaylabsService.CreateEWalletTransaction
  cases api "/payment/v2.3/ewallet/create"
      (.ewallet (s.ewalletCreateRequest now donation creator paymentType redirectUrl)) with
  | error e => simp
  | ok q =>
    by_cases h : q.ErrCode = "0"
    · simp [h]
    · simp [h]

/-- The insert stores the drafted donation, pending and without a payment id. -/
theorem Create_draft (s : DonationService) (w : World) (env : CreateEnv)
    (input : CreateDonationInput) (buyerID : Option UUID) (creator : User) (row : Donation)
    (rows : List Donation)
    (hcreate : DonationRepository.Create w.donations env.createErr env.now env.newID
      (s.draftDonation w env input buyerID creator) = .ok (row, rows)) :
    rows = insertByID row w.donations ∧ row.PaymentID = "" ∧
    row.PaymentStatus = PaymentStatusPending ∧
    row.ID = (if uuidNil = uuidNil then env.newID else uuidNil) := by
  unfold DonationRepository.Create at hcreate
  cases hc : env.createErr with
  | some e => simp [hc] at hcreate
  | none =>
    simp only [hc] at hcreate
    split at hcreate
    · cases hcreate
    · injection hcreate with hcreate
      injection hcreate with h1 h2
      subst h1
      refine ⟨h2.symm, rfl, ?_, rfl⟩
      simp [createdRow, DonationService.draftDonation, PaymentStatusPending]

/-- When the one PSP call of `routePayment` does not come back with errCode `"0"`,
the result is the error of the failed payment and the table is the one the
insert left. -/
theorem routePayment_psp_failed (s : DonationService) (w : World) (env : CreateEnv)
    (input : CreateDonationInput) (creator : User) (row : Donation) (rows : List Donation)
    (path : String) (req : PaylabsRequest)
    (hcalls : (s.routePayment w env input creator row rows).pspCalls = [(path, req)])
    (hno : ¬ ∃ q, env.api path req = .ok q ∧ q.ErrCode = "0") :
    (∃ e, (s.routePayment w env input creator row rows).result
      = .error ("failed to create payment: " ++ e)) ∧
    (s.routePayment w env input creator row rows).world.donations = rows := by
  unfold DonationService.routePayment at hcalls ⊢
  by_cases hq : paymentMethodOf input = "qris"
  · simp only [hq, beq_self_eq_true, if_true] at hcalls ⊢
    cases hCT : s.paylabs.CreateTransaction env.apiNow env.api row creator with
    | error e => exact ⟨⟨e, rfl⟩, rfl⟩
    | ok r =>
      exfalso
      have hyes := (CreateTransaction_ok_iff s.paylabs env.apiNow env.api row creator).1 ⟨r, hCT⟩
      simp only [hCT] at hcalls
      split at hcalls <;>
      · simp only [List.cons.injEq, Prod.mk.injEq, and_true] at hcalls
        obtain ⟨h1, h2⟩ := hcalls
        subst h1 h2
        exact hno hyes
  · simp only [beq_iff_eq, hq, if_false] at hcalls ⊢
    cases hl : ewalletPaymentTypes.lookup (paymentMethodOf input) with
    | none => simp [hl] at hcalls
    | some code =>
      simp only [hl] at hcalls ⊢
      by_cases hamt : input.Amount < 10000
      · simp [hamt] at hcalls
      · simp only [hamt, if_false] at hcalls ⊢
        cases hCT : s.paylabs.CreateEWalletTransaction env.apiNow env.api row creator code
            input.RedirectUrl with
        | error e => exact ⟨⟨e, rfl⟩, rfl⟩
        | ok r =>
          exfalso
          have hyes := (CreateEWalletTransaction_ok_iff s.paylabs env.apiNow env.api row creator
            code input.RedirectUrl).1 ⟨r, hCT⟩
          simp only [hCT] at hcalls
          split at hcalls <;>
          · simp only [List.cons.injEq, Prod.mk.injEq, and_true] at hcalls
            obtain ⟨h1, h2⟩ := hcalls
            subst h1 h2
            exact hno hyes

/-- C12. Against the transport, `CreateTransaction` and `CreateEWalletTransaction`
return a payment response exactly when their request was sent and the round
trip came back with a status in 200..299 and a body that is read and decodes to
an answer whose errCode is `"0"`; in every other case (no answer, another
status, an undecodable body, another errCode or none) they return an error.
When the PSP call that `CreateDonation` made did not come back with errCode
`"0"`, `CreateDonation` returns the error of the failed payment, and the table
is the one before with the new donation inserted, pending and with an empty
payment id. -/
theorem C12_create_needs_psp_ok (s : DonationService) (wire : Wire) (w : World)
    (env : CreateEnv) (input : CreateDonationInput) (buyerID : Option UUID) (now : Time)
    (donation : Donation) (creator : User) (paymentType redirectUrl : String) :
    ((∃ r, s.paylabs.CreateTransaction now (s.paylabs.callPaylabsAPI wire) donation creator
        = .ok r) ↔
      ∃ resp body q,
        s.paylabs.exchange wire "/payment/v2.3/qris/create"
          (.qris (s.paylabs.qrisCreateRequest now donation creator)) = some (.ok resp) ∧
        resp.Body = .ok body ∧ 200 ≤ resp.StatusCode ∧ resp.StatusCode < 300 ∧
        wire.unmarshal body = .ok q ∧ q.ErrCode = "0") ∧
    ((∃ r, s.paylabs.CreateEWalletTransaction now (s.paylabs.callPaylabsAPI wire) donation
        creator paymentType redirectUrl = .ok r) ↔
      ∃ resp body q,
        s.paylabs.exchange wire "/payment/v2.3/ewallet/create"
          (.ewallet (s.paylabs.ewalletCreateRequest now donation creator paymentType
            redirectUrl)) = some (.ok resp) ∧
        resp.Body = .ok body ∧ 200 ≤ resp.StatusCode ∧ resp.StatusCode < 300 ∧
        wire.unmarshal body = .ok q ∧ q.ErrCode = "0") ∧
    ((¬ ∃ r, s.paylabs.CreateTransaction now (s.paylabs.callPaylabsAPI wire) donation creator
        = .ok r) →
      ∃ e, s.paylabs.CreateTransaction now (s.paylabs.callPaylabsAPI wire) donation creator
        = .error e) ∧
    ((¬ ∃ r, s.paylabs.CreateEWalletTransaction now (s.paylabs.callPaylabsAPI wire) donation
        creator paymentType redirectUrl = .ok r) →
      ∃ e, s.paylabs.CreateEWalletTransaction now (s.paylabs.callPaylabsAPI wire) donation
        creator paymentType redirectUrl = .error e) ∧
    (∀ path req, (s.CreateDonation w env input buyerID).pspCalls = [(path, req)] →
      (¬ ∃ q, env.api path req = .ok q ∧ q.ErrCode = "0") →
      (∃ e, (s.CreateDonation w env input buyerID).result
        = .error ("failed to create payment: " ++ e)) ∧
      ∃ row, row.PaymentID = "" ∧ row.PaymentStatus = PaymentStatusPending ∧
        (s.CreateDonation w env input buyerID).world.donations = insertByID row w.donations) := by
  refine ⟨?_, ?_, ?_, ?_, ?_⟩
  · rw [CreateTransaction_ok_iff]
    constructor
    · rintro ⟨q, hq, h0⟩
      obtain ⟨resp, body, h⟩ := (callPaylabsAPI_ok_iff _ _ _ _ _).1 hq
      exact ⟨resp, body, q, h.1, h.2.1, h.2.2.1, h.2.2.2.1, h.2.2.2.2, h0⟩
    · rintro ⟨resp, body, q, h1, h2, h3, h4, h5, h0⟩
      exact ⟨q, (callPaylabsAPI_ok_iff _ _ _ _ _).2 ⟨resp, body, h1, h2, h3, h4, h5⟩, h0⟩
  · rw [CreateEWalletTransaction_ok_iff]
    constructor
    · rintro ⟨q, hq, h0⟩
      obtain ⟨resp, body, h⟩ := (callPaylabsAPI_ok_iff _ _ _ _ _).1 hq
      exact ⟨resp, body, q, h.1, h.2.1, h.2.2.1, h.2.2.2.1, h.2.2.2.2, h0⟩
    · rintro ⟨resp, body, q, h1, h2, h3, h4, h5, h0⟩
      exact ⟨q, (callPaylabsAPI_ok_iff _ _ _ _ _).2 ⟨resp, body, h1, h2, h3, h4, h5⟩, h0⟩
  · intro h
    cases hc : s.paylabs.CreateTransaction now (s.paylabs.callPaylabsAPI wire) donation creator with
    | error e => exact ⟨e, rfl⟩
    | ok r => exact absurd ⟨r, hc⟩ h
  · intro h
    cases hc : s.paylabs.CreateEWalletTransaction now (s.paylabs.callPaylabsAPI wire) donation
        creator paymentType redirectUrl with
    | error e => exact ⟨e, rfl⟩
    | ok r => exact absurd ⟨r, hc⟩ h
  · intro path req hcalls hno
    cases hcreator : UserRepository.FindByUsername w.users env.userErr input.CreatorUsername with
    | error e =>
      unfold DonationService.CreateDonation at hcalls
      simp [hcreator] at hcalls
    | ok cr =>
      cases hcreate : DonationRepository.Create w.donations env.createErr env.now env.newID
          (s.draftDonation w env input buyerID cr) with
      | error e =>
        unfold DonationService.CreateDonation at hcalls
        simp [hcreator, hcreate] at hcalls
      | ok p =>
        obtain ⟨row, rows⟩ := p
        rw [CreateDonation_inserted s w env input buyerID cr row rows hcreator hcreate] at hcalls ⊢
        obtain ⟨h1, h2⟩ := routePayment_psp_failed s w env input cr row rows path req hcalls hno
        obtain ⟨g1, g2, g3, _⟩ := Create_draft s w env input buyerID cr row rows hcreate
        exact ⟨h1, row, g2, g3, h2.trans g1⟩

theorem C12_create_needs_psp_ok_witness :
    ∃ e, (DonationService.CreateDonation {} sampleShop
        { now := sampleNow, apiNow := sampleNow,
          api := PaylabsService.callPaylabsAPI {} (sampleWire 502 { ErrCode := "0" }) }
        (sampleInput "qris" 5000) none).result = .error ("failed to create payment: " ++ e) :=
  ((C12_create_needs_psp_ok {} (sampleWire 502 { ErrCode := "0" }) sampleShop
    { now := sampleNow, apiNow := sampleNow,
      api := PaylabsService.callPaylabsAPI {} (sampleWire 502 { ErrCode := "0" }) }
    (sampleInput "qris" 5000) none sampleNow otherDonation sampleStreamer "" "").2.2.2.2
    "/payment/v2.3/qris/create"
    (.qris (PaylabsService.qrisCreateRequest {} sampleNow
      (createdRow sampleNow 1 (DonationService.draftDonation {} sampleShop
        { now := sampleNow, apiNow := sampleNow,
          api := PaylabsService.callPaylabsAPI {} (sampleWire 502 { ErrCode := "0" }) }
        (sampleInput "qris" 5000) none sampleStreamer)) sampleStreamer))
    (by rfl) (by rintro ⟨q, hq, _⟩; cases hq)).1

/-! ## the order identifier -/

theorem UUID_hex_length (u : UUID) : u.hex.length = 32 := by
  simp [UUID.hex]

theorem orderIDOf_length (id : UUID) : (orderIDOf id).length = 12 := by
  have h : (id.str.toList.take 8).length = 8 := by
    have : id.str.toList.length = 36 := by
      show (String.mk _).data.length = 36
      simp [UUID_hex_length]
    rw [List.length_take, this]
    rfl
  unfold orderIDOf
  rw [String.length_append]
  show 4 + (id.str.toList.take 8).length = 12
  rw [h]

/-- A save after the insert replaces the row of that id and no other. -/
theorem Update_existing (rows : List Donation) (err : Option String) (d : Donation)
    (rows2 : List Donation) (row : Donation) {now : Time} {newID : UUID} (hrow : row ∈ rows)
    (hid : d.ID = row.ID) (h : DonationRepository.Update rows err now newID d = .ok rows2) :
    d ∈ rows2 ∧ ∀ x ∈ rows2, x.ID = d.ID → x = d := by
  unfold DonationRepository.Update at h
  cases he : err with
  | some e => simp [he] at h
  | none =>
    have hany : rows.any (fun x => x.ID == d.ID) = true := by
      rw [List.any_eq_true]
      exact ⟨row, hrow, by simp [hid]⟩
    simp only [he, hany, if_true, Except.ok.injEq] at h
    subst h
    constructor
    · rw [List.mem_map]
      exact ⟨row, hrow, by simp [hid]⟩
    · intro x hx hxid
      rw [List.mem_map] at hx
      obtain ⟨y, _, hy⟩ := hx
      by_cases hyid : y.ID = d.ID
      · simpa [hyid] using hy.symm
      · simp only [hyid, if_false] at hy
        rw [← hy] at hxid
        exact absurd hxid hyid

/-- A successful `routePayment` returns and stores the inserted donation with the
order id derived from its id as payment id, which is also the order id of the
one PSP call made. -/
theorem routePayment_ok (s : DonationService) (w : World) (env : CreateEnv)
    (input : CreateDonationInput) (creator : User) (row : Donation) (rows : List Donation)
    (resp : CreateDonationResponse) (hrow : row ∈ rows)
    (h : (s.routePayment w env input creator row rows).result = .ok resp) :
    resp.Donation = { row with PaymentID := orderIDOf row.ID } ∧
    resp.Token = orderIDOf row.ID ∧
    resp.Donation ∈ (s.routePayment w env input creator row rows).world.donations ∧
    (∀ x ∈ (s.routePayment w env input creator row rows).world.donations,
      x.ID = row.ID → x = resp.Donation) ∧
    ∃ path req, (s.routePayment w env input creator row rows).pspCalls = [(path, req)] ∧
      req.merchantTradeNo = orderIDOf row.ID := by
  unfold DonationService.routePayment at h ⊢
  by_cases hq : paymentMethodOf input = "qris"
  · simp only [hq, beq_self_eq_true, if_true] at h ⊢
    cases hCT : s.paylabs.CreateTransaction env.apiNow env.api row creator with
    | error e => simp [hCT] at h
    | ok r =>
      have hr : r.OrderID = orderIDOf row.ID := by
        unfold PaylabsService.CreateTransaction at hCT
        split at hCT
        · cases hCT
        · split at hCT
          · cases hCT
          · injection hCT with hCT
            rw [← hCT]
      simp only [hCT, hr] at h ⊢
      cases hU : DonationRepository.Update rows env.saveErr env.now env.newID
          { row with PaymentID := orderIDOf row.ID } with
      | error e => simp [hU] at h
      | ok rows2 =>
        simp only [hU, Except.ok.injEq] at h ⊢
        subst h
        obtain ⟨u1, u2⟩ :=
          Update_existing rows env.saveErr { row with PaymentID := orderIDOf row.ID } rows2 row hrow rfl hU
        exact ⟨rfl, rfl, u1, u2, _, _, rfl, rfl⟩
  · simp only [beq_iff_eq, hq, if_false] at h ⊢
    cases hl : ewalletPaymentTypes.lookup (paymentMethodOf input) with
    | none => simp [hl] at h
    | some code =>
      simp only [hl] at h ⊢
      by_cases hamt : input.Amount < 10000
      · simp [hamt] at h
      · simp only [hamt, if_false] at h ⊢
        cases hCT : s.paylabs.CreateEWalletTransaction env.apiNow env.api row creator code
            input.RedirectUrl with
        | error e => simp [hCT] at h
        | ok r =>
          have hr : r.OrderID = orderIDOf row.ID := by
            unfold PaylabsService.CreateEWalletTransaction at hCT
            split at hCT
            · cases hCT
            · split at hCT
              · cases hCT
              · injection hCT with hCT
                rw [← hCT]
          simp only [hCT, hr] at h ⊢
          cases hU : DonationRepository.Update rows env.saveErr env.now env.newID
              { row with PaymentID := orderIDOf row.ID } with
          | error e => simp [hU] at h
          | ok rows2 =>
            simp only [hU, Except.ok.injEq] at h ⊢
            subst h
            obtain ⟨u1, u2⟩ :=
              Update_existing rows env.saveErr { row with PaymentID := orderIDOf row.ID } rows2 row hrow rfl hU
            exact ⟨rfl, rfl, u1, u2, _, _, rfl, rfl⟩

/-- C13. The order id sent as `merchantTradeNo` by `CreateTransaction` and by
`CreateEWalletTransaction` is `JJN-` followed by the first 8 characters of the
canonical string of the donation id, 12 characters in all; it is the same on
both rails and for any two donations with the same id, whatever else differs.
After a successful `CreateDonation` the donation returned is the one stored
under its id, has status pending, and its payment id is that order id, which is
also the token returned and the order id of the PSP call made. -/
theorem C13_order_id (s : DonationService) (w : World) (env : CreateEnv)
    (input : CreateDonationInput) (buyerID : Option UUID) (now : Time) (donation : Donation)
    (creator : User) (paymentType redirectUrl : String) :
    (s.paylabs.qrisCreateRequest now donation creator).MerchantTradeNo
      = "JJN-" ++ String.mk (donation.ID.str.toList.take 8) ∧
    (s.paylabs.ewalletCreateRequest now donation creator paymentType redirectUrl).MerchantTradeNo
      = "JJN-" ++ String.mk (donation.ID.str.toList.take 8) ∧
    (donation.ID.str.toList.take 8).length = 8 ∧
    (s.paylabs.qrisCreateRequest now donation creator).MerchantTradeNo.length = 12 ∧
    (∀ (s2 : PaylabsService) (now2 : Time) (donation2 : Donation) (creator2 : User)
        (paymentType2 redirectUrl2 : String), donation2.ID = donation.ID →
      (s2.qrisCreateRequest now2 donation2 creator2).MerchantTradeNo
        = (s.paylabs.qrisCreateRequest now donation creator).MerchantTradeNo ∧
      (s2.ewalletCreateRequest now2 donation2 creator2 paymentType2 redirectUrl2).MerchantTradeNo
        = (s.paylabs.qrisCreateRequest now donation creator).MerchantTradeNo) ∧
    (∀ resp, (s.CreateDonation w env input buyerID).result = .ok resp →
      resp.Donation ∈ (s.CreateDonation w env input buyerID).world.donations ∧
      (∀ x ∈ (s.CreateDonation w env input buyerID).world.donations,
        x.ID = resp.Donation.ID → x = resp.Donation) ∧
      resp.Donation.PaymentStatus = PaymentStatusPending ∧
      resp.Donation.PaymentID = "JJN-" ++ String.mk (resp.Donation.ID.str.toList.take 8) ∧
      resp.Token = resp.Donation.PaymentID ∧
      ∃ path req, (s.CreateDonation w env input buyerID).pspCalls = [(path, req)] ∧
        req.merchantTradeNo = resp.Donation.PaymentID) := by
  have hlen := orderIDOf_length donation.ID
  refine ⟨rfl, rfl, ?_, hlen, ?_, ?_⟩
  · have : donation.ID.str.toList.length = 36 := by
      show (String.mk _).data.length = 36
      simp [UUID_hex_length]
    rw [List.length_take, this]
    rfl
  · intro s2 now2 d2 c2 p2 r2 hid
    simp [PaylabsService.qrisCreateRequest, PaylabsService.ewalletCreateRequest, hid]
  · intro resp hres
    cases hcreator : UserRepository.FindByUsername w.users env.userErr input.CreatorUsername with
    | error e =>
      unfold DonationService.CreateDonation at hres
      simp [hcreator] at hres
    | ok cr =>
      cases hcreate : DonationRepository.Create w.donations env.createErr env.now env.newID
          (s.draftDonation w env input buyerID cr) with
      | error e =>
        unfold DonationService.CreateDonation at hres
        simp [hcreator, hcreate] at hres
      | ok p =>
        obtain ⟨row, rows⟩ := p
        rw [CreateDonation_inserted s w env input buyerID cr row rows hcreator hcreate] at hres ⊢
        obtain ⟨g1, _, g3, _⟩ := Create_draft s w env input buyerID cr row rows hcreate
        have hrow : row ∈ rows := g1 ▸ mem_insertByID row w.donations
        obtain ⟨h1, h2, h3, h4, path, req, h5, h6⟩ :=
          routePayment_ok s w env input cr row rows resp hrow hres
        have hid : resp.Donation.ID = row.ID := by rw [h1]
        have hpid : resp.Donation.PaymentID = orderIDOf row.ID := by rw [h1]
        refine ⟨h3, ?_, ?_, ?_, ?_, path, req, h5, ?_⟩
        · intro x hx hxid
          exact h4 x hx (hxid.trans hid)
        · rw [h1]; exact g3
        · rw [hpid, hid]; rfl
        · rw [h2, hpid]
        · rw [h6, hpid]

theorem C13_order_id_witness :
    ∃ path req, (DonationService.CreateDonation {} sampleShop
        { now := sampleNow, apiNow := sampleNow, newID := 0x1234567890abcdef1234567890abcdef,
          api := constAPI (.ok { ErrCode := "0", QRCode := "qr" }) }
        (sampleInput "qris" 5000) none).pspCalls = [(path, req)] ∧
      req.merchantTradeNo = "JJN-12345678" :=
  have h := (C13_order_id {} sampleShop
    { now := sampleNow, apiNow := sampleNow, newID := 0x1234567890abcdef1234567890abcdef,
      api := constAPI (.ok { ErrCode := "0", QRCode := "qr" }) }
    (sampleInput "qris" 5000) none sampleNow otherDonation sampleStreamer "" "").2.2.2.2.2
    { Donation :=
        { createdRow sampleNow 0x1234567890abcdef1234567890abcdef
            (DonationService.draftDonation {} sampleShop
              { now := sampleNow, apiNow := sampleNow, api := constAPI (.error "") }
              (sampleInput "qris" 5000) none sampleStreamer) with
          PaymentID := "JJN-12345678" }
      Token := "JJN-12345678", QRCode := "qr", PaymentType := "qris" } (by rfl)
  h.2.2.2.2.2

/-! ## the notify URL -/

/-- `stringsContains` is containment of the characters as a contiguous block. -/
theorem stringsContains_iff (s substr : String) :
    stringsContains s substr = true ↔ substr.toList <:+: s.toList := by
  unfold stringsContains
  rw [List.any_eq_true, List.infix_iff_prefix_suffix]
  constructor
  · rintro ⟨t, ht, hp⟩
    exact ⟨t, List.isPrefixOf_iff_prefix.1 hp, (List.mem_tails _ _).1 ht⟩
  · rintro ⟨t, hp, ht⟩
    exact ⟨t, (List.mem_tails _ _).2 ht, List.isPrefixOf_iff_prefix.2 hp⟩

/-- C21. In the QRIS and in the e-wallet create request alike, `notifyUrl` is
empty (and so omitted from the JSON body) whenever `AppURL` contains `localhost`
or `127.0.0.1`, and is `AppURL` followed by `/api/v1/payment/webhook` otherwise. -/
theorem C21_notify_url (s : PaylabsService) (now : Time) (donation : Donation) (creator : User)
    (paymentType redirectUrl : String) :
    (s.qrisCreateRequest now donation creator).NotifyURL
      = (s.ewalletCreateRequest now donation creator paymentType redirectUrl).NotifyURL ∧
    (("localhost".toList <:+: s.cfg.AppURL.toList ∨ "127.0.0.1".toList <:+: s.cfg.AppURL.toList) →
      (s.qrisCreateRequest now donation creator).NotifyURL = "" ∧
      (s.ewalletCreateRequest now donation creator paymentType redirectUrl).NotifyURL = "") ∧
    ((¬ "localhost".toList <:+: s.cfg.AppURL.toList ∧
        ¬ "127.0.0.1".toList <:+: s.cfg.AppURL.toList) →
      (s.qrisCreateRequest now donation creator).NotifyURL
        = s.cfg.AppURL ++ "/api/v1/payment/webhook" ∧
      (s.ewalletCreateRequest now donation creator paymentType redirectUrl).NotifyURL
        = s.cfg.AppURL ++ "/api/v1/payment/webhook") := by
  have h1 := stringsContains_iff s.cfg.AppURL "localhost"
  have h2 := stringsContains_iff s.cfg.AppURL "127.0.0.1"
  refine ⟨rfl, ?_, ?_⟩
  · intro h
    have : notifyURL s.cfg = "" := by
      unfold notifyURL
      rcases h with h | h
      · simp [h1.2 h]
      · simp [h2.2 h]
    exact ⟨this, this⟩
  · rintro ⟨a, b⟩
    have a2 : stringsContains s.cfg.AppURL "localhost" = false := by
      cases hc : stringsContains s.cfg.AppURL "localhost"
      · rfl
      · exact absurd (h1.1 hc) a
    have b2 : stringsContains s.cfg.AppURL "127.0.0.1" = false := by
      cases hc : stringsContains s.cfg.AppURL "127.0.0.1"
      · rfl
      · exact absurd (h2.1 hc) b
    have : notifyURL s.cfg = s.cfg.AppURL ++ "/api/v1/payment/webhook" := by
      simp [notifyURL, a2, b2]
    exact ⟨this, this⟩

theorem C21_notify_url_witness :
    (PaylabsService.qrisCreateRequest { cfg := { AppURL := "http://localhost:8080" } } sampleNow
        otherDonation sampleStreamer).NotifyURL = "" ∧
    (PaylabsService.ewalletCreateRequest { cfg := { AppURL := "http://localhost:8080" } } sampleNow
        otherDonation sampleStreamer "DANABALANCE" "").NotifyURL = "" :=
  (C21_notify_url { cfg := { AppURL := "http://localhost:8080" } } sampleNow otherDonation
    sampleStreamer "DANABALANCE" "").2.1
    (Or.inl ⟨"http://".toList, ":8080".toList, by decide⟩)

/-! ## the status of a PSP answer -/

/-- C30. `GetStatus` returns `""` when the status field is absent, the string
itself when it is a JSON string, and for a JSON integer `n` with `0 ≤ n ≤ 99` the
two decimal digits of `n`, zero-padded; the integer 2 and the string `"02"` both
give `"02"`, which `ParseStatus` maps to paid. -/
theorem C30_GetStatus (r : QRISResponse) (p : PaylabsService) :
    ({ r with Status := .absent } : QRISResponse).GetStatus = "" ∧
    (∀ str : String, ({ r with Status := .str str } : QRISResponse).GetStatus = str) ∧
    (∀ n : Nat, n ≤ 99 →
      ({ r with Status := .int (n : Int) } : QRISResponse).GetStatus
        = String.mk [Nat.digitChar (n / 10), Nat.digitChar (n % 10)]) ∧
    ({ r with Status := .int 2 } : QRISResponse).GetStatus = "02" ∧
    ({ r with Status := .str "02" } : QRISResponse).GetStatus = "02" ∧
    p.ParseStatus ({ r with Status := .int 2 } : QRISResponse).GetStatus = PaymentStatusPaid ∧
    p.ParseStatus ({ r with Status := .str "02" } : QRISResponse).GetStatus
      = PaymentStatusPaid := by
  refine ⟨rfl, fun _ => rfl, ?_, by rfl, rfl, by rfl, by rfl⟩
  intro n hn
  show sprintf02d (n : Int) = _
  have : sprintf02d (n : Int) = zeroPad 2 n := rfl
  rw [this]
  interval_cases n <;> rfl

theorem C30_GetStatus_witness :
    ({ ErrCode := "0", Status := .int (7 : Nat) } : QRISResponse).GetStatus
      = String.mk [Nat.digitChar (7 / 10), Nat.digitChar (7 % 10)] :=
  (C30_GetStatus { ErrCode := "0" } {}).2.2.1 7 (by decide)

/-! ## timestamp and request identifier -/

/-- C22 fails on the code. The layout of `generateTimestamp` ends in the literal
`+07:00`, so the rendering ends in `+07:00` whatever the zone of the reading; it
is the specified rendering only when the offset of the zone renders as `+07:00`.
On a server in UTC the value for 07:05:30.120 UTC reads `07:05:30.120+07:00`,
which denotes an instant seven hours earlier. -/
theorem C22_offset_is_literal :
    (∀ now : Time, ∃ wall : String,
      generateTimestamp now = wall ++ "+07:00" ∧
      timestampSpec now = wall ++ formatOffset now.offset) ∧
    generateTimestamp sampleNowUTC = "2025-03-09T07:05:30.120+07:00" ∧
    timestampSpec sampleNowUTC = "2025-03-09T07:05:30.120+00:00" ∧
    generateTimestamp sampleNowUTC ≠ timestampSpec sampleNowUTC ∧
    generateTimestamp sampleNow = timestampSpec sampleNow := by
  refine ⟨fun now => ⟨_, rfl, rfl⟩, by decide, by decide, by decide, by decide⟩

theorem digitChar_value (d : Nat) (h : d < 10) : (Nat.digitChar d).toNat - 48 = d := by
  interval_cases d <;> rfl

theorem foldl_decimal (l : List Char) (a : Nat) :
    l.foldl (fun a c => 10 * a + (c.toNat - 48)) a = a * 10 ^ l.length + decimalValue l := by
  induction l generalizing a with
  | nil => simp [decimalValue]
  | cons c t ih =>
    simp only [List.foldl_cons, List.length_cons, decimalValue]
    rw [ih, ih (10 * 0 + (c.toNat - 48))]
    ring

theorem decimalValue_append (l1 l2 : List Char) :
    decimalValue (l1 ++ l2) = decimalValue l1 * 10 ^ l2.length + decimalValue l2 := by
  unfold decimalValue
  rw [List.foldl_append, foldl_decimal]
  rfl

theorem toDigitsCore_append (f : Nat) : ∀ (n : Nat) (ds : List Char),
    Nat.toDigitsCore 10 f n ds = Nat.toDigitsCore 10 f n [] ++ ds := by
  induction f with
  | zero => intro n ds; simp [Nat.toDigitsCore]
  | succ f ih =>
    intro n ds
    simp only [Nat.toDigitsCore]
    split
    · simp
    · rw [ih (n / 10) (Nat.digitChar (n % 10) :: ds), ih (n / 10) [Nat.digitChar (n % 10)]]
      simp

theorem decimalValue_toDigitsCore (f : Nat) : ∀ n, n < f →
    decimalValue (Nat.toDigitsCore 10 f n []) = n := by
  induction f with
  | zero => intro n h; omega
  | succ f ih =>
    intro n h
    simp only [Nat.toDigitsCore]
    have hd := digitChar_value (n % 10) (Nat.mod_lt _ (by decide))
    split
    · rename_i h0
      simp only [decimalValue, List.foldl_cons, List.foldl_nil, hd]
      omega
    · rename_i h0
      rw [toDigitsCore_append, decimalValue_append, ih (n / 10) (by omega)]
      simp only [List.length_singleton, decimalValue, List.foldl_cons, List.foldl_nil, hd]
      omega

theorem decimalValue_toString (n : Nat) : decimalValue (toString n).toList = n := by
  show decimalValue (Nat.toDigits 10 n) = n
  exact decimalValue_toDigitsCore (n + 1) n (by omega)

theorem decimalValue_zeroPad (w n : Nat) : decimalValue (zeroPad w n).toList = n := by
  unfold zeroPad
  show decimalValue (List.replicate _ '0' ++ (toString n).toList) = n
  rw [decimalValue_append, decimalValue_toString]
  have : ∀ k, decimalValue (List.replicate k '0') = 0 := by
    intro k
    induction k with
    | zero => rfl
    | succ k ih =>
      rw [List.replicate_succ, ← List.singleton_append, decimalValue_append, ih]
      have : decimalValue ['0'] = 0 := by decide
      rw [this]
      simp
  rw [this]
  simp

theorem zeroPad_length (w n : Nat) (hw : 0 < w) (h : n < 10 ^ w) :
    (zeroPad w n).toList.length = w := by
  have hl : (toString n).length ≤ w := Nat.repr_length n w hw h
  unfold zeroPad
  show (List.replicate _ '0' ++ (toString n).toList).length = w
  rw [List.length_append, List.length_replicate]
  have : (toString n).toList.length = (toString n).length := rfl
  omega

/-- Two fixed-width renderings followed by anything are equal only if the
numbers and what follows are. -/
theorem zeroPad_append_inj (w a b : Nat) (x y : List Char) (hw : 0 < w) (ha : a < 10 ^ w)
    (hb : b < 10 ^ w) (h : (zeroPad w a).toList ++ x = (zeroPad w b).toList ++ y) :
    a = b ∧ x = y := by
  have hlen : (zeroPad w a).toList.length = (zeroPad w b).toList.length := by
    rw [zeroPad_length w a hw ha, zeroPad_length w b hw hb]
  obtain ⟨h1, h2⟩ := List.append_inj h hlen
  refine ⟨?_, h2⟩
  rw [← decimalValue_zeroPad w a, ← decimalValue_zeroPad w b, h1]

theorem generateRequestID_toList (t : Time) :
    (generateRequestID t).toList =
      (zeroPad 4 t.year).toList ++ ((zeroPad 2 t.month).toList ++ ((zeroPad 2 t.day).toList ++
        ((zeroPad 2 t.hour).toList ++ ((zeroPad 2 t.minute).toList ++
          ((zeroPad 2 t.second).toList ++
            ((zeroPad 3 (t.nanosecond / 1000000)).toList ++ [])))))) := by
  simp only [generateRequestID, String.toList, String.data_append, List.append_assoc,
    List.append_nil]

/-- C23, as stated, fails: two calls 400 microseconds apart, at different moments,
get the same request identifier. -/
theorem C23_same_millisecond_same_id :
    sampleNow ≠ sampleNowLater ∧
    sampleNow.nanosecond + 400000 = sampleNowLater.nanosecond ∧
    generateRequestID sampleNow = "20250309140530120" ∧
    generateRequestID sampleNowLater = "20250309140530120" := by
  decide

/-- C23, amended. The request identifier is the wall clock reading at millisecond
resolution: for two readings with calendar fields in range, the identifiers are
equal exactly when year, month, day, hour, minute, second and millisecond are
equal, so they differ whenever the readings differ in the millisecond or above.
The `X-REQUEST-ID` header of a call that is sent is the string member `requestId`
of the JSON body it sends. -/
theorem C23_request_id_amended (t1 t2 : Time) (h1 : t1.Valid) (h2 : t2.Valid)
    (s : PaylabsService) (wire : Wire) (path : String) (req : PaylabsRequest) :
    (generateRequestID t1 = generateRequestID t2 ↔
      (t1.year = t2.year ∧ t1.month = t2.month ∧ t1.day = t2.day ∧ t1.hour = t2.hour ∧
        t1.minute = t2.minute ∧ t1.second = t2.second ∧
        t1.nanosecond / 1000000 = t2.nanosecond / 1000000)) ∧
    (∀ body rid answer, wire.marshal req = .ok body → wire.requestIdOf body = some rid →
      s.exchange wire path req = some answer →
      ∃ headers, answer = wire.roundTrip (s.cfg.PaylabsAPIURL ++ path) headers body ∧
        headers.lookup "X-REQUEST-ID" = some rid) := by
  obtain ⟨a1, a2, a3, a4, a5, a6, a7⟩ := h1
  obtain ⟨b1, b2, b3, b4, b5, b6, b7⟩ := h2
  constructor
  · constructor
    · intro h
      have hl := congrArg String.toList h
      rw [generateRequestID_toList, generateRequestID_toList] at hl
      obtain ⟨e1, hl⟩ := zeroPad_append_inj 4 _ _ _ _ (by decide) (by omega) (by omega) hl
      obtain ⟨e2, hl⟩ := zeroPad_append_inj 2 _ _ _ _ (by decide) (by omega) (by omega) hl
      obtain ⟨e3, hl⟩ := zeroPad_append_inj 2 _ _ _ _ (by decide) (by omega) (by omega) hl
      obtain ⟨e4, hl⟩ := zeroPad_append_inj 2 _ _ _ _ (by decide) (by omega) (by omega) hl
      obtain ⟨e5, hl⟩ := zeroPad_append_inj 2 _ _ _ _ (by decide) (by omega) (by omega) hl
      obtain ⟨e6, hl⟩ := zeroPad_append_inj 2 _ _ _ _ (by decide) (by omega) (by omega) hl
      obtain ⟨e7, _⟩ := zeroPad_append_inj 3 _ _ _ _ (by decide) (by omega) (by omega) hl
      exact ⟨e1, e2, e3, e4, e5, e6, e7⟩
    · rintro ⟨e1, e2, e3, e4, e5, e6, e7⟩
      simp only [generateRequestID, e1, e2, e3, e4, e5, e6, e7]
  · intro body rid answer hm hrid hex
    unfold PaylabsService.exchange at hex
    simp only [hm, hrid] at hex
    split at hex
    · cases hex
    · split at hex
      · cases hex
      · injection hex with hex
        exact ⟨_, hex.symm, by simp [List.lookup]⟩

theorem C23_request_id_amended_witness :
    generateRequestID sampleNow = generateRequestID { sampleNow with second := 31 } ↔
      (sampleNow.year = 2025 ∧ sampleNow.month = 3 ∧ sampleNow.day = 9 ∧ sampleNow.hour = 14 ∧
        sampleNow.minute = 5 ∧ sampleNow.second = 31 ∧
        sampleNow.nanosecond / 1000000 = 120000000 / 1000000) :=
  (C23_request_id_amended sampleNow { sampleNow with second := 31 } (by decide) (by decide) {}
    (sampleWire 200 {}) "/payment/v2.3/qris/query"
    (.query { RequestID := "", MerchantID := "", MerchantTradeNo := "", PaymentType := "" })).1

/-! ## order identifiers and donations -/

theorem hexDigit_inj (a b : Nat) (ha : a < 16) (hb : b < 16) (h : hexDigit a = hexDigit b) :
    a = b := by
  interval_cases a <;> interval_cases b <;> first | rfl | (exfalso; revert h; decide)

theorem str_take8 (u : UUID) : u.str.toList.take 8 = u.hex.take 8 := by
  have h : (u.hex.take 8).length = 8 := by
    rw [List.length_take, UUID_hex_length]
    rfl
  show List.take 8 (u.hex.take 8 ++ ['-'] ++ (u.hex.drop 8).take 4 ++ ['-']
    ++ (u.hex.drop 12).take 4 ++ ['-'] ++ (u.hex.drop 16).take 4 ++ ['-'] ++ u.hex.drop 20) = _
  simp only [List.append_assoc]
  rw [List.take_append_of_le_length (by omega)]
  rw [List.take_of_length_le (by omega)]

theorem hex_take8 (u : UUID) :
    u.hex.take 8 = (List.range 8).map (fun i => hexDigit ((u.val / 16 ^ 24 / 16 ^ (7 - i)) % 16)) := by
  unfold UUID.hex
  rw [← List.map_take, List.take_range]
  apply List.map_congr_left
  intro i hi
  have hi8 : i < 8 := by simpa using hi
  have : u.val / 16 ^ (31 - i) = u.val / 16 ^ 24 / 16 ^ (7 - i) := by
    rw [Nat.div_div_eq_div_mul, ← pow_add]
    congr 2
    omega
  rw [this]

theorem orderIDOf_eq_iff (a b : UUID) :
    orderIDOf a = orderIDOf b ↔ a.val / 2 ^ 96 = b.val / 2 ^ 96 := by
  have h96 : (2 : Nat) ^ 96 = 16 ^ 24 := by norm_num
  have ha : a.val / 16 ^ 24 < 16 ^ 8 := by
    have := a.isLt
    rw [Nat.div_lt_iff_lt_mul (by positivity)]
    calc a.val < 2 ^ 128 := this
      _ = 16 ^ 8 * 16 ^ 24 := by norm_num
  have hb : b.val / 16 ^ 24 < 16 ^ 8 := by
    have := b.isLt
    rw [Nat.div_lt_iff_lt_mul (by positivity)]
    calc b.val < 2 ^ 128 := this
      _ = 16 ^ 8 * 16 ^ 24 := by norm_num
  rw [h96]
  constructor
  · intro h
    have hl := congrArg String.toList h
    have hl2 : a.hex.take 8 = b.hex.take 8 := by
      have : ("JJN-" ++ String.mk (a.str.toList.take 8)).toList
          = "JJN-".toList ++ a.str.toList.take 8 := rfl
      unfold orderIDOf at hl
      rw [this] at hl
      have : ("JJN-" ++ String.mk (b.str.toList.take 8)).toList
          = "JJN-".toList ++ b.str.toList.take 8 := rfl
      rw [this] at hl
      have := List.append_cancel_left hl
      rwa [str_take8, str_take8] at this
    rw [hex_take8, hex_take8] at hl2
    generalize a.val / 16 ^ 24 = x at ha hl2 ⊢
    generalize b.val / 16 ^ 24 = y at hb hl2 ⊢
    have hd : ∀ i, i < 8 → (x / 16 ^ (7 - i)) % 16 = (y / 16 ^ (7 - i)) % 16 := by
      intro i hi
      have := List.map_inj_left.1 hl2 i (by simpa using hi)
      exact hexDigit_inj _ _ (Nat.mod_lt _ (by decide)) (Nat.mod_lt _ (by decide)) this
    have d0 := hd 0 (by decide)
    have d1 := hd 1 (by decide)
    have d2 := hd 2 (by decide)
    have d3 := hd 3 (by decide)
    have d4 := hd 4 (by decide)
    have d5 := hd 5 (by decide)
    have d6 := hd 6 (by decide)
    have d7 := hd 7 (by decide)
    norm_num at d0 d1 d2 d3 d4 d5 d6 d7 ha hb
    omega
  · intro h
    unfold orderIDOf
    rw [str_take8, str_take8, hex_take8, hex_take8, h]

/-- C27, as stated, fails: the donations with ids 1 and 2 have the same order id,
and a ledger update for the order id of donation 2 marks donation 1 paid and
leaves donation 2 pending. -/
theorem C27_distinct_ids_share_order_id :
    (1 : UUID) ≠ 2 ∧ orderIDOf 1 = "JJN-00000000" ∧ orderIDOf 2 = "JJN-00000000" ∧
    twinWorld.donations.map (fun d => (d.ID, d.PaymentID, d.PaymentStatus))
      = [(1, "JJN-00000000", "pending"), (2, "JJN-00000000", "pending")] ∧
    (DonationService.UpdatePaymentStatus {} twinWorld { now := sampleNow } (orderIDOf 2)
        PaymentStatusPaid).2.donations.map (fun d => (d.ID, d.PaymentStatus))
      = [(1, "paid"), (2, "pending")] := by
  decide

/-- C27, amended. Two donation ids have the same order id exactly when they agree
in their first 32 bits, the first 8 characters of the canonical string; ids that
differ there have distinct order ids. A ledger update for an order id changes
only rows that carry the id of the donation `FindByPaymentID` returns for it, the
first row in primary-key order whose payment id is the order id. -/
theorem C27_order_id_amended (a b : UUID) (s : DonationService) (w : World) (env : Env)
    (pid : String) (status : PaymentStatus) :
    (orderIDOf a = orderIDOf b ↔ a.val / 2 ^ 96 = b.val / 2 ^ 96) ∧
    (a.val / 2 ^ 96 ≠ b.val / 2 ^ 96 → orderIDOf a ≠ orderIDOf b) ∧
    ((s.UpdatePaymentStatus w env pid status).2.donations = w.donations ∨
      ∃ d l1 l2, w.donations = l1 ++ d :: l2 ∧ d.PaymentID = pid ∧
        (∀ x ∈ l1, x.PaymentID ≠ pid) ∧
        List.Forall₂ (fun before after => before.ID ≠ d.ID → after = before)
          w.donations (s.UpdatePaymentStatus w env pid status).2.donations) := by
  refine ⟨orderIDOf_eq_iff a b, fun h e => h ((orderIDOf_eq_iff a b).1 e), ?_⟩
  rcases UpdatePaymentStatus_donations s w env pid status with h | ⟨d, hd, h⟩
  · exact Or.inl h
  · right
    have hf := (FindByPaymentID_ok hd).2
    obtain ⟨hp, l1, l2, e1, e2⟩ := List.find?_eq_some.1 hf
    refine ⟨d, l1, l2, e1, ?_, ?_, ?_⟩
    · simpa using hp
    · intro x hx
      simpa using e2 x hx
    · rw [h, List.forall₂_map_right_iff, List.forall₂_same]
      intro x _ hx
      simp [hx]

theorem C27_order_id_amended_witness :
    orderIDOf 1 ≠ orderIDOf ⟨79228162514264337593543950336, by norm_num⟩ :=
  (C27_order_id_amended 1 ⟨79228162514264337593543950336, by norm_num⟩ {} twinWorld {}
    "JJN-00000000" "paid").2.1 (by decide)

/-! ## what a failed creation leaves, and the paid-at invariant -/

theorem insertByID_perm (d : Donation) (l : List Donation) : (insertByID d l).Perm (d :: l) := by
  induction l with
  | nil => simp [insertByID]
  | cons x rest ih =>
    unfold insertByID
    split
    · exact List.Perm.refl _
    · exact (List.Perm.cons x ih).trans (List.Perm.swap d x rest)

/-- The donations after `routePayment`: the table the insert left, or that table
with the inserted donation saved with a payment id. -/
theorem routePayment_donations (s : DonationService) (w : World) (env : CreateEnv)
    (input : CreateDonationInput) (creator : User) (row : Donation) (rows : List Donation) :
    ((s.routePayment w env input creator row rows).world.donations = rows ∧
      ∀ resp, (s.routePayment w env input creator row rows).result ≠ .ok resp) ∨
    (∃ oid, DonationRepository.Update rows env.saveErr env.now env.newID { row with PaymentID := oid } =
        .ok (s.routePayment w env input creator row rows).world.donations ∧
      (s.routePayment w env input creator row rows).result.toOption.map (fun r => r.Donation)
        = some { row with PaymentID := oid }) := by
  unfold DonationService.routePayment
  by_cases hq : paymentMethodOf input = "qris"
  · simp only [hq, beq_self_eq_true, if_true]
    cases s.paylabs.CreateTransaction env.apiNow env.api row creator with
    | error e => left; exact ⟨rfl, fun _ h => by cases h⟩
    | ok r =>
      simp only
      cases hU : DonationRepository.Update rows env.saveErr env.now env.newID { row with PaymentID := r.OrderID } with
      | error e => left; exact ⟨rfl, fun _ h => by cases h⟩
      | ok rows2 => right; exact ⟨r.OrderID, hU, rfl⟩
  · simp only [beq_iff_eq, hq, if_false]
    cases ewalletPaymentTypes.lookup (paymentMethodOf input) with
    | none => left; exact ⟨rfl, fun _ h => by cases h⟩
    | some code =>
      simp only
      by_cases hamt : input.Amount < 10000
      · rw [if_pos hamt]
        left; exact ⟨rfl, fun _ h => by cases h⟩
      · rw [if_neg hamt]
        cases s.paylabs.CreateEWalletTransaction env.apiNow env.api row creator code
            input.RedirectUrl with
        | error e => left; exact ⟨rfl, fun _ h => by cases h⟩
        | ok r =>
          simp only
          cases hU : DonationRepository.Update rows env.saveErr env.now env.newID
              { row with PaymentID := r.OrderID } with
          | error e => left; exact ⟨rfl, fun _ h => by cases h⟩
          | ok rows2 => right; exact ⟨r.OrderID, hU, rfl⟩

/-- `routePayment` writes nothing but the donations table. -/
theorem routePayment_frame (s : DonationService) (w : World) (env : CreateEnv)
    (input : CreateDonationInput) (creator : User) (row : Donation) (rows : List Donation) :
    (s.routePayment w env input creator row rows).world.users = w.users ∧
    (s.routePayment w env input creator row rows).world.broadcasts = w.broadcasts := by
  unfold DonationService.routePayment
  by_cases hq : paymentMethodOf input = "qris"
  · simp only [hq, beq_self_eq_true, if_true]
    cases s.paylabs.CreateTransaction env.apiNow env.api row creator with
    | error e => exact ⟨rfl, rfl⟩
    | ok r =>
      simp only
      cases DonationRepository.Update rows env.saveErr env.now env.newID { row with PaymentID := r.OrderID } with
      | error e => exact ⟨rfl, rfl⟩
      | ok rows2 => exact ⟨rfl, rfl⟩
  · simp only [beq_iff_eq, hq, if_false]
    cases ewalletPaymentTypes.lookup (paymentMethodOf input) with
    | none => exact ⟨rfl, rfl⟩
    | some code =>
      simp only
      by_cases hamt : input.Amount < 10000
      · rw [if_pos hamt]
        exact ⟨rfl, rfl⟩
      · rw [if_neg hamt]
        cases s.paylabs.CreateEWalletTransaction env.apiNow env.api row creator code
            input.RedirectUrl with
        | error e => exact ⟨rfl, rfl⟩
        | ok r =>
          simp only
          cases DonationRepository.Update rows env.saveErr env.now env.newID { row with PaymentID := r.OrderID } with
          | error e => exact ⟨rfl, rfl⟩
          | ok rows2 => exact ⟨rfl, rfl⟩

/-- C28, as stated, fails: an e-wallet donation below the minimum amount is
refused with an error, and the donation store then holds one donation more than
before the call, pending and without a payment id. -/
theorem C28_refusal_leaves_a_row :
    (DonationService.CreateDonation {} sampleShop
        { now := sampleNow, apiNow := sampleNow, api := constAPI (.error "unreachable") }
        (sampleInput "dana" 5000) none).result
      = .error "minimum amount untuk E-Wallet adalah Rp 10.000" ∧
    sampleShop.donations.map (fun d => (d.ID, d.PaymentID, d.PaymentStatus))
      = [(2, "JJN-00000002", "pending")] ∧
    (DonationService.CreateDonation {} sampleShop
        { now := sampleNow, apiNow := sampleNow, api := constAPI (.error "unreachable") }
        (sampleInput "dana" 5000) none).world.donations.map
          (fun d => (d.ID, d.PaymentID, d.PaymentStatus))
      = [(1, "", "pending"), (2, "JJN-00000002", "pending")] := by
  refine ⟨by rfl, by decide, by decide⟩

/-- C28, amended. When `CreateDonation` returns an error, the store holds the
donations it held before either unchanged, which is the case when the creator is
not found or the insert fails (and then no PSP call was made), or with one
donation added: the new donation, pending, with no payment id and no `paid_at`.
The latter is the case for an unknown payment method, an e-wallet amount below
10000, a PSP failure and a failed save. Users and broadcasts are unchanged. -/
theorem C28_failure_amended (s : DonationService) (w : World) (env : CreateEnv)
    (input : CreateDonationInput) (buyerID : Option UUID) (e : String)
    (herr : (s.CreateDonation w env input buyerID).result = .error e) :
    (((s.CreateDonation w env input buyerID).world = w ∧
        (s.CreateDonation w env input buyerID).pspCalls = [] ∧
        (e = "creator not found" ∨ e = "failed to create donation")) ∨
      ∃ row, row.PaymentID = "" ∧ row.PaymentStatus = PaymentStatusPending ∧
        row.PaidAt = none ∧
        (s.CreateDonation w env input buyerID).world.donations = insertByID row w.donations ∧
        (s.CreateDonation w env input buyerID).world.donations.Perm (row :: w.donations)) ∧
    (s.CreateDonation w env input buyerID).world.users = w.users ∧
    (s.CreateDonation w env input buyerID).world.broadcasts = w.broadcasts := by
  cases hcreator : UserRepository.FindByUsername w.users env.userErr input.CreatorUsername with
  | error x =>
    have hres : s.CreateDonation w env input buyerID
        = { result := .error "creator not found", world := w } := by
      unfold DonationService.CreateDonation
      simp only [hcreator]
    rw [hres] at herr ⊢
    injection herr with herr
    exact ⟨Or.inl ⟨rfl, rfl, Or.inl herr.symm⟩, rfl, rfl⟩
  | ok cr =>
    cases hcreate : DonationRepository.Create w.donations env.createErr env.now env.newID
        (s.draftDonation w env input buyerID cr) with
    | error x =>
      have hres : s.CreateDonation w env input buyerID
          = { result := .error "failed to create donation", world := w } := by
        unfold DonationService.CreateDonation
        simp only [hcreator, hcreate]
      rw [hres] at herr ⊢
      injection herr with herr
      exact ⟨Or.inl ⟨rfl, rfl, Or.inr herr.symm⟩, rfl, rfl⟩
    | ok p =>
      obtain ⟨row, rows⟩ := p
      rw [CreateDonation_inserted s w env input buyerID cr row rows hcreator hcreate] at herr ⊢
      obtain ⟨g1, g2, g3, _⟩ := Create_draft s w env input buyerID cr row rows hcreate
      have g4 : row.PaidAt = none := by
        unfold DonationRepository.Create at hcreate
        cases hc : env.createErr with
        | some x => simp [hc] at hcreate
        | none =>
          simp only [hc] at hcreate
          split at hcreate
          · cases hcreate
          · injection hcreate with hcreate
            injection hcreate with h1 h2
            rw [← h1]
            rfl
      refine ⟨Or.inr ⟨row, g2, g3, g4, ?_⟩, routePayment_frame s w env input cr row rows⟩
      rcases routePayment_donations s w env input cr row rows with ⟨h, _⟩ | ⟨oid, _, h⟩
      · rw [h, g1]
        exact ⟨rfl, insertByID_perm row w.donations⟩
      · rw [herr] at h
        cases h

theorem C28_failure_amended_witness :
    (DonationService.CreateDonation {} sampleShop
        { now := sampleNow, apiNow := sampleNow, api := constAPI (.error "timeout") }
        (sampleInput "qris" 5000) none).world.users = sampleShop.users :=
  (C28_failure_amended {} sampleShop
    { now := sampleNow, apiNow := sampleNow, api := constAPI (.error "timeout") }
    (sampleInput "qris" 5000) none "failed to create payment: timeout" (by rfl)).2.1

theorem mem_insertByID_iff (d x : Donation) (l : List Donation) :
    x ∈ insertByID d l ↔ x = d ∨ x ∈ l := by
  rw [(insertByID_perm d l).mem_iff, List.mem_cons]

/-- The insert keeps the invariant: the new row has a fresh id, is pending and has
no `paid_at`. -/
theorem PaidAtInvariant_Create (s : DonationService) (w : World) (env : CreateEnv)
    (input : CreateDonationInput) (buyerID : Option UUID) (creator : User) (row : Donation)
    (rows : List Donation) (hinv : PaidAtInvariant w)
    (hcreate : DonationRepository.Create w.donations env.createErr env.now env.newID
      (s.draftDonation w env input buyerID creator) = .ok (row, rows)) :
    PaidAtInvariant { w with donations := rows } ∧ row ∈ rows ∧
    row.PaymentStatus = PaymentStatusPending ∧ row.PaidAt = none := by
  obtain ⟨g1, _, g3, _⟩ := Create_draft s w env input buyerID creator row rows hcreate
  have hfresh : row.ID ∉ w.donations.map (fun d => d.ID) ∧ row.PaidAt = none := by
    unfold DonationRepository.Create at hcreate
    cases hc : env.createErr with
    | some x => simp [hc] at hcreate
    | none =>
      simp only [hc] at hcreate
      split at hcreate
      · cases hcreate
      · rename_i hany
        injection hcreate with hcreate
        injection hcreate with h1 h2
        rw [← h1]
        refine ⟨?_, rfl⟩
        intro hmem
        apply hany
        rw [List.any_eq_true]
        obtain ⟨x, hx, hxid⟩ := List.mem_map.1 hmem
        exact ⟨x, hx, by simpa using hxid⟩
  obtain ⟨hn, hp⟩ := hinv
  refine ⟨⟨?_, ?_⟩, ?_, g3, hfresh.2⟩
  · show (rows.map (fun d => d.ID)).Nodup
    rw [g1]
    have hperm := (insertByID_perm row w.donations).map (fun d => d.ID)
    rw [hperm.nodup_iff, List.map_cons, List.nodup_cons]
    exact ⟨hfresh.1, hn⟩
  · intro d hd
    have hd2 : d ∈ insertByID row w.donations := g1 ▸ hd
    rcases (mem_insertByID_iff row d w.donations).1 hd2 with h | h
    · rw [h, hfresh.2, g3]
      simp [PaymentStatusPending, PaymentStatusPaid]
    · exact hp d h
  · rw [g1]
    exact mem_insertByID row w.donations

/-- The save of the inserted donation with its payment id keeps the invariant. -/
theorem PaidAtInvariant_Update (w : World) (rows rows2 : List Donation) (err : Option String)
    (row : Donation) (oid : String) (hinv : PaidAtInvariant { w with donations := rows })
    (hrow : row ∈ rows) (hpend : row.PaymentStatus = PaymentStatusPending)
    (hnone : row.PaidAt = none) {now : Time} {newID : UUID}
    (h : DonationRepository.Update rows err now newID { row with PaymentID := oid } = .ok rows2) :
    PaidAtInvariant { w with donations := rows2 } := by
  obtain ⟨hn, hp⟩ := hinv
  unfold DonationRepository.Update at h
  cases he : err with
  | some e => simp [he] at h
  | none =>
    have hany : rows.any (fun x => x.ID == row.ID) = true := by
      rw [List.any_eq_true]
      exact ⟨row, hrow, by simp⟩
    simp only [he, hany, if_true, Except.ok.injEq] at h
    subst h
    constructor
    · show ((rows.map _).map (fun d : Donation => d.ID)).Nodup
      rw [List.map_map]
      have : ((fun d : Donation => d.ID) ∘ fun x : Donation =>
          if x.ID = row.ID then { row with PaymentID := oid } else x) = fun d => d.ID := by
        funext x
        by_cases hx : x.ID = row.ID
        · simp [hx]
        · simp [hx]
      rw [this]
      exact hn
    · intro d hd
      obtain ⟨x, hx, hxd⟩ := List.mem_map.1 hd
      by_cases hid : x.ID = row.ID
      · simp only [hid, if_true] at hxd
        rw [← hxd]
        simp [hnone, hpend, PaymentStatusPending, PaymentStatusPaid]
      · simp only [hid, if_false] at hxd
        rw [← hxd]
        exact hp x hx

/-- The write case of a ledger call, with what was read: the donation found was
not paid. -/
theorem UpdatePaymentStatus_written (s : DonationService) (w : World) (env : Env)
    (pid : String) (status : PaymentStatus) :
    (s.UpdatePaymentStatus w env pid status).2.donations = w.donations ∨
    ∃ d, d ∈ w.donations ∧ d.PaymentStatus ≠ PaymentStatusPaid ∧
      (s.UpdatePaymentStatus w env pid status).2.donations =
        w.donations.map (fun x => if x.ID = d.ID then applyStatusUpdate status env.now x else x) := by
  cases hf : DonationRepository.FindByPaymentID w.donations env.findErr pid with
  | error x =>
    left
    unfold DonationService.UpdatePaymentStatus
    simp [hf]
  | ok d =>
    by_cases h1 : d.PaymentStatus = status
    · left; rw [UpdatePaymentStatus_noop s w env pid status d hf (Or.inl h1)]
    · by_cases h2 : d.PaymentStatus = PaymentStatusPaid
      · left; rw [UpdatePaymentStatus_noop s w env pid status d hf (Or.inr h2)]
      · cases hu : env.updateErr with
        | some x =>
          left
          unfold DonationService.UpdatePaymentStatus
          simp [hf, h1, h2, hu, DonationRepository.UpdatePaymentStatus]
        | none =>
          right
          exact ⟨d, List.mem_of_find?_eq_some (FindByPaymentID_ok hf).2, h2,
            (UpdatePaymentStatus_write s w env pid status d hf h1 h2 hu).2.2⟩

/-- Calls that do not overlap keep the invariant: it holds for the empty table,
is kept by `CreateDonation`, whose new donation is pending with `paid_at` unset,
and is kept by an `UpdatePaymentStatus` call that runs from its read to its write
with no other write in between. -/
theorem PaidAtInvariant_serial (s : DonationService) (w : World) (cenv : CreateEnv)
    (input : CreateDonationInput) (buyerID : Option UUID) (env : Env) (pid : String)
    (status : PaymentStatus) (hinv : PaidAtInvariant w) :
    PaidAtInvariant {} ∧
    PaidAtInvariant (s.CreateDonation w cenv input buyerID).world ∧
    (∀ resp, (s.CreateDonation w cenv input buyerID).result = .ok resp →
      resp.Donation.PaymentStatus = PaymentStatusPending ∧ resp.Donation.PaidAt = none ∧
      resp.Donation ∈ (s.CreateDonation w cenv input buyerID).world.donations) ∧
    PaidAtInvariant (s.UpdatePaymentStatus w env pid status).2 := by
  refine ⟨⟨by simp, by simp⟩, ?_, ?_, ?_⟩
  · cases hcreator : UserRepository.FindByUsername w.users cenv.userErr input.CreatorUsername with
    | error x =>
      have hres : s.CreateDonation w cenv input buyerID
          = { result := .error "creator not found", world := w } := by
        unfold DonationService.CreateDonation
        simp only [hcreator]
      rw [hres]
      exact hinv
    | ok cr =>
      cases hcreate : DonationRepository.Create w.donations cenv.createErr cenv.now cenv.newID
          (s.draftDonation w cenv input buyerID cr) with
      | error x =>
        have hres : s.CreateDonation w cenv input buyerID
            = { result := .error "failed to create donation", world := w } := by
          unfold DonationService.CreateDonation
          simp only [hcreator, hcreate]
        rw [hres]
        exact hinv
      | ok p =>
        obtain ⟨row, rows⟩ := p
        rw [CreateDonation_inserted s w cenv input buyerID cr row rows hcreator hcreate]
        obtain ⟨h1, h2, h3, h4⟩ :=
          PaidAtInvariant_Create s w cenv input buyerID cr row rows hinv hcreate
        rcases routePayment_donations s w cenv input cr row rows with ⟨h, _⟩ | ⟨oid, h, _⟩
        · constructor
          · show (List.map _ (s.routePayment w cenv input cr row rows).world.donations).Nodup
            rw [h]
            exact h1.1
          · intro d hd
            rw [h] at hd
            exact h1.2 d hd
        · have := PaidAtInvariant_Update w rows _ cenv.saveErr row oid h1 h2 h3 h4 h
          exact ⟨this.1, this.2⟩
  · intro resp hres
    cases hcreator : UserRepository.FindByUsername w.users cenv.userErr input.CreatorUsername with
    | error x =>
      unfold DonationService.CreateDonation at hres
      simp [hcreator] at hres
    | ok cr =>
      cases hcreate : DonationRepository.Create w.donations cenv.createErr cenv.now cenv.newID
          (s.draftDonation w cenv input buyerID cr) with
      | error x =>
        unfold DonationService.CreateDonation at hres
        simp [hcreator, hcreate] at hres
      | ok p =>
        obtain ⟨row, rows⟩ := p
        rw [CreateDonation_inserted s w cenv input buyerID cr row rows hcreator hcreate] at hres ⊢
        obtain ⟨_, h2, h3, h4⟩ :=
          PaidAtInvariant_Create s w cenv input buyerID cr row rows hinv hcreate
        obtain ⟨g1, _, g3, _⟩ := routePayment_ok s w cenv input cr row rows resp h2 hres
        refine ⟨?_, ?_, g3⟩
        · rw [g1]; exact h3
        · rw [g1]; exact h4
  · obtain ⟨hn, hp⟩ := hinv
    rcases UpdatePaymentStatus_written s w env pid status with h | ⟨d, hd, hnp, h⟩
    · constructor
      · show (List.map _ (s.UpdatePaymentStatus w env pid status).2.donations).Nodup
        rw [h]
        exact hn
      · intro x hx
        rw [h] at hx
        exact hp x hx
    · constructor
      · show (List.map _ (s.UpdatePaymentStatus w env pid status).2.donations).Nodup
        rw [h, List.map_map]
        have : ((fun d : Donation => d.ID) ∘ fun x : Donation =>
            if x.ID = d.ID then applyStatusUpdate status env.now x else x) = fun d => d.ID := by
          funext x
          by_cases hx : x.ID = d.ID
          · simp [hx, applyStatusUpdate_eq]
          · simp [hx]
        rw [this]
        exact hn
      · intro y hy
        rw [h] at hy
        obtain ⟨x, hx, hxy⟩ := List.mem_map.1 hy
        by_cases hid : x.ID = d.ID
        · have hxd : x = d := List.inj_on_of_nodup_map hn hx hd hid
          simp only [hid, if_true] at hxy
          rw [← hxy, hxd, applyStatusUpdate_eq]
          by_cases hs : status = PaymentStatusPaid
          · simp [hs]
          · have hdn : d.PaidAt.isSome = false := by
              cases hsome : d.PaidAt.isSome
              · rfl
              · exact absurd ((hp d hd).1 hsome) hnp
            simp [hs, hdn]
        · simp only [hid, if_false] at hxy
          rw [← hxy]
          exact hp x hx

/-! ## two reconciliations at the same time -/

/-- `UpdatePaymentStatus` is its read followed at once by `decideAndWrite`. -/
theorem UpdatePaymentStatus_eq_read_then_write (s : DonationService) (w : World) (env : Env)
    (pid : String) (status : PaymentStatus) :
    s.UpdatePaymentStatus w env pid status =
      match DonationRepository.FindByPaymentID w.donations env.findErr pid with
      | .error _ => (.error "donation not found", w)
      | .ok donation => s.decideAndWrite w env donation status := by
  unfold DonationService.UpdatePaymentStatus DonationService.decideAndWrite
  rfl

/-- C24 fails on the code. Nothing makes the read and the write of
`UpdatePaymentStatus` atomic: when two deliveries of status paid for one pending
donation both read before either writes, both find the donation pending, both
write, and two alerts are broadcast, where the two calls one after the other
broadcast one. -/
theorem C24_both_observe_pending :
    (bothReadThenWrite {} (sampleWorld "pending" none) { now := sampleNow } { now := sampleNow }
        "JJN-00000001" PaymentStatusPaid).map
          (fun r => (r.2.1.PaymentStatus, r.2.2.PaymentStatus, r.1.broadcasts.length,
            r.1.donations.map (fun d => d.PaymentStatus)))
      = some ("pending", "pending", 2, ["paid", "pending"]) ∧
    (DonationService.UpdatePaymentStatus {}
        (DonationService.UpdatePaymentStatus {} (sampleWorld "pending" none) { now := sampleNow }
          "JJN-00000001" PaymentStatusPaid).2
        { now := sampleNow } "JJN-00000001" PaymentStatusPaid).2.broadcasts.length = 1 := by
  decide

/-- C29 fails on the code. A donation created by `CreateDonation` is pending with
`paid_at` unset, and the invariant holds then. When a webhook reporting paid and
a cancel request for its order id are served together, both read the donation
pending, the webhook writes paid and `paid_at`, and the cancel writes failed over
it: the donation is failed with `paid_at` set, a paid donation has been
reverted, and the invariant is broken by `UpdatePaymentStatus` calls alone. The
same two calls one after the other leave the donation paid. -/
theorem C29_race_reverts_paid :
    createdShop.donations.map (fun d => (d.PaymentID, d.PaymentStatus, d.PaidAt))
      = [("JJN-00000002", "pending", none), ("JJN-12345678", "pending", none)] ∧
    PaidAtInvariant createdShop ∧
    (bothReadThenWriteEach {} createdShop { now := sampleNow } { now := sampleNowLater }
        "JJN-12345678" PaymentStatusPaid PaymentStatusFailed).map
          (fun w => (w.donations.map (fun d => (d.PaymentID, d.PaymentStatus, d.PaidAt)),
            decide (PaidAtInvariant w)))
      = some ([("JJN-00000002", "pending", none), ("JJN-12345678", "failed", some sampleNow)],
          false) ∧
    (DonationService.UpdatePaymentStatus {}
        (DonationService.UpdatePaymentStatus {} createdShop { now := sampleNow }
          "JJN-12345678" PaymentStatusPaid).2
        { now := sampleNowLater } "JJN-12345678" PaymentStatusFailed).2.donations.map
          (fun d => (d.PaymentID, d.PaymentStatus, d.PaidAt))
      = [("JJN-00000002", "pending", none), ("JJN-12345678", "paid", some sampleNow)] := by
  refine ⟨by decide, by decide, by decide, by decide⟩

/-! ## statistics and withdrawals -/

theorem paidFor_iff (creatorID : UUID) (d : Donation) :
    paidFor creatorID d = true ↔ d.CreatorID = creatorID ∧ d.PaymentStatus = PaymentStatusPaid := by
  unfold paidFor
  simp

theorem filter_paidFor_skip (creatorID : UUID) (l1 l2 : List Donation) (d : Donation)
    (h : ¬ (d.CreatorID = creatorID ∧ d.PaymentStatus = PaymentStatusPaid)) :
    (l1 ++ d :: l2).filter (paidFor creatorID) = (l1 ++ l2).filter (paidFor creatorID) := by
  have hd : paidFor creatorID d = false := by
    cases hp : paidFor creatorID d with
    | false => rfl
    | true => exact absurd ((paidFor_iff creatorID d).1 hp) h
  rw [List.filter_append, List.filter_append, List.filter_cons_of_neg (by simp [hd])]

theorem GetStats_skip (creatorID : UUID) (l1 l2 : List Donation) (d : Donation)
    (h : ¬ (d.CreatorID = creatorID ∧ d.PaymentStatus = PaymentStatusPaid)) :
    DonationRepository.GetStats (l1 ++ d :: l2) none none creatorID
      = DonationRepository.GetStats (l1 ++ l2) none none creatorID := by
  unfold DonationRepository.GetStats
  rw [filter_paidFor_skip creatorID l1 l2 d h]

/-- C25: without a database fault, and with the sum of the amounts of the
creator's paid donations in the range of the `int64` it is scanned into,
`GetStats` reports that sum, the number, and the number of distinct buyer emails
of the donations that belong to the creator and are paid; a donation of another
creator or in another status (pending, failed and expired among them) can be
removed without changing the result, the order of the rows does not matter, a
paid donation of the creator adds its amount (the new sum in range), one to the
count, and one supporter exactly when its email is new, and with no paid donation
of the creator all three are 0. -/
theorem C25_GetStats (donations l1 l2 : List Donation) (d : Donation) (creatorID : UUID)
    (hfit : -(2 : Int) ^ 63 ≤ ((donations.filter (fun x => decide (x.CreatorID = creatorID ∧
          x.PaymentStatus = PaymentStatusPaid))).map (fun x => x.Amount)).sum ∧
        ((donations.filter (fun x => decide (x.CreatorID = creatorID ∧
          x.PaymentStatus = PaymentStatusPaid))).map (fun x => x.Amount)).sum < 2 ^ 63) :
    (DonationRepository.GetStats donations none none creatorID).TotalAmount
        = ((donations.filter (fun x => decide (x.CreatorID = creatorID ∧
            x.PaymentStatus = PaymentStatusPaid))).map (fun x => x.Amount)).sum ∧
    (DonationRepository.GetStats donations none none creatorID).TotalDonations
        = ((donations.filter (fun x => decide (x.CreatorID = creatorID ∧
            x.PaymentStatus = PaymentStatusPaid))).length : Nat) ∧
    (DonationRepository.GetStats donations none none creatorID).TotalSupporters
        = (((donations.filter (fun x => decide (x.CreatorID = creatorID ∧
            x.PaymentStatus = PaymentStatusPaid))).map
              (fun x => x.BuyerEmail)).toFinset.card : Nat) ∧
    (-(2 : Int) ^ 63 ≤ (DonationRepository.GetStats donations none none creatorID).TotalAmount ∧
      (DonationRepository.GetStats donations none none creatorID).TotalAmount < 2 ^ 63) ∧
    (¬ (d.CreatorID = creatorID ∧ d.PaymentStatus = PaymentStatusPaid) →
      DonationRepository.GetStats (l1 ++ d :: l2) none none creatorID
        = DonationRepository.GetStats (l1 ++ l2) none none creatorID) ∧
    (d.PaymentStatus = PaymentStatusPending ∨ d.PaymentStatus = PaymentStatusFailed ∨
        d.PaymentStatus = PaymentStatusExpired →
      DonationRepository.GetStats (l1 ++ d :: l2) none none creatorID
        = DonationRepository.GetStats (l1 ++ l2) none none creatorID) ∧
    (d.CreatorID = creatorID → d.PaymentStatus = PaymentStatusPaid →
      (-(2 : Int) ^ 63 ≤ d.Amount +
          (DonationRepository.GetStats donations none none creatorID).TotalAmount ∧
        d.Amount + (DonationRepository.GetStats donations none none creatorID).TotalAmount
          < 2 ^ 63) →
      DonationRepository.GetStats (d :: donations) none none creatorID
        = { TotalAmount :=
              d.Amount + (DonationRepository.GetStats donations none none creatorID).TotalAmount
            TotalDonations :=
              (DonationRepository.GetStats donations none none creatorID).TotalDonations + 1
            TotalSupporters :=
              (DonationRepository.GetStats donations none none creatorID).TotalSupporters +
                (if ∃ x ∈ donations, x.CreatorID = creatorID ∧
                    x.PaymentStatus = PaymentStatusPaid ∧ x.BuyerEmail = d.BuyerEmail
                  then 0 else 1) }) ∧
    (donations.Perm l1 →
      DonationRepository.GetStats donations none none creatorID
        = DonationRepository.GetStats l1 none none creatorID) ∧
    ((∀ x ∈ donations, ¬ (x.CreatorID = creatorID ∧ x.PaymentStatus = PaymentStatusPaid)) →
      DonationRepository.GetStats donations none none creatorID
        = { TotalAmount := 0, TotalDonations := 0, TotalSupporters := 0 }) := by
  have hfun : (fun x : Donation => decide (x.CreatorID = creatorID ∧
      x.PaymentStatus = PaymentStatusPaid)) = paidFor creatorID := by
    funext x
    unfold paidFor
    rw [Bool.eq_iff_iff]
    simp
  rw [hfun] at hfit ⊢
  have hget : DonationRepository.GetStats donations none none creatorID =
      { TotalAmount := ((donations.filter (paidFor creatorID)).map (fun x => x.Amount)).sum
        TotalDonations := ((donations.filter (paidFor creatorID)).length : Nat)
        TotalSupporters :=
          ((((donations.filter (paidFor creatorID)).map (fun x => x.BuyerEmail)).dedup.length
            : Nat) : Int) } := by
    unfold DonationRepository.GetStats
    dsimp only
    rw [if_pos hfit]
  refine ⟨?_, ?_, ?_, ?_, GetStats_skip creatorID l1 l2 d, ?_, ?_, ?_, ?_⟩
  · rw [hget]
  · rw [hget]
  · rw [hget, List.card_toFinset]
  · rw [hget]
    exact hfit
  · intro h
    apply GetStats_skip creatorID l1 l2 d
    rintro ⟨-, hp⟩
    rw [hp] at h
    revert h
    decide
  · intro hc hp
    rw [hget]
    intro hfit2
    have hd : paidFor creatorID d = true := (paidFor_iff creatorID d).2 ⟨hc, hp⟩
    have hsum : ((List.filter (paidFor creatorID) (d :: donations)).map (fun x => x.Amount)).sum
        = d.Amount + ((donations.filter (paidFor creatorID)).map (fun x => x.Amount)).sum := by
      rw [List.filter_cons_of_pos hd, List.map_cons, List.sum_cons]
    have hfit3 : -(2 : Int) ^ 63 ≤
          ((List.filter (paidFor creatorID) (d :: donations)).map (fun x => x.Amount)).sum ∧
        ((List.filter (paidFor creatorID) (d :: donations)).map (fun x => x.Amount)).sum
          < 2 ^ 63 := by
      rw [hsum]
      exact hfit2
    unfold DonationRepository.GetStats
    dsimp only
    rw [if_pos hfit3, hsum, List.filter_cons_of_pos hd]
    simp only [List.map_cons, List.length_cons]
    by_cases hex : ∃ x ∈ donations, x.CreatorID = creatorID ∧
        x.PaymentStatus = PaymentStatusPaid ∧ x.BuyerEmail = d.BuyerEmail
    · have hmem : d.BuyerEmail ∈
          List.map (fun x => x.BuyerEmail) (List.filter (paidFor creatorID) donations) := by
        obtain ⟨x, hx, hxc, hxp, hxe⟩ := hex
        exact List.mem_map.2 ⟨x, List.mem_filter.2 ⟨hx, (paidFor_iff creatorID x).2 ⟨hxc, hxp⟩⟩, hxe⟩
      rw [List.dedup_cons_of_mem hmem, if_pos hex]
      simp
    · have hmem : d.BuyerEmail ∉
          List.map (fun x => x.BuyerEmail) (List.filter (paidFor creatorID) donations) := by
        intro hm
        obtain ⟨x, hx, hxe⟩ := List.mem_map.1 hm
        have hx2 := List.mem_filter.1 hx
        have hx3 := (paidFor_iff creatorID x).1 hx2.2
        exact hex ⟨x, hx2.1, hx3.1, hx3.2, hxe⟩
      rw [List.dedup_cons_of_not_mem hmem, if_neg hex]
      simp
  · intro hperm
    have hf : (donations.filter (paidFor creatorID)).Perm (l1.filter (paidFor creatorID)) :=
      hperm.filter _
    unfold DonationRepository.GetStats
    have h1 := (hf.map (fun x => x.Amount)).sum_eq
    have h2 := hf.length_eq
    have h3 := ((hf.map (fun x => x.BuyerEmail)).dedup).length_eq
    simp only [h1, h2, h3]
  · intro hall
    have hnil : donations.filter (paidFor creatorID) = [] := by
      apply List.filter_eq_nil_iff.2
      intro x hx hp
      exact hall x hx ((paidFor_iff creatorID x).1 hp)
    unfold DonationRepository.GetStats
    rw [hnil]
    rfl

/-- C25 at the paid-out creator, whose one paid donation is of 100000, and with
one more donation, pending, from another buyer: it changes none of the three
numbers. -/
theorem C25_GetStats_witness :
    (DonationRepository.GetStats paidOutWorld.donations none none 7).TotalAmount = 100000 ∧
    ¬ ((otherDonation).CreatorID = 7 ∧ (otherDonation).PaymentStatus = PaymentStatusPaid) ∧
    DonationRepository.GetStats ([] ++ otherDonation :: paidOutWorld.donations) none none 7
      = DonationRepository.GetStats ([] ++ paidOutWorld.donations) none none 7 :=
  ⟨(C25_GetStats paidOutWorld.donations [] paidOutWorld.donations otherDonation 7
      (by decide)).1,
   by decide,
   (C25_GetStats paidOutWorld.donations [] paidOutWorld.donations otherDonation 7
      (by decide)).2.2.2.2.1 (by decide)⟩

/-- C26: a creator who earned 100000 and has a completed withdrawal of 100000 is
shown an available balance of 0, and yet a new withdrawal of 100000 is accepted,
because `CreateWithdrawal` subtracts only the pending and processing withdrawals
from the total earned; afterwards completed and outstanding withdrawals add up
to 200000 against 100000 earned. -/
theorem C26_completed_withdrawals_are_not_deducted :
    WithdrawalService.GetBalance paidOutWorld {} 7
      = .ok [("total_earned", 100000), ("total_withdrawn", 100000),
             ("pending_withdrawals", 0), ("available_balance", 0)] ∧
    ((WithdrawalService.CreateWithdrawal paidOutWorld { newID := 6 } 7 { Amount := 100000 }).2.withdrawals.map
        (fun x => (x.ID, x.UserID, x.Amount, x.Status)))
      = [(5, 7, 100000, "completed"), (6, 7, 100000, "pending")] ∧
    (WithdrawalService.CreateWithdrawal paidOutWorld { newID := 6 } 7 { Amount := 100000 }).1.toOption.map
        (fun row => (row.ID, row.Amount, row.Status))
      = some (6, 100000, "pending") ∧
    WithdrawalService.GetBalance
        (WithdrawalService.CreateWithdrawal paidOutWorld { newID := 6 } 7 { Amount := 100000 }).2 {} 7
      = .ok [("total_earned", 100000), ("total_withdrawn", 100000),
             ("pending_withdrawals", 100000), ("available_balance", -100000)] := by
  refine ⟨by rfl, by decide, by decide, by rfl⟩

end Jajanin
